import Mathlib

/-! # Verification of the `python_utils` unit converter

A shallow embedding of `src/python_utils/unit_converter.py` and proofs about
it.  Python strings are modelled as `List Char` (Python compares and slices
strings by code points, which matches `Char` lists), `decimal.Decimal` and
`float` values are modelled as exact rationals (`Rat`), and Python exceptions
are modelled with `Except`.  All definitions use structural recursion (with an
explicit fuel argument standing for Python's recursion limit where the source
recursion is unbounded) so that every function evaluates inside the kernel.

Modelling notes, fixed throughout:
* `decimal.Decimal` arithmetic rounds every result to the default context
  (28 significant digits, `ROUND_HALF_EVEN`).  The two context-rounded
  operations on `convert`'s general path — the factor-ratio division and the
  multiplication by the input value — are modelled faithfully by
  `decDiv`/`decMul` over `roundSig`; this rounding is what makes the naive
  identity `convert(x, U, U) == x` fail beyond 28 significant digits.  The
  remaining `Decimal` arithmetic (unit factors, exponents, the affine
  temperature formulas) and all `float` arithmetic (53-bit) are modelled as
  exact rational arithmetic; every numeric fact proved below through those
  paths involves only values on which the Python computation is exact as
  well.
* `str(value)` of a `Decimal` input is modelled positionally: the model of a
  `Decimal` carries its integer coefficient and decimal exponent, and the
  string is considered to contain a decimal point exactly when the exponent
  is negative (Python prints scientific notation only for adjusted exponents
  outside `[-6, 0]`, a region none of the claims touch).
* The dynamic attribute injection (`setattr(Unit, ...)`) performed by the
  catalog builders only mirrors the tables into class attributes; it is not
  modelled because no claim mentions attribute access.
-/

/-! ## Python string primitives over `List Char` -/

/-- Python `str.startswith` / list-prefix test. -/
def isPfxOf : List Char → List Char → Bool
  | [], _ => true
  | _ :: _, [] => false
  | a :: as, b :: bs => a == b && isPfxOf as bs

/-- Python `needle in hay` substring test. -/
def containsCL (hay needle : List Char) : Bool :=
  match hay with
  | [] => needle.isEmpty
  | _ :: t => isPfxOf needle hay || containsCL t needle

/-- Fuel-driven worker for `replaceAllCL`; the fuel is bounded by the length
of the haystack plus one, so the first branch is never reached. -/
def replaceAllAux : Nat → List Char → List Char → List Char → List Char
  | 0, hay, _, _ => hay
  | fuel + 1, hay, pat, rep =>
    match hay with
    | [] => []
    | c :: t =>
      if pat ≠ [] && isPfxOf pat hay then
        rep ++ replaceAllAux fuel (hay.drop pat.length) pat rep
      else
        c :: replaceAllAux fuel t pat rep

/-- Python `str.replace(pat, rep)`: replace all occurrences, scanning left to
right without overlap.  Every pattern used by the source is a non-empty
literal, so the empty-pattern case (where Python would interleave `rep`
everywhere) never arises and is left as the identity. -/
def replaceAllCL (hay pat rep : List Char) : List Char :=
  replaceAllAux (hay.length + 1) hay pat rep

/-- Python `str.replace(pat, rep, 1)`: replace the first occurrence only. -/
def replaceFirstCL : List Char → List Char → List Char → List Char
  | [], _, _ => []
  | c :: t, pat, rep =>
    if pat ≠ [] && isPfxOf pat (c :: t) then rep ++ (c :: t).drop pat.length
    else c :: replaceFirstCL t pat rep

/-- Python whitespace recognized by `str.strip`. -/
def isPyWs (c : Char) : Bool :=
  c == ' ' || c == '\t' || c == '\n' || c == '\r'

/-- Python `str.strip()`. -/
def trimCL (l : List Char) : List Char :=
  ((l.dropWhile isPyWs).reverse.dropWhile isPyWs).reverse

/-- Python `str.split(sep)` for a single-character separator: `""` splits to
`[""]`, and empty pieces are kept, as in Python. -/
def splitOnCharCL (sep : Char) : List Char → List (List Char)
  | [] => [[]]
  | c :: t =>
    if c == sep then [] :: splitOnCharCL sep t
    else
      match splitOnCharCL sep t with
      | [] => [[c]]
      | h :: r => (c :: h) :: r

/-- Code-point lexicographic strict order, Python's `<` on `str`. -/
def lexLt : List Char → List Char → Bool
  | [], [] => false
  | [], _ :: _ => true
  | _ :: _, [] => false
  | a :: as, b :: bs => a.toNat < b.toNat || (a == b && lexLt as bs)

/-- Stable insertion used by `sortStrings`: an element is placed after all
existing elements that are not strictly greater. -/
def insertSorted (x : List Char) : List (List Char) → List (List Char)
  | [] => [x]
  | y :: t => if lexLt x y then x :: y :: t else y :: insertSorted x t

/-- Python `sorted` on a list of strings (stable ascending sort; stability is
irrelevant here because equal keys are identical strings). -/
def sortStrings (l : List (List Char)) : List (List Char) :=
  l.foldl (fun acc x => insertSorted x acc) []

/-- `MULTIPLIER.join(strs)`, the `⋅`-joined rendering used by
`combine_units`. -/
def joinMult : List (List Char) → List Char
  | [] => []
  | [x] => x
  | x :: y :: t => x ++ ['⋅'] ++ joinMult (y :: t)

/-- Decimal digit to character. -/
def digitChar (n : Nat) : Char :=
  if n = 0 then '0' else if n = 1 then '1' else if n = 2 then '2'
  else if n = 3 then '3' else if n = 4 then '4' else if n = 5 then '5'
  else if n = 6 then '6' else if n = 7 then '7' else if n = 8 then '8'
  else '9'

/-- Fuel-driven decimal rendering of a natural number (fuel `n` suffices). -/
def natToCharsAux : Nat → Nat → List Char
  | 0, _ => []
  | _ + 1, 0 => []
  | fuel + 1, n => natToCharsAux fuel (n / 10) ++ [digitChar (n % 10)]

/-- Python `str(n)` for a natural number. -/
def natToChars (n : Nat) : List Char :=
  if n = 0 then ['0'] else natToCharsAux n n

/-- Python `str(n)` for an integer. -/
def intToChars (n : Int) : List Char :=
  if n < 0 then '-' :: natToChars n.natAbs else natToChars n.natAbs

/-! ## The numeric model

`decimal.Decimal` and `float` values are modelled as exact rationals, built
exclusively from the kernel-computable core `Rat` operations. -/

/-- Kernel-computable rational multiplication (`mkRat` normalizes, so the
value agrees with `Rat.mul`; proved equal to `·*·` below the definitions). -/
def qMul (a b : Rat) : Rat := mkRat (Int.mul a.num b.num) (Nat.mul a.den b.den)

/-- Kernel-computable rational addition. -/
def qAdd (a b : Rat) : Rat :=
  mkRat (Int.add (Int.mul a.num (Int.ofNat b.den)) (Int.mul b.num (Int.ofNat a.den)))
    (Nat.mul a.den b.den)

/-- Kernel-computable rational subtraction. -/
def qSub (a b : Rat) : Rat := qAdd a (Rat.neg b)

/-- Kernel-computable rational inverse. -/
def qInv (a : Rat) : Rat :=
  if 0 ≤ a.num then mkRat (Int.ofNat a.den) a.num.natAbs
  else mkRat (Int.neg (Int.ofNat a.den)) a.num.natAbs

/-- Kernel-computable rational division. -/
def qDiv (a b : Rat) : Rat := qMul a (qInv b)

/-- Is `c` an ASCII digit, and its value. -/
def digitVal? (c : Char) : Option Nat :=
  if c == '0' then some 0 else if c == '1' then some 1
  else if c == '2' then some 2 else if c == '3' then some 3
  else if c == '4' then some 4 else if c == '5' then some 5
  else if c == '6' then some 6 else if c == '7' then some 7
  else if c == '8' then some 8 else if c == '9' then some 9
  else none

/-- Parse a non-empty digit run to a natural number. -/
def digitsToNat : List Char → Option Nat
  | [] => none
  | l =>
    l.foldl
      (fun acc c =>
        match acc, digitVal? c with
        | some a, some d => some (a * 10 + d)
        | _, _ => none)
      (some 0)

/-- `decimal.Decimal(s)` for the numeric strings the program can produce:
`[+-]? digits? [. digits?]? ([eE] [+-]? digits)?` with at least one mantissa
digit.  Returns the exact rational value, or `none` where Python raises
`decimal.InvalidOperation`.  (Special values such as `NaN` are rejected like
any other non-numeric string; the program never produces them.) -/
def decQ (s : List Char) : Option Rat :=
  let (sign, rest) :=
    match s with
    | '-' :: t => (true, t)
    | '+' :: t => (false, t)
    | t => (false, t)
  let (mant, expPart) :=
    match splitOnCharCL 'e' (rest.map (fun c => if c == 'E' then 'e' else c)) with
    | [m] => (m, some ([] : List Char))
    | [m, e] => (m, some e)
    | _ => ([], none)
  match expPart with
  | none => none
  | some expChars =>
    let expVal : Option Int :=
      if expChars.isEmpty then some 0
      else
        match expChars with
        | '-' :: t => (digitsToNat t).map (fun n => -(Int.ofNat n))
        | '+' :: t => (digitsToNat t).map Int.ofNat
        | t => (digitsToNat t).map Int.ofNat
    match expVal with
    | none => none
    | some e10 =>
      let pieces := splitOnCharCL '.' mant
      let intFrac : Option (List Char × List Char) :=
        match pieces with
        | [i] => some (i, [])
        | [i, f] => some (i, f)
        | _ => none
      match intFrac with
      | none => none
      | some (ip, fp) =>
        if ip.isEmpty && fp.isEmpty then none
        else
          let ipOk := ip.all (fun c => (digitVal? c).isSome)
          let fpOk := fp.all (fun c => (digitVal? c).isSome)
          if ipOk && fpOk then
            match digitsToNat (if ip.isEmpty then ['0'] else ip),
                digitsToNat (if fp.isEmpty then ['0'] else fp) with
            | some i, some f =>
              let coeff : Int := Int.ofNat (i * 10 ^ fp.length + f)
              let coeff := if sign then -coeff else coeff
              let scale : Int := e10 - Int.ofNat fp.length
              some
                (if scale ≥ 0 then
                  mkRat (coeff * Int.ofNat (10 ^ scale.natAbs)) 1
                else mkRat coeff (10 ^ scale.natAbs))
            | _, _ => none
          else none

/-- Python `int(s)`: optional sign followed by digits only (a decimal point
raises `ValueError`, matching Python). -/
def parseIntPy : List Char → Option Int
  | [] => none
  | '-' :: t => (digitsToNat t).map (fun n => -(Int.ofNat n))
  | '+' :: t => (digitsToNat t).map Int.ofNat
  | t => (digitsToNat t).map Int.ofNat

/-- Iterated multiplication, used to model `math.pow` on integer exponents. -/
def qpowNat : Rat → Nat → Rat
  | _, 0 => mkRat 1 1
  | b, n + 1 => qMul (qpowNat b n) b

/-- Model of `Decimal(str(math.pow(f, e)))` from the `Unit.factor` property.
Exact for integer exponents (the only exponents reachable in the verified
claims); a non-integer exponent would go through binary floating point and is
not modelled (the placeholder value 0 is returned there). -/
def powQ (b e : Rat) : Rat :=
  if e.den = 1 then
    match e.num with
    | .ofNat n => qpowNat b n
    | .negSucc n => qInv (qpowNat b (n + 1))
  else mkRat 0 1

/-- Model of `Decimal(str(math.sqrt(f)))` (only used for `sqrt` nodes): exact
on perfect squares of rationals, with a placeholder 0 elsewhere.  No claim
exercises square roots. -/
def sqrtQ (q : Rat) : Rat :=
  if q.num ≥ 0 then
    let ns := Nat.sqrt q.num.natAbs
    let ds := Nat.sqrt q.den
    if ns * ns = q.num.natAbs && ds * ds = q.den then
      mkRat (Int.ofNat ns) ds
    else mkRat 0 1
  else mkRat 0 1

/-- Python `round(q)` (banker's rounding, round half to even). -/
def roundHalfEven (q : Rat) : Int :=
  let f := Rat.floor q
  let r := qSub q (mkRat f 1)
  if Rat.blt r (mkRat 1 2) then f
  else if Rat.blt (mkRat 1 2) r then f + 1
  else if f % 2 = 0 then f else f + 1

/-- `10 ^ k` as a rational. -/
def pow10 (k : Nat) : Rat := mkRat (Int.ofNat (10 ^ k)) 1

/-- Python `round(q, k)` for `k ≥ 0` fractional digits (modelled exactly;
Python rounds the nearest binary double, which agrees on every value the
claims touch). -/
def roundTo (k : Nat) (q : Rat) : Rat :=
  qDiv (mkRat (roundHalfEven (qMul q (pow10 k))) 1) (pow10 k)

/-- Decimal digit count of `n` (1 for 0..9), fuel-indexed so the kernel
unfolds only as deep as the digit count. -/
def dig10 : Nat → Nat → Nat :=
  Nat.rec (motive := fun _ => Nat → Nat)
    (fun _ => 1)
    (fun _ ih n => if n < 10 then 1 else 1 + ih (n / 10))

/-- Number of decimal digits of `n` (1 for 0..9). -/
def digits10 (n : Nat) : Nat := dig10 n n

/-- `10 ^ e ≤ num / den` for a signed exponent `e`, by integer comparison. -/
def gePow10 (num den : Nat) (e : Int) : Bool :=
  if 0 ≤ e then decide (den * 10 ^ e.toNat ≤ num)
  else decide (den ≤ num * 10 ^ (-e).toNat)

/-- The adjusted exponent of the positive rational `num / den`: the unique
`e` with `10 ^ e ≤ num / den < 10 ^ (e + 1)`. -/
def adjExp (num den : Nat) : Int :=
  if gePow10 num den ((digits10 num : Int) - (digits10 den : Int))
  then (digits10 num : Int) - (digits10 den : Int)
  else (digits10 num : Int) - (digits10 den : Int) - 1

/-- The power of ten a `p`-significant-digit rounding of `q` rounds to: the
last kept digit has place value `10 ^ sigShift`. -/
def sigShift (p : Nat) (q : Rat) : Int :=
  adjExp q.num.natAbs q.den - (p : Int) + 1

/-- Round a rational to `p` significant decimal digits, ties to even: the
decimal module\x27s context rounding with `prec = p` and the default
`ROUND_HALF_EVEN`. -/
def roundSig (p : Nat) (q : Rat) : Rat :=
  if q.num = 0 then mkRat 0 1
  else if 0 ≤ sigShift p q then
    mkRat (roundHalfEven (qDiv q (mkRat
        ((10 ^ (sigShift p q).toNat : Nat) : Int) 1)) *
      ((10 ^ (sigShift p q).toNat : Nat) : Int)) 1
  else
    qDiv
      (mkRat (roundHalfEven (qMul q (mkRat
        ((10 ^ (-(sigShift p q)).toNat : Nat) : Int) 1))) 1)
      (mkRat ((10 ^ (-(sigShift p q)).toNat : Nat) : Int) 1)

/-- Rounding to the default decimal context: 28 significant digits,
half-even (`decimal.getcontext()` as the source leaves it). -/
def decCtxRound (q : Rat) : Rat := roundSig 28 q

/-- `Decimal * Decimal`: the exact product rounded to the context. -/
def decMul (a b : Rat) : Rat := decCtxRound (qMul a b)

/-- `Decimal / Decimal`: the exact quotient rounded to the context. -/
def decDiv (a b : Rat) : Rat := decCtxRound (qDiv a b)

inductive PyValue where
  /-- A Python `int`. -/
  | pyInt (n : Int)
  /-- A Python `float`, modelled by its shortest-decimal value (so that
  `Decimal(str(x))` is the identity, as it is for every float literal). -/
  | pyFloat (q : Rat)
  /-- A Python `decimal.Decimal` with coefficient `c` and exponent `e`,
  i.e. the value `c·10^e`; `str` shows a decimal point iff `e < 0`, with
  `-e` digits after the point. -/
  | pyDec (c : Int) (e : Int)
deriving DecidableEq, Repr

/-- The exact rational value of an input, `decimal.Decimal(str(value))` in
the source. -/
def PyValue.toRat : PyValue → Rat
  | .pyInt n => mkRat n 1
  | .pyFloat q => q
  | .pyDec c e =>
    if e ≥ 0 then mkRat (c * Int.ofNat (10 ^ e.natAbs)) 1
    else mkRat c (10 ^ e.natAbs)

/-- Python exceptions raised by the unit converter. -/
inductive PyError where
  /-- `ValueError` (unit not found / units not compatible). -/
  | valueError (msg : List Char)
  /-- `TypeError`. -/
  | typeError (msg : List Char)
  /-- `KeyError` from a failed dict subscript. -/
  | keyError (msg : List Char)
  /-- `decimal.InvalidOperation` from `Decimal(...)` on a bad string. -/
  | invalidOperation
  /-- `decimal.DivisionByZero`. -/
  | divisionByZero
  /-- `RuntimeError` from the catalog builders. -/
  | runtimeError (msg : List Char)
  /-- `RecursionError`: the model's fuel stands for the Python stack. -/
  | recursionError
deriving DecidableEq, Repr

instance {ε α : Type} [DecidableEq ε] [DecidableEq α] :
    DecidableEq (Except ε α) := fun a b =>
  match a, b with
  | .ok x, .ok y =>
    if h : x = y then isTrue (by rw [h]) else isFalse (by simp [h])
  | .error x, .error y =>
    if h : x = y then isTrue (by rw [h]) else isFalse (by simp [h])
  | .ok _, .error _ => isFalse (by simp)
  | .error _, .ok _ => isFalse (by simp)

/-! ## The `Unit` node

`class Unit` from the source: a symbol, an own scale factor (`_factor`), an
exponent (`_exponent`) and a list of constituent units (`_b_units`). -/

inductive UnitT : Type where
  | mk (sym : List Char) (fac : Rat) (exp : Rat) (bUnits : List UnitT)

/-- `self._symbol`. -/
def UnitT.sym : UnitT → List Char
  | .mk s _ _ _ => s

/-- `self._factor`. -/
def UnitT.fac : UnitT → Rat
  | .mk _ f _ _ => f

/-- `self._exponent`. -/
def UnitT.exp : UnitT → Rat
  | .mk _ _ e _ => e

/-- `self._b_units`. -/
def UnitT.bUnits : UnitT → List UnitT
  | .mk _ _ _ b => b

/-- Direct assignment `u._exponent = e` (no cloning of children). -/
def UnitT.setExp : UnitT → Rat → UnitT
  | .mk s f _ b, e => .mk s f e b

mutual
/-- `unit()` with no arguments: `Unit.__call__(None, None)`, a deep copy. -/
def cloneU : UnitT → UnitT
  | .mk s f e bs => .mk s f e (cloneL bs)

/-- `list(unit() for unit in self._b_units)`. -/
def cloneL : List UnitT → List UnitT
  | [] => []
  | u :: t => cloneU u :: cloneL t
end

/-- `Unit.__call__(factor, exponent)`: children are deep-copied, the factor
argument (if given) is multiplied by the stored factor, the exponent argument
(if given) replaces the stored exponent. -/
def UnitT.call (u : UnitT) (factor? exponent? : Option Rat) : UnitT :=
  .mk u.sym
    (match factor? with
     | none => u.fac
     | some g => qMul g u.fac)
    (match exponent? with
     | none => u.exp
     | some e => e)
    (cloneL u.bUnits)

mutual
/-- The `Unit.factor` property: the product of the children's `factor`
properties and the own `_factor`, raised to the own exponent; a `sqrt` node
takes the square root of that power instead. -/
def UnitT.factor : UnitT → Rat
  | .mk s f e bs =>
    let p := qMul (prodFactorAux (mkRat 1 1) bs) f
    let powed := powQ p e
    if s = "sqrt".data then sqrtQ powed else powed

/-- The loop `for unit in self._b_units: factor *= unit.factor`. -/
def prodFactorAux : Rat → List UnitT → Rat
  | acc, [] => acc
  | acc, u :: t => prodFactorAux (qMul acc u.factor) t
end

/-! ## The unit catalog

The module-level dicts `_BASE_UNITS`, `_NAMED_DERIVED_UNITS` and `_UNITS`.
Python dicts keep insertion order; they are modelled as association lists
with first-match lookup and replace-in-place insertion. -/

structure Catalog where
  baseUnits : List (List Char × UnitT)
  namedDerivedUnits : List (List Char × UnitT)
  units : List (List Char × UnitT)

/-- `d[k]` lookup returning the first binding of `k`. -/
def dictGet? (d : List (List Char × UnitT)) (k : List Char) : Option UnitT :=
  match d with
  | [] => none
  | (k', v) :: t => if k' = k then some v else dictGet? t k

/-- `k in d`. -/
def dictHasKey (d : List (List Char × UnitT)) (k : List Char) : Bool :=
  (dictGet? d k).isSome

/-- `d[k] = v`: replace the existing binding in place, else append. -/
def dictSet (d : List (List Char × UnitT)) (k : List Char) (v : UnitT) :
    List (List Char × UnitT) :=
  match d with
  | [] => [(k, v)]
  | (k', v') :: t => if k' = k then (k', v) :: t else (k', v') :: dictSet t k v

/-! ## Superscript tables -/

/-- `SUPER_SCRIPT_MAPPING`: superscript characters to their ASCII digit,
minus sign or decimal point. -/
def supToAscii : Char → Option Char
  | '⁰' => some '0'
  | '¹' => some '1'
  | '²' => some '2'
  | '³' => some '3'
  | '⁴' => some '4'
  | '⁵' => some '5'
  | '⁶' => some '6'
  | '⁷' => some '7'
  | '⁸' => some '8'
  | '⁹' => some '9'
  | '⁻' => some '-'
  | '·' => some '.'
  | _ => none

/-- `SUPER_SCRIPT_MAPPING_REVERSE`. -/
def asciiToSup : Char → Option Char
  | '0' => some '⁰'
  | '1' => some '¹'
  | '2' => some '²'
  | '3' => some '³'
  | '4' => some '⁴'
  | '5' => some '⁵'
  | '6' => some '⁶'
  | '7' => some '⁷'
  | '8' => some '⁸'
  | '9' => some '⁹'
  | '-' => some '⁻'
  | '.' => some '·'
  | _ => none

/-- Split a token into its superscript-exponent digits (in reading order)
and the remaining characters, as done by the `for char in unit` loops. -/
def splitSup (u : List Char) : List Char × List Char :=
  (u.filterMap supToAscii, u.filter (fun c => (supToAscii c).isNone))

/-! ## SI magnitude table and `Unit._parse_unit_prefix` -/

/-- The `mapping` dict from `_parse_unit_prefix`, in insertion order, with the
values of `Decimal(str(factor))` for each float literal. -/
def pfxTable : List (List Char × Rat) :=
  [ ("Y".data, mkRat (10 ^ 24) 1)
  , ("Z".data, mkRat (10 ^ 21) 1)
  , ("E".data, mkRat (10 ^ 18) 1)
  , ("P".data, mkRat (10 ^ 15) 1)
  , ("T".data, mkRat (10 ^ 12) 1)
  , ("G".data, mkRat (10 ^ 9) 1)
  , ("M".data, mkRat (10 ^ 6) 1)
  , ("k".data, mkRat 1000 1)
  , ("h".data, mkRat 100 1)
  , ("da".data, mkRat 10 1)
  , ("d".data, mkRat 1 10)
  , ("c".data, mkRat 1 100)
  , ("m".data, mkRat 1 1000)
  , ("µ".data, mkRat 1 (10 ^ 6))
  , ("n".data, mkRat 1 (10 ^ 9))
  , ("p".data, mkRat 1 (10 ^ 12))
  , ("f".data, mkRat 1 (10 ^ 15))
  , ("a".data, mkRat 1 (10 ^ 18))
  , ("z".data, mkRat 1 (10 ^ 21))
  , ("y".data, mkRat 1 (10 ^ 24)) ]

/-- Loop body of `Unit._parse_unit_prefix`: try each table entry in order as a
leading substring; on a hit, resolve the remainder through the three tables
(the third branch tests the *unstripped* token against `_UNITS` but then
subscripts with the stripped one, verbatim from the source) and wrap the
stored prototype — uncloned — in a fresh node carrying the magnitude factor. -/
def pfxScan (cat : Catalog) (unit : List Char) :
    List (List Char × Rat) → Except PyError (Option UnitT)
  | [] => .ok none
  | (key, factor) :: rest =>
    if isPfxOf key unit then
      let symbol := replaceFirstCL unit key []
      match dictGet? cat.baseUnits symbol with
      | some p => .ok (some (.mk unit factor (mkRat 1 1) [p]))
      | none =>
        match dictGet? cat.namedDerivedUnits symbol with
        | some p => .ok (some (.mk unit factor (mkRat 1 1) [p]))
        | none =>
          if dictHasKey cat.units unit then
            match dictGet? cat.units symbol with
            | some p => .ok (some (.mk unit factor (mkRat 1 1) [p]))
            | none => .error (.keyError symbol)
          else .ok none
    else pfxScan cat unit rest

/-- `Unit._parse_unit_prefix`: `None` (no error) when the token is a single
character or no table entry applies. -/
def parseUnitPfx (cat : Catalog) (unit : List Char) :
    Except PyError (Option UnitT) :=
  if unit.length > 1 then pfxScan cat unit pfxTable else .ok none

/-! ## `Unit._process_unit`

The recursive-descent tokenizer.  Python's recursion is unbounded (the source
can and does recurse on an unchanged string for some inputs, exhausting the
interpreter stack), so the model takes a fuel argument standing for the
recursion limit; `.error .recursionError` corresponds to `RecursionError`.
All recursive calls in the source use the default `first_pass=True` — no call
site ever passes `False` — which the model mirrors by handing the recursive
occurrences a continuation `ih` that is always invoked in first-pass mode. -/

/-- Generic lookup for the local `cfs` dict. -/
def cfsGet? (d : List (List Char × List UnitT)) (k : List Char) :
    Option (List UnitT) :=
  match d with
  | [] => none
  | (k', v) :: t => if k' = k then some v else cfsGet? t k

/-- Generic insert for the local `cfs` dict. -/
def cfsSet (d : List (List Char × List UnitT)) (k : List Char)
    (v : List UnitT) : List (List Char × List UnitT) :=
  match d with
  | [] => [(k, v)]
  | (k', v') :: t => if k' = k then (k', v) :: t else (k', v') :: cfsSet t k v

/-- The first character loop of the compound branch: split on `/` at brace
depth 0; `(` and `)` are kept in the pieces, a trailing empty piece is
dropped (`if item: units.append(item)`), intermediate empty pieces are
kept. -/
def slashSplit (unit : List Char) : List (List Char) :=
  let st :=
    unit.foldl
      (fun (acc : List (List Char) × List Char × Int) c =>
        let (done, item, depth) := acc
        if c == '(' then (done, item ++ [c], depth + 1)
        else if c == ')' then (done, item ++ [c], depth - 1)
        else if c == '/' && depth = 0 then (done ++ [item], [], depth)
        else (done, item ++ [c], depth))
      ([], [], 0)
  if st.2.1 ≠ [] then st.1 ++ [st.2.1] else st.1

/-- The single-token branch of `_process_unit`: strip superscript characters
into an exponent string (`Decimal` of it), look the remainder up in the three
tables in priority order, and otherwise attempt magnitude stripping on the
first pass.  The `else` branch raising `ValueError('Unit ... not found')` is
kept although no call site ever reaches it (`first_pass` is never `False`). -/
def processSingle (cat : Catalog) (firstPass : Bool) (unit : List Char) :
    Except PyError (List UnitT) :=
  let sp := splitSup unit
  let expStr := if sp.1.isEmpty then ['1'] else sp.1
  match decQ expStr with
  | none => .error .invalidOperation
  | some exponent =>
    match dictGet? cat.baseUnits sp.2 with
    | some p => .ok [p.call none (some exponent)]
    | none =>
      match dictGet? cat.namedDerivedUnits sp.2 with
      | some p => .ok [p.call none (some exponent)]
      | none =>
        match dictGet? cat.units sp.2 with
        | some p => .ok [p.call none (some exponent)]
        | none =>
          if firstPass then
            match parseUnitPfx cat sp.2 with
            | .error e => .error e
            | .ok none => .ok []
            | .ok (some unt) => .ok [unt.setExp exponent]
          else
            .error (.valueError (("Unit ".data) ++ unit ++ (" not found".data)))

/-- The second character loop of the compound branch, with the state
(`item`, `brace_open`, `marker`, `cfs`) that Python keeps across group
iterations.  A `)` that closes depth 0 parses the accumulated `item` (minus
its first character) into `cfs` under a fresh `MARKER<n>` key — unless
`'sqrt' + item + ')'` occurs in the group — and resets `item`; the
`item1.replace(...)` in the source discards its result and has no effect, so
it is not modelled. -/
def scanChars (ih : List Char → Except PyError (List UnitT))
    (item1 : List Char) :
    List Char → List Char → Int → Nat → List (List Char × List UnitT) →
    Except PyError (List Char × Int × Nat × List (List Char × List UnitT))
  | [], item, braceOpen, marker, cfs => .ok (item, braceOpen, marker, cfs)
  | c :: cs, item, braceOpen, marker, cfs =>
    if c == '(' then
      scanChars ih item1 cs (item ++ [c]) (braceOpen + 1) marker cfs
    else if c == ')' then
      let b2 := braceOpen - 1
      if b2 = 0 then
        if !(containsCL item1 (("sqrt".data) ++ item ++ (")".data))) then
          match ih (item.drop 1) with
          | .error e => .error e
          | .ok sub =>
            scanChars ih item1 cs [] b2 (marker + 1)
              (cfsSet cfs (("MARKER".data) ++ natToChars marker) sub)
        else scanChars ih item1 cs [] b2 marker cfs
      else scanChars ih item1 cs (item ++ [c]) b2 marker cfs
    else scanChars ih item1 cs (item ++ [c]) braceOpen marker cfs

/-- The token loop of the compound branch: each `⋅`-separated piece is taken
from `cfs` if it is literally a marker key, else (after optional `sqrt(...)`
unwrapping, which parses the inner string twice — once for the `sqrt` node
and once more appended verbatim, as in the source) parsed recursively.
`Unit('sqrt', base_units=f_units)` is `Unit.__init__` inlined: an empty
`base_units` with a symbol outside `_BASE_UNITS` re-parses the symbol. -/
def tokensOf (cat : Catalog) (ih : List Char → Except PyError (List UnitT))
    (cfs : List (List Char × List UnitT)) :
    List (List Char) → Except PyError (List UnitT)
  | [] => .ok []
  | ut :: rest =>
    let part : Except PyError (List UnitT) :=
      match cfsGet? cfs ut with
      | some cached => .ok cached
      | none =>
        if isPfxOf ("sqrt(".data) ut then
          let ut2 := (ut.drop 5).dropLast
          match ih ut2 with
          | .error e => .error e
          | .ok fUnits =>
            let sqNode : Except PyError UnitT :=
              if fUnits.isEmpty && !(dictHasKey cat.baseUnits ("sqrt".data)) then
                (ih ("sqrt".data)).map
                  (fun bs => UnitT.mk ("sqrt".data) (mkRat 1 1) (mkRat 1 1) bs)
              else .ok (UnitT.mk ("sqrt".data) (mkRat 1 1) (mkRat 1 1) fUnits)
            match sqNode with
            | .error e => .error e
            | .ok sq =>
              match ih ut2 with
              | .error e => .error e
              | .ok more => .ok (sq :: more)
        else ih ut
    match part with
    | .error e => .error e
    | .ok found =>
      match tokensOf cat ih cfs rest with
      | .error e => .error e
      | .ok restRes => .ok (found ++ restRes)

/-- The group loop of the compound branch.  Each group is scanned and
tokenized, wrapped in `Unit(unit, base_units=found_units)` — `Unit.__init__`
inlined, so an empty `found_units` with the whole string outside
`_BASE_UNITS` re-parses the whole string, which is where the source can
recurse forever — and groups after the first have their exponent negated. -/
def compoundGroups (cat : Catalog)
    (ih : List Char → Except PyError (List UnitT)) (unit : List Char) :
    List Char → Int → Nat → List (List Char × List UnitT) → Nat →
    List (List Char) → Except PyError (List UnitT)
  | _, _, _, _, _, [] => .ok []
  | item, braceOpen, marker, cfs, i, g :: rest =>
    match scanChars ih g g item braceOpen marker cfs with
    | .error e => .error e
    | .ok (item', braceOpen', marker', cfs') =>
      match tokensOf cat ih cfs' (splitOnCharCL '⋅' g) with
      | .error e => .error e
      | .ok found =>
        let baseUnit : Except PyError UnitT :=
          if found.isEmpty && !(dictHasKey cat.baseUnits unit) then
            (ih unit).map (fun bs => UnitT.mk unit (mkRat 1 1) (mkRat 1 1) bs)
          else .ok (UnitT.mk unit (mkRat 1 1) (mkRat 1 1) found)
        match baseUnit with
        | .error e => .error e
        | .ok bu =>
          let bu := if i > 0 then bu.setExp (Rat.neg bu.exp) else bu
          match compoundGroups cat ih unit item' braceOpen' marker' cfs'
              (i + 1) rest with
          | .error e => .error e
          | .ok restRes => .ok (bu :: restRes)

/-- One unfolding step of `_process_unit`: strip, turn blanks into `⋅`,
apply at most one compound-token rewrite (`H2O`/`H₂O`/`Aq`/`Hg`/`O2`) and
recurse, else dispatch on whether the string is a single token. -/
def processUnitStep (cat : Catalog)
    (ih : List Char → Except PyError (List UnitT)) (firstPass : Bool)
    (unit0 : List Char) : Except PyError (List UnitT) :=
  let u := replaceAllCL (trimCL unit0) ([' ']) (['⋅'])
  let core : Except PyError (List UnitT) :=
    if !(containsCL u (['⋅'])) && !(containsCL u (['/'])) then
      processSingle cat firstPass u
    else
      compoundGroups cat ih u [] 0 1 [] 0 (slashSplit u)
  if !(isPfxOf ("O2".data) u) && !(isPfxOf ("Aq".data) u) &&
      !(isPfxOf ("Hg".data) u) then
    if containsCL u ("H2O".data) then
      ih (replaceAllCL u ("H2O".data) ("⋅Aq".data))
    else if containsCL u ("H₂O".data) then
      ih (replaceAllCL u ("H₂O".data) ("⋅Aq".data))
    else if containsCL u ("Aq".data) && !(containsCL u ("⋅Aq".data)) then
      ih (replaceAllCL u ("Aq".data) ("⋅Aq".data))
    else if containsCL u ("Hg".data) && !(containsCL u ("⋅Hg".data)) then
      ih (replaceAllCL u ("Hg".data) ("⋅Hg".data))
    else if containsCL u ("O2".data) && !(containsCL u ("⋅O2".data)) then
      ih (replaceAllCL u ("O2".data) ("⋅O2".data))
    else core
  else core

/-- `Unit._process_unit(unit, first_pass)` with fuel standing for the Python
recursion limit; every recursive call re-enters in first-pass mode, as in the
source. -/
def processUnit (fuel : Nat) : Catalog → Bool → List Char →
    Except PyError (List UnitT) :=
  Nat.rec
    (motive := fun _ =>
      Catalog → Bool → List Char → Except PyError (List UnitT))
    (fun _ _ _ => .error .recursionError)
    (fun _ ih cat firstPass unit0 =>
      processUnitStep cat (fun u => ih cat true u) firstPass unit0)
    fuel

/-- `Unit.__init__(symbol, base_units, factor, exponent)`: an empty
`base_units` whose symbol is not a base-unit key is filled in by parsing the
symbol. -/
def mkUnit (fuel : Nat) (cat : Catalog) (symbol : List Char)
    (baseUnits : List UnitT) (factor exponent : Rat) :
    Except PyError UnitT :=
  if baseUnits.isEmpty && !(dictHasKey cat.baseUnits symbol) then
    (processUnit fuel cat true symbol).map
      (fun bs => UnitT.mk symbol factor exponent bs)
  else .ok (UnitT.mk symbol factor exponent baseUnits)

/-! ## The `symbol` property and `__str__` -/

/-- `str(exponent)` for the `Decimal` exponent of a node.  Exact for
integer-valued exponents, which are the only exponents the verified claims
reach; a non-integer exponent is rendered as `num/den` (the `/` has no
superscript and raises `KeyError` just as an unexpected character would in
the source's reverse-mapping subscript). -/
def pyDecStr (q : Rat) : List Char :=
  if q.den = 1 then intToChars q.num
  else intToChars q.num ++ ['/'] ++ natToChars q.den

/-- `SUPER_SCRIPT_MAPPING_REVERSE[char]` over a string; a character outside
the table raises `KeyError`. -/
def supsOf : List Char → Except PyError (List Char)
  | [] => .ok []
  | c :: t =>
    match asciiToSup c with
    | none => .error (.keyError [c])
    | some s => (supsOf t).map (fun r => s :: r)

/-- The `Unit.symbol` property: read the trailing superscript run of the
stored symbol backwards (the digits therefore accumulate reversed, exactly as
in the source), compare it with the stored exponent, and if they differ,
append the superscript rendering of the exponent — except that when the
stored symbol already ends in superscripts the source calls `str.replace`
and discards the result, returning the symbol unchanged. -/
def symbolStr (u : UnitT) : Except PyError (List Char) :=
  let revRun := u.sym.reverse.takeWhile (fun c => (supToAscii c).isSome)
  let currChars := revRun.filterMap supToAscii
  let currStr := if currChars.isEmpty then ['1'] else currChars
  match decQ currStr with
  | none => .error .invalidOperation
  | some curr =>
    if curr ≠ u.exp then
      let expoE : Except PyError (List Char) :=
        if u.exp ≠ mkRat 1 1 then supsOf (pyDecStr u.exp) else .ok []
      match expoE with
      | .error e => .error e
      | .ok expo => if revRun ≠ [] then .ok u.sym else .ok (u.sym ++ expo)
    else .ok u.sym

/-- `Unit.__str__`: empty for exponent 0, else the `symbol` property. -/
def pyStrU (u : UnitT) : Except PyError (List Char) :=
  if u.exp = mkRat 0 1 then .ok [] else symbolStr u

/-! ## `Unit.__iter__` and `combine_units`

`__iter__` clones each child, multiplies the clone's exponent by the parent's
exponent, flattens it through the inner `iter_bases`, and then merges nodes
of equal symbol by summing exponents (`__iadd__`), appending a fresh clone
for each first occurrence.  `iter_bases(b)` calls `list(b)` — a full
`__iter__` — and returns `[b]` when that is empty, i.e. when `b` has no
constituents. -/

/-- `output[output.index(b)] += b`: add `b`'s exponent to the first node with
the same symbol (`__eq__` compares symbols only). -/
def mergeAtIter : List UnitT → UnitT → List UnitT
  | [], _ => []
  | o :: t, b =>
    if o.sym = b.sym then o.setExp (qAdd o.exp b.exp) :: t
    else o :: mergeAtIter t b

/-- The merge loop of `__iter__`: first occurrences are appended as fresh
clones (`output.append(unit())`). -/
def iterMergeFold : List UnitT → List UnitT → List UnitT
  | out, [] => out
  | out, x :: t =>
    if out.any (fun o => o.sym = x.sym) then iterMergeFold (mergeAtIter out x) t
    else iterMergeFold (out ++ [x.call none none]) t

/-- The `for base in self._b_units` loop of `__iter__`: clone, scale the
clone's exponent, recurse through `iter_bases` (`ihIB`). -/
def iterNewBases (ihIB : UnitT → Except PyError (List UnitT)) (u : UnitT) :
    List UnitT → Except PyError (List UnitT)
  | [] => .ok []
  | b0 :: t =>
    let b := (b0.call none none).setExp (qMul (b0.call none none).exp u.exp)
    match ihIB b with
    | .error e => .error e
    | .ok r => (iterNewBases ihIB u t).map (fun rest => r ++ rest)

/-- One level of `__iter__`. -/
def iterBody (ihIB : UnitT → Except PyError (List UnitT)) (u : UnitT) :
    Except PyError (List UnitT) :=
  match iterNewBases ihIB u u.bUnits with
  | .error e => .error e
  | .ok newBases => .ok (iterMergeFold [] newBases)

/-- `out_bases.extend(...)` recursion of `iter_bases`. -/
def iterBasesFold (ihIB : UnitT → Except PyError (List UnitT)) :
    List UnitT → Except PyError (List UnitT)
  | [] => .ok []
  | x :: t =>
    match ihIB x with
    | .error e => .error e
    | .ok r => (iterBasesFold ihIB t).map (fun rest => r ++ rest)

/-- One level of `iter_bases`. -/
def iterBasesBody (ihIter ihIB : UnitT → Except PyError (List UnitT))
    (b : UnitT) : Except PyError (List UnitT) :=
  match ihIter b with
  | .error e => .error e
  | .ok bases =>
    if bases.isEmpty then .ok [b] else iterBasesFold ihIB bases

/-- The fuel-indexed pair (`__iter__`, `iter_bases`); fuel models the Python
call stack. -/
def pyIterPair (fuel : Nat) :
    (UnitT → Except PyError (List UnitT)) ×
      (UnitT → Except PyError (List UnitT)) :=
  Nat.rec
    (motive := fun _ =>
      (UnitT → Except PyError (List UnitT)) ×
        (UnitT → Except PyError (List UnitT)))
    (fun _ => .error .recursionError, fun _ => .error .recursionError)
    (fun _ prev =>
      (fun u => iterBody prev.2 u, fun b => iterBasesBody prev.1 prev.2 b))
    fuel

/-- `list(u)` / `iter(u)`. -/
def pyIter (fuel : Nat) (u : UnitT) : Except PyError (List UnitT) :=
  (pyIterPair fuel).1 u

/-- The merge loop of `combine_units`: like `__iter__`'s, but first
occurrences are appended *without* cloning (`out_units.append(b_unit)`). -/
def combineMergeFold : List UnitT → List UnitT → List UnitT
  | out, [] => out
  | out, b :: t =>
    if out.any (fun o => o.sym = b.sym) then combineMergeFold (mergeAtIter out b) t
    else combineMergeFold (out ++ [b]) t

/-- The outer loop of `combine_units`: each node delivered by iterating the
argument is itself flattened again with `list(unit)` and merged into
`out_units`. -/
def combineOuter (fuel : Nat) : List UnitT → List UnitT →
    Except PyError (List UnitT)
  | out, [] => .ok out
  | out, unitAtom :: rest =>
    match pyIter fuel unitAtom with
    | .error e => .error e
    | .ok baseUnits => combineOuter fuel (combineMergeFold out baseUnits) rest

/-- `str_units`: render every node with nonzero exponent (`if unit:`). -/
def strUnitsOf : List UnitT → Except PyError (List (List Char))
  | [] => .ok []
  | u :: t =>
    if u.exp ≠ mkRat 0 1 then
      match pyStrU u with
      | .error e => .error e
      | .ok s => (strUnitsOf t).map (fun r => s :: r)
    else strUnitsOf t

/-- `combine_units(in_units)` from `_get_conversion_factor`: the canonical
string of a parsed unit — iterate the unit, flatten each delivered node once
more, merge, drop zero exponents, sort and join with `⋅`. -/
def combineUnits (fuel : Nat) (inUnits : UnitT) : Except PyError (List Char) :=
  match pyIter fuel inUnits with
  | .error e => .error e
  | .ok atoms =>
    match combineOuter fuel [] atoms with
    | .error e => .error e
    | .ok outUnits =>
      match strUnitsOf outUnits with
      | .error e => .error e
      | .ok strs => .ok (joinMult (sortStrings strs))

/-! ## Temperature conversion and `convert` -/

/-- `_temperature_conversion(temp, from_unit, to_unit)`.  `none` stands for a
`TypeError`, which `convert` catches: either operand not being one of the
four scales raises one, and so does the `to_unit == '°R'` branch, whose
`1.8 * temp_si` multiplies the *float* literal `1.8` with a `Decimal`
(`Decimal` refuses mixed arithmetic with floats) — so a `°R` target always
falls back to the general path as well. -/
def tempConversion (v : Rat) (fromU toU : List Char) : Option Rat :=
  (if fromU = ("°K".data) then some v
   else if fromU = ("°R".data) then some (qDiv v (mkRat 18 10))
   else if fromU = ("°C".data) then some (qAdd v (mkRat 27315 100))
   else if fromU = ("°F".data) then
     some (qDiv (qAdd v (mkRat 45967 100)) (mkRat 18 10))
   else none).bind
    (fun tsi =>
      if toU = ("°K".data) then some tsi
      else if toU = ("°R".data) then none
      else if toU = ("°C".data) then some (qSub tsi (mkRat 27315 100))
      else if toU = ("°F".data) then
        some (qSub (qMul (mkRat 18 10) tsi) (mkRat 45967 100))
      else none)

/-- `_get_conversion_factor(from_unit, to_unit)`: parse both operands as
`Unit(x, [])`, compare their `combine_units` strings, and return the two
`factor` properties.  The incompatibility `ValueError` carries both unit
names. -/
def getConversionFactor (fuel : Nat) (cat : Catalog) (fromU toU : List Char) :
    Except PyError (Rat × Rat) :=
  match mkUnit fuel cat fromU [] (mkRat 1 1) (mkRat 1 1) with
  | .error e => .error e
  | .ok fu =>
    match mkUnit fuel cat toU [] (mkRat 1 1) (mkRat 1 1) with
    | .error e => .error e
    | .ok tu =>
      match combineUnits fuel fu with
      | .error e => .error e
      | .ok fStr =>
        match combineUnits fuel tu with
        | .error e => .error e
        | .ok tStr =>
          if fStr ≠ tStr then
            .error (.valueError
              (("Units ".data) ++ fromU ++ (" and ".data) ++ toU ++
                (" are not compatible".data)))
          else .ok (fu.factor, tu.factor)

/-- The result-shaping tail of `convert`: floats stay floats; a `Decimal`
whose string contains a point is rounded (`round(float(val), precision)`,
yielding a float) to as many fractional digits as the input carried, a
`Decimal` without a point and a plain `int` are rounded to the nearest
integer (`round` is banker's rounding). -/
def applyPrecision (value : PyValue) (val : Rat) : PyValue :=
  match value with
  | .pyFloat _ => .pyFloat val
  | .pyDec _ e =>
    if e < 0 then .pyFloat (roundTo e.natAbs val) else .pyInt (roundHalfEven val)
  | .pyInt _ => .pyInt (roundHalfEven val)

/-- `convert(value, from_unit, to_unit)`: try the temperature branch,
catching its `TypeError` to fall back to the general factor-ratio path
(`val = v * (cf_from / cf_to)`, a `Decimal` division and multiplication,
each rounded by the default decimal context to 28 significant digits), then
shape the result by the input's representation.  A zero divisor factor would
raise `decimal.DivisionByZero` (unreachable over the real catalog). -/
def pyConvert (fuel : Nat) (cat : Catalog) (value : PyValue)
    (fromU toU : List Char) : Except PyError PyValue :=
  let v := value.toRat
  match tempConversion v fromU toU with
  | some val => .ok (applyPrecision value val)
  | none =>
    match getConversionFactor fuel cat fromU toU with
    | .error e => .error e
    | .ok p =>
      if p.2.num = 0 then .error .divisionByZero
      else .ok (applyPrecision value (decMul v (decDiv p.1 p.2)))

/-- `_build_base_unit(symbol)`: store `Unit(symbol, [])` in `_BASE_UNITS` —
no duplicate check of any kind. -/
def buildBaseUnit (fuel : Nat) (cat : Catalog) (symbol : List Char) :
    Except PyError Catalog :=
  match mkUnit fuel cat symbol [] (mkRat 1 1) (mkRat 1 1) with
  | .error e => .error e
  | .ok u => .ok { cat with baseUnits := dictSet cat.baseUnits symbol u }

/-- The component loop of `_build_derived_unit`: split the decomposition on
`⋅`, strip superscripts into an `int(...)` exponent, and clone the base-unit
prototype (`_BASE_UNITS[unit]`, `KeyError` when absent). -/
def derivedComponents (cat : Catalog) :
    List (List Char) → Except PyError (List UnitT)
  | [] => .ok []
  | u :: rest =>
    let sp := splitSup u
    let expStr := if sp.1.isEmpty then ['1'] else sp.1
    match parseIntPy expStr with
    | none => .error (.valueError ("invalid literal for int".data))
    | some e =>
      match dictGet? cat.baseUnits sp.2 with
      | none => .error (.keyError sp.2)
      | some p =>
        (derivedComponents cat rest).map
          (fun r => p.call none (some (mkRat e 1)) :: r)

/-- `_build_derived_unit(symbol, units)` — no duplicate check. -/
def buildDerivedUnit (fuel : Nat) (cat : Catalog) (symbol units : List Char) :
    Except PyError Catalog :=
  match derivedComponents cat (splitOnCharCL '⋅' units) with
  | .error e => .error e
  | .ok comps =>
    match mkUnit fuel cat symbol comps (mkRat 1 1) (mkRat 1 1) with
    | .error e => .error e
    | .ok u =>
      .ok { cat with namedDerivedUnits := dictSet cat.namedDerivedUnits symbol u }

/-- The component loop of `_build_unit`: components resolve through all
three tables, empty pieces are skipped (`if not unit: continue`), anything
else is the `'Sanity Check'` `RuntimeError`. -/
def generalComponents (cat : Catalog) :
    List (List Char) → Except PyError (List UnitT)
  | [] => .ok []
  | u :: rest =>
    let sp := splitSup u
    let expStr := if sp.1.isEmpty then ['1'] else sp.1
    match parseIntPy expStr with
    | none => .error (.valueError ("invalid literal for int".data))
    | some e =>
      let proto? : Option UnitT :=
        match dictGet? cat.baseUnits sp.2 with
        | some p => some p
        | none =>
          match dictGet? cat.namedDerivedUnits sp.2 with
          | some p => some p
          | none => dictGet? cat.units sp.2
      match proto? with
      | some p =>
        (generalComponents cat rest).map
          (fun r => p.call none (some (mkRat e 1)) :: r)
      | none =>
        if sp.2.isEmpty then generalComponents cat rest
        else .error (.runtimeError (("Sanity Check ".data) ++ sp.2))

/-- `_build_unit(symbol, factor, units)`: fail with `RuntimeError` when the
symbol exists in *any* of the three tables, then resolve the decomposition
and store `Unit(symbol, base_units, factor)` (whose `__init__` re-parses the
symbol when the decomposition came out empty, as for the dimensionless
entries).  The factor is `Decimal(str(factor))` of the source literal,
carried here as its literal text. -/
def buildUnit (fuel : Nat) (cat : Catalog) (symbol : List Char)
    (factorStr : List Char) (units : List Char) : Except PyError Catalog :=
  if dictHasKey cat.baseUnits symbol then
    .error (.runtimeError (("unit ".data) ++ symbol ++
      (" already exists in _BASE_UNITS".data)))
  else if dictHasKey cat.namedDerivedUnits symbol then
    .error (.runtimeError (("unit ".data) ++ symbol ++
      (" already exists in _NAMED_DERIVED_UNITS".data)))
  else if dictHasKey cat.units symbol then
    .error (.runtimeError (("unit ".data) ++ symbol ++
      (" already exists in _UNITS".data)))
  else
    match decQ factorStr with
    | none => .error .invalidOperation
    | some factor =>
      match generalComponents cat (splitOnCharCL '⋅' units) with
      | .error e => .error e
      | .ok comps =>
        match mkUnit fuel cat symbol comps factor (mkRat 1 1) with
        | .error e => .error e
        | .ok u => .ok { cat with units := dictSet cat.units symbol u }

/-- One registration line of the catalog section of the source. -/
inductive RegCmd where
  | base (s : String)
  | derived (s dec : String)
  | general (s factor dec : String)

/-- Execute one registration. -/
def applyReg (fuel : Nat) (cat : Catalog) : RegCmd → Except PyError Catalog
  | .base s => buildBaseUnit fuel cat s.data
  | .derived s dec => buildDerivedUnit fuel cat s.data dec.data
  | .general s f dec => buildUnit fuel cat s.data f.data dec.data

/-- Run a registration sequence from an empty catalog, aborting on the first
error, as a failed import would. -/
def buildSeq (fuel : Nat) : Except PyError Catalog → List RegCmd →
    Except PyError Catalog
  | acc, [] => acc
  | .error e, _ => .error e
  | .ok cat, r :: rest => buildSeq fuel (applyReg fuel cat r) rest



/-! ## The registration table

The full registration sequence of the source, in order: 9 base units, 21
named derived units, 435 general units (lines 1012-1568 of the source, with
each factor kept as its literal text).  The table is split into parts only
to keep elaboration fast. -/

/-- Registration table, part 0 (in source order). -/
def registrationsPart00 : List RegCmd :=
  [ .base ("mol")
  , .base ("cd")
  , .base ("kg")
  , .base ("m")
  , .base ("s")
  , .base ("A")
  , .base ("K")
  , .base ("bit")
  , .base ("dB")
  , .derived ("Hz") ("s⁻¹")
  , .derived ("N") ("kg⋅m⋅s⁻²")
  , .derived ("Pa") ("kg⋅m⁻¹⋅s⁻²")
  , .derived ("J") ("kg⋅m²⋅s⁻²")
  , .derived ("W") ("kg⋅m²⋅s⁻³")
  , .derived ("C") ("s⋅A")
  , .derived ("V") ("kg⋅m²⋅s⁻³⋅A⁻¹")
  , .derived ("F") ("kg⁻¹⋅m⁻²⋅s⁴⋅A²")
  , .derived ("Ω") ("kg⋅m²⋅s⁻³⋅A⁻²")
  , .derived ("S") ("kg⁻¹⋅m⁻²⋅s³⋅A²")
  , .derived ("Wb") ("kg⋅m²⋅s⁻²⋅A⁻¹")
  , .derived ("T") ("kg⋅s⁻²⋅A⁻¹")
  , .derived ("H") ("kg⋅m²⋅s⁻²⋅A⁻²")
  , .derived ("lm") ("cd")
  , .derived ("lx") ("cd⋅m⁻²")
  , .derived ("Bq") ("s⁻¹")
  , .derived ("Gy") ("m²⋅s⁻²")
  , .derived ("Sv") ("m²⋅s⁻²")
  , .derived ("kat") ("s⁻¹⋅mol")
  , .derived ("r") ("m⋅m⁻¹")
  , .derived ("sr") ("m²⋅m⁻²") ]

/-- Registration table, part 1 (in source order). -/
def registrationsPart01 : List RegCmd :=
  [ .general ("au_length") ("5.2917699999999994e-11") ("m")
  , .general ("am") ("1e-18") ("m")
  , .general ("Å") ("1e-10") ("m")
  , .general ("ft") ("0.3048") ("m")
  , .general ("yd") ("0.9144") ("m")
  , .general ("mi") ("1609.344") ("m")
  , .general ("in") ("0.0254") ("m")
  , .general ("µ") ("1e-06") ("m")
  , .general ("arcmin") ("0.000290888") ("m")
  , .general ("AU") ("149597870700") ("m")
  , .general ("UA") ("149597870700") ("m")
  , .general ("au") ("149597870700") ("m")
  , .general ("agate") ("0.00181428571429") ("m")
  , .general ("aln") ("0.593778") ("m")
  , .general ("bcorn") ("0.0084666666666667") ("m")
  , .general ("a0") ("5.2917699999999994e-11") ("m")
  , .general ("rBohr") ("5.2917699999999994e-11") ("m")
  , .general ("bolt") ("36.576") ("m")
  , .general ("bl") ("80.4672") ("m")
  , .general ("line_UK") ("0.00211667") ("m")
  , .general ("line") ("0.000635") ("m")
  , .general ("cable_int") ("185.2") ("m")
  , .general ("cable_UK") ("185.318") ("m")
  , .general ("cable") ("219.456") ("m")
  , .general ("caliber") ("2.54e-4") ("m")
  , .general ("ch_engineer") ("30.48") ("m")
  , .general ("ch_gunter") ("20.1168") ("m")
  , .general ("ch_ramsden") ("30.48") ("m")
  , .general ("ch_surveyor") ("20.1168") ("m")
  , .general ("cbt") ("0.4572") ("m") ]

/-- Registration table, part 2 (in source order). -/
def registrationsPart02 : List RegCmd :=
  [ .general ("didotpoint") ("0.000375972222") ("m")
  , .general ("digit") ("0.01905") ("m")
  , .general ("re") ("2.81794e-15") ("m")
  , .general ("Ec") ("40000000") ("m")
  , .general ("eel_scottish") ("0.94") ("m")
  , .general ("eel_flemish") ("0.686") ("m")
  , .general ("eel_french") ("1.372") ("m")
  , .general ("eel_polish") ("0.787") ("m")
  , .general ("eel_danish") ("0.627708") ("m")
  , .general ("eel_swedish") ("0.59") ("m")
  , .general ("eel_german") ("0.547") ("m")
  , .general ("EM_pica") ("0.0042175176") ("m")
  , .general ("Em") ("1e+17") ("m")
  , .general ("fath") ("1.8288") ("m")
  , .general ("fm") ("1e-15") ("m")
  , .general ("f") ("1e-15") ("m")
  , .general ("finer") ("0.1143") ("m")
  , .general ("fb") ("0.022225") ("m")
  , .general ("fod") ("0.3141") ("m")
  , .general ("fbf") ("91.44") ("m")
  , .general ("fur") ("201.168") ("m")
  , .general ("pleth") ("30.8") ("m")
  , .general ("std") ("185.0") ("m")
  , .general ("hand") ("0.1016") ("m")
  , .general ("hiMetric") ("1e-05") ("m")
  , .general ("hl") ("2.4") ("m")
  , .general ("hvat") ("1.89648384") ("m")
  , .general ("ly") ("9461000000000000.0") ("m")
  , .general ("li") ("0.201168402337") ("m")
  , .general ("LD") ("384402000") ("m") ]

/-- Registration table, part 3 (in source order). -/
def registrationsPart03 : List RegCmd :=
  [ .general ("mil") ("2.54e-05") ("m")
  , .general ("Mym") ("10000") ("m")
  , .general ("nail") ("0.05715") ("m")
  , .general ("NL") ("5556") ("m")
  , .general ("NM") ("1852") ("m")
  , .general ("pace") ("0.762") ("m")
  , .general ("palm") ("0.0762") ("m")
  , .general ("pc") ("3.0856775814914e+16") ("m")
  , .general ("perch") ("5.0292") ("m")
  , .general ("p") ("0.00423333333") ("m")
  , .general ("PX") ("0.0002645833") ("m")
  , .general ("pl") ("1.6e-35") ("m")
  , .general ("pole") ("5.0292") ("m")
  , .general ("ru") ("0.04445") ("m")
  , .general ("rem") ("0.0042333328") ("m")
  , .general ("rd") ("5.0292") ("m")
  , .general ("actus") ("35.5") ("m")
  , .general ("rope") ("6.096") ("m")
  , .general ("sir") ("1.496e+17") ("m")
  , .general ("span") ("0.2286") ("m")
  , .general ("twip") ("1.7639e-05") ("m")
  , .general ("vr") ("0.84667") ("m")
  , .general ("vst") ("1066.8") ("m")
  , .general ("xu") ("1.002004e-13") ("m")
  , .general ("zoll") ("0.0254") ("m")
  , .general ("µµ") ("1e-12") ("m")
  , .general ("D") ("9.86923e-13") ("m²")
  , .general ("ac") ("4046.8564224") ("m²")
  , .general ("acre") ("4046.8564224") ("m²")
  , .general ("are") ("100") ("m²") ]

/-- Registration table, part 4 (in source order). -/
def registrationsPart04 : List RegCmd :=
  [ .general ("b") ("1e-27") ("m²")
  , .general ("cirin") ("0.0005067074790975") ("m²")
  , .general ("cirmil") ("5.067074790975e-10") ("m²")
  , .general ("Mg_dutch") ("8244.35") ("m²")
  , .general ("Mg_prussian") ("2532.24") ("m²")
  , .general ("Mg_southafrica") ("8565.3") ("m²")
  , .general ("¼mi²_stat") ("647497.0") ("m²")
  , .general ("¼ac") ("1011.71") ("m²")
  , .general ("rood") ("1011.71") ("m²")
  , .general ("sqmi") ("2589990.0") ("m²")
  , .general ("mi²_stat") ("2589990.0") ("m²")
  , .general ("outhouse") ("1e-34") ("m²")
  , .general ("shed") ("1e-52") ("m²")
  , .general ("sqch_engineer") ("929.03") ("m²")
  , .general ("sqch_gunter") ("404.686") ("m²")
  , .general ("acre⋅ft") ("1233.48") ("m³")
  , .general ("bag") ("0.109106") ("m³")
  , .general ("bbl_UScranb") ("0.095471") ("m³")
  , .general ("bbl") ("0.1192404712") ("m³")
  , .general ("bbl_USpetrol") ("0.1589872949") ("m³")
  , .general ("bbl_UK") ("0.16365924") ("m³")
  , .general ("FBM") ("0.002359737") ("m³")
  , .general ("bouteille") ("0.000757682") ("m³")
  , .general ("bk_UK") ("0.0181844") ("m³")
  , .general ("bu_UK") ("0.036368700000000004") ("m³")
  , .general ("bu_US") ("0.0352391") ("m³")
  , .general ("bt_UK") ("0.490978") ("m³")
  , .general ("chal_UK") ("1.30927") ("m³")
  , .general ("cc") ("1.00238e-06") ("m³")
  , .general ("l") ("0.001") ("m³") ]

/-- Registration table, part 5 (in source order). -/
def registrationsPart05 : List RegCmd :=
  [ .general ("L") ("0.001") ("m³")
  , .general ("gal") ("0.00378541178") ("m³")
  , .general ("gal_UK") ("4.54609e-3") ("m³")
  , .general ("qt") ("0.000946352946") ("m³")
  , .general ("qt_UK") ("0.0011365225") ("m³")
  , .general ("pt") ("0.000473176473") ("m³")
  , .general ("pt_UK") ("0.00056826125") ("m³")
  , .general ("floz") ("2.95735296875e-05") ("m³")
  , .general ("floz_UK") ("2.84130625e-05") ("m³")
  , .general ("cran") ("0.170478") ("m³")
  , .general ("dr") ("3.6967e-06") ("m³")
  , .general ("st") ("1.0") ("m³")
  , .general ("gi") ("0.0001182941") ("m³")
  , .general ("gi_UK") ("0.0001420653") ("m³")
  , .general ("cup") ("0.00025") ("m³")
  , .general ("cup_UK") ("0.0002841306") ("m³")
  , .general ("dstspn") ("9.8578e-06") ("m³")
  , .general ("dstspn_UK") ("1.18388e-05") ("m³")
  , .general ("tbsp") ("1.5e-05") ("m³")
  , .general ("tbsp_UK") ("1.77582e-05") ("m³")
  , .general ("tsp") ("5e-06") ("m³")
  , .general ("tsp_UK") ("5.9194e-06") ("m³")
  , .general ("m₀") ("9.10939e-31") ("kg")
  , .general ("me") ("9.10939e-31") ("kg")
  , .general ("u_dalton") ("1.66054e-27") ("kg")
  , .general ("u") ("1.660540199e-27") ("kg")
  , .general ("uma") ("1.66054e-27") ("kg")
  , .general ("Da") ("1.66054e-27") ("kg")
  , .general ("dr_troy") ("0.00388793") ("kg")
  , .general ("dr_apoth") ("0.00388793") ("kg") ]

/-- Registration table, part 6 (in source order). -/
def registrationsPart06 : List RegCmd :=
  [ .general ("dr_avdp") ("0.00177185") ("kg")
  , .general ("g") ("0.001") ("kg")
  , .general ("lb") ("0.45359237") ("kg")
  , .general ("oz") ("0.028349523125") ("kg")
  , .general ("t_long") ("1016.0469088") ("kg")
  , .general ("t_short") ("907.18474") ("kg")
  , .general ("t") ("1000.0") ("kg")
  , .general ("dwt") ("0.0015551738") ("kg")
  , .general ("kip") ("453.59237") ("kg")
  , .general ("gr") ("6.47989e-05") ("kg")
  , .general ("slug") ("14.5939029372") ("kg")
  , .general ("t_assay") ("0.029167") ("kg")
  , .general ("Da_12C") ("1.66054e-27") ("kg")
  , .general ("Da_16O") ("1.66001e-27") ("kg")
  , .general ("Da_1H") ("1.67353e-27") ("kg")
  , .general ("avogram") ("1.66036e-24") ("kg")
  , .general ("bag_UK") ("42.6377") ("kg")
  , .general ("ct") ("0.0002") ("kg")
  , .general ("ct_troy") ("0.000205197") ("kg")
  , .general ("cH") ("45.3592") ("kg")
  , .general ("cwt") ("100.0") ("kg")
  , .general ("au_time") ("2.4188800000000002e-17") ("s")
  , .general ("blink") ("0.864") ("s")
  , .general ("d") ("86400.0") ("s")
  , .general ("d_sidereal") ("86164.0") ("s")
  , .general ("fortnight") ("1209600.0") ("s")
  , .general ("h") ("3600.0") ("s")
  , .general ("min") ("60.0") ("s")
  , .general ("mo") ("2592000.0") ("s")
  , .general ("mo_sidereal") ("2360590.0") ("s") ]

/-- Registration table, part 7 (in source order). -/
def registrationsPart07 : List RegCmd :=
  [ .general ("mo_mean") ("2628000.0") ("s")
  , .general ("mo_synodic") ("2551440.0") ("s")
  , .general ("shake") ("1e-08") ("s")
  , .general ("week") ("604800.0") ("s")
  , .general ("wink") ("3.33333e-10") ("s")
  , .general ("a_astr") ("31557900.0") ("s")
  , .general ("a") ("31536000.0") ("s")
  , .general ("y") ("31536000.0") ("s")
  , .general ("a_sidereal") ("31558200.0") ("s")
  , .general ("a_mean") ("31557600.0") ("s")
  , .general ("a_tropical") ("31556900.0") ("s")
  , .general ("bd") ("1.02") ("cd")
  , .general ("bi") ("1.0") ("cd")
  , .general ("c_int") ("1.01937") ("cd")
  , .general ("c") ("1.0") ("cd")
  , .general ("carcel") ("10.0") ("cd")
  , .general ("HK") ("0.903") ("cd")
  , .general ("violle") ("20.4") ("cd")
  , .general ("entities") ("1.66054e-24") ("mol")
  , .general ("SCF") ("1.19531") ("mol")
  , .general ("SCM") ("44.6159") ("mol")
  , .general ("\x27") ("0.000290888") ("r")
  , .general ("\x22") ("4.84814e-06") ("r")
  , .general ("pid") ("6.28319") ("r")
  , .general ("°") ("0.0174533") ("r")
  , .general ("gon") ("0.015708") ("r")
  , .general ("grade") ("0.015708") ("r")
  , .general ("ah") ("0.261799") ("r")
  , .general ("%") ("0.00999967") ("r")
  , .general ("rev") ("6.28319") ("r") ]

/-- Registration table, part 8 (in source order). -/
def registrationsPart08 : List RegCmd :=
  [ .general ("sign") ("0.523599") ("r")
  , .general ("B") ("8") ("bit")
  , .general ("Gib") ("1073740000.0") ("bit")
  , .general ("GiB") ("8589930000.0") ("bit")
  , .general ("Gb") ("1000000000.0") ("bit")
  , .general ("GB") ("8000000000.0") ("bit")
  , .general ("Kib") ("1024") ("bit")
  , .general ("KiB") ("8192") ("bit")
  , .general ("Kb") ("1000") ("bit")
  , .general ("KB") ("8000") ("bit")
  , .general ("Mib") ("1048580.0") ("bit")
  , .general ("MiB") ("8388610.0") ("bit")
  , .general ("Mb") ("1000000.0") ("bit")
  , .general ("MB") ("8000000.0") ("bit")
  , .general ("Tib") ("1099510000000.0") ("bit")
  , .general ("TiB") ("8796090000000.0") ("bit")
  , .general ("Tb") ("100000000000.0") ("bit")
  , .general ("TB") ("8000000000000.0") ("bit")
  , .general ("aW") ("1e-07") ("W")
  , .general ("hp") ("745.7") ("W")
  , .general ("hp_boiler") ("9809.5") ("W")
  , .general ("hp_British") ("745.7") ("W")
  , .general ("cv") ("735.499") ("W")
  , .general ("hp_cheval") ("735.499") ("W")
  , .general ("hp_electric") ("746.0") ("W")
  , .general ("hp_metric") ("735.499") ("W")
  , .general ("hp_water") ("746.043") ("W")
  , .general ("prony") ("98.0665") ("W")
  , .general ("at") ("98066.5") ("Pa")
  , .general ("atm") ("101325.0") ("Pa") ]

/-- Registration table, part 9 (in source order). -/
def registrationsPart09 : List RegCmd :=
  [ .general ("bar") ("100000.0") ("Pa")
  , .general ("Ba") ("0.1") ("Pa")
  , .general ("p_P") ("4.63309e+113") ("Pa")
  , .general ("cgs") ("0.1") ("Pa")
  , .general ("torr") ("133.32236842") ("Pa")
  , .general ("pz") ("1000.0") ("Pa")
  , .general ("Hg") ("133322.368421") ("Pa")
  , .general ("H₂O") ("9806.65") ("Pa")
  , .general ("H2O") ("9806.65") ("Pa")
  , .general ("Aq") ("9806.65") ("Pa")
  , .general ("O₂") ("12.677457000000462") ("Pa")
  , .general ("O2") ("12.677457000000462") ("Pa")
  , .general ("ksi") ("6894757.293200044") ("Pa")
  , .general ("psi") ("6894.7572932") ("Pa")
  , .general ("psf") ("47.88025897999996") ("Pa")
  , .general ("osi") ("430.9223300000048") ("Pa")
  , .general ("kerma") ("1.0") ("Gy")
  , .general ("Mrd") ("10000.0") ("Gy")
  , .general ("rad") ("0.01") ("Gy")
  , .general ("B_power") ("10.0") ("dB")
  , .general ("B_voltage") ("5.0") ("dB")
  , .general ("dB_power") ("1.0") ("dB")
  , .general ("dB_voltage") ("0.5") ("dB")
  , .general ("Nₚ") ("4.34294") ("dB")
  , .general ("au_mf") ("235052.0") ("T")
  , .general ("Gs") ("1e-05") ("T")
  , .general ("M") ("1e-09") ("Wb")
  , .general ("au_charge") ("1.60218e-19") ("C")
  , .general ("aC") ("10") ("C")
  , .general ("esc") ("1.6022e-19") ("C") ]

/-- Registration table, part 10 (in source order). -/
def registrationsPart10 : List RegCmd :=
  [ .general ("esu") ("3.336e-06") ("C")
  , .general ("Fr") ("3.33564e-10") ("C")
  , .general ("statC") ("3.35564e-10") ("C")
  , .general ("aS") ("1000000000.0") ("S")
  , .general ("aW-1") ("1000000000.0") ("S")
  , .general ("gemʊ") ("1e-07") ("S")
  , .general ("mho") ("1.0") ("S")
  , .general ("statmho") ("1.11265e-12") ("S")
  , .general ("aH") ("1e-10") ("H")
  , .general ("statH") ("898755000000.0") ("H")
  , .general ("au_ep") ("27.2114") ("V")
  , .general ("aV") ("1e-09") ("V")
  , .general ("statV") ("299.792") ("V")
  , .general ("V_mean") ("1.00034") ("V")
  , .general ("V_US") ("1.00033") ("V")
  , .general ("aΩ") ("1e-10") ("Ω")
  , .general ("SΩ") ("0.96") ("Ω")
  , .general ("statohm") ("898755000000.0") ("Ω")
  , .general ("au_energy") ("4.35975e-18") ("J")
  , .general ("bboe") ("6120000000.0") ("J")
  , .general ("BeV") ("1.60218e-10") ("J")
  , .general ("Btu_ISO") ("1055.06") ("J")
  , .general ("Btu_IT") ("1055.06") ("J")
  , .general ("Btu_mean") ("1055.87") ("J")
  , .general ("Btu_therm") ("1054.35") ("J")
  , .general ("cal_15") ("4.185") ("J")
  , .general ("cal_4") ("4.2045") ("J")
  , .general ("Cal") ("4180.0") ("J")
  , .general ("kcal") ("4180.0") ("J")
  , .general ("cal_IT") ("4.18674") ("J") ]

/-- Registration table, part 11 (in source order). -/
def registrationsPart11 : List RegCmd :=
  [ .general ("cal_mean") ("4.19002") ("J")
  , .general ("cal_therm") ("4.184") ("J")
  , .general ("Chu") ("1899.18") ("J")
  , .general ("eV") ("1.60218e-19") ("J")
  , .general ("erg") ("1e-07") ("J")
  , .general ("Eh") ("4.35975e-18") ("J")
  , .general ("au_force") ("8.23873e-08") ("N")
  , .general ("crinal") ("0.1") ("N")
  , .general ("dyn") ("1e-05") ("N")
  , .general ("gf") ("0.00980665") ("N")
  , .general ("kgf") ("9.80665") ("N")
  , .general ("kgp") ("9.80665") ("N")
  , .general ("grf") ("0.6355") ("N")
  , .general ("kp") ("9.80665") ("N")
  , .general ("kipf") ("4448.22") ("N")
  , .general ("lbf") ("4.4482216") ("N")
  , .general ("pdl") ("0.138255") ("N")
  , .general ("slugf") ("143.117") ("N")
  , .general ("tf_long") ("9964.02") ("N")
  , .general ("tf_metric") ("9806.65") ("N")
  , .general ("tf_short") ("8896.44") ("N")
  , .general ("ozf") ("0.278014") ("N")
  , .general ("au_ec") ("0.00662362") ("A")
  , .general ("abA") ("10") ("A")
  , .general ("Bi") ("10") ("A")
  , .general ("edison") ("100.0") ("A")
  , .general ("statA") ("3.35564e-10") ("A")
  , .general ("gilbert") ("0.79577") ("A")
  , .general ("pragilbert") ("11459.1") ("A")
  , .general ("cps") ("1.0") ("Hz") ]

/-- Registration table, part 12 (in source order). -/
def registrationsPart12 : List RegCmd :=
  [ .general ("Kt") ("0.0416667") ("")
  , .general ("ppb") ("1e-10") ("")
  , .general ("pph") ("0.001") ("")
  , .general ("pphm") ("1e-09") ("")
  , .general ("ppht") ("1e-06") ("")
  , .general ("ppm") ("1e-07") ("")
  , .general ("ppq") ("1e-15") ("")
  , .general ("ppt_tera") ("1e-13") ("")
  , .general ("ppt") ("0.001") ("")
  , .general ("Ci") ("37000000000.0") ("Bq")
  , .general ("sp") ("12.5664") ("sr")
  , .general ("gy") ("1000") ("kg⋅m⁻³")
  , .general ("lbm") ("0.453592") ("kg⋅m²")
  , .general ("Ω_mechanical") ("1.0") ("Pa⋅s⋅m⁻³")
  , .general ("perm_0C") ("5.72135e-11") ("kg⋅N⁻¹⋅s⁻¹")
  , .general ("perm_23C") ("5.74525e-11") ("kg⋅N⁻¹⋅s⁻¹")
  , .general ("permin_0C") ("1.45322e-12") ("kg⋅Pa⁻¹⋅m⁻¹⋅s⁻¹")
  , .general ("permin_23C") ("1.45929e-12") ("kg⋅Pa⁻¹⋅m⁻¹⋅s⁻¹")
  , .general ("permmil_0C") ("1.45322e-15") ("kg⋅Pa⁻¹⋅m⁻¹⋅s⁻¹")
  , .general ("permmil_23C") ("1.45929e-15") ("kg⋅Pa⁻¹⋅m⁻¹⋅s⁻¹")
  , .general ("brewster") ("1e-12") ("m²⋅N⁻¹")
  , .general ("aF") ("1000000000.0") ("F")
  , .general ("jar") ("1.11111e-09") ("F")
  , .general ("statF") ("1.11265e-12") ("F")
  , .general ("P") ("0.1") ("Pa⋅s")
  , .general ("Pl") ("1.0") ("Pa⋅s")
  , .general ("reyn") ("6894.76") ("Pa⋅s")
  , .general ("clo") ("0.15482") ("K⋅m²⋅W⁻¹")
  , .general ("°F⋅ft²⋅h⋅Btu_therm⁻¹") ("0.176228") ("K⋅m²⋅W⁻¹")
  , .general ("°F⋅ft²⋅h/Btu_therm") ("0.176228") ("K⋅m²⋅W⁻¹") ]

/-- Registration table, part 13 (in source order). -/
def registrationsPart13 : List RegCmd :=
  [ .general ("RSI") ("1.0") ("K⋅m²⋅W⁻¹")
  , .general ("tog") ("0.1") ("K⋅m²⋅W⁻¹")
  , .general ("Bz") ("1.0") ("m⋅s⁻¹")
  , .general ("kn_noeud") ("0.514444") ("m⋅s⁻¹")
  , .general ("knot_noeud") ("0.514444") ("m⋅s⁻¹")
  , .general ("mpy") ("8.04327e-13") ("m⋅s⁻¹")
  , .general ("kn") ("0.514444") ("m⋅s⁻¹")
  , .general ("knot") ("0.514444") ("m⋅s⁻¹")
  , .general ("c_light") ("299792000.0") ("m⋅s⁻¹")
  , .general ("dioptre") ("1.0") ("m⁻¹")
  , .general ("mayer") ("1000.0") ("J⋅kg⁻¹⋅K⁻¹")
  , .general ("helmholtz") ("3.336e-10") ("C⋅m⁻¹")
  , .general ("mired") ("1000000.0") ("K⁻¹")
  , .general ("cumec") ("1.0") ("m³⋅s⁻¹")
  , .general ("gph_UK") ("1.2627999999999998e-06") ("m³⋅s⁻¹")
  , .general ("gpm_UK") ("7.57682e-05") ("m³⋅s⁻¹")
  , .general ("gps_UK") ("0.004546090000000001") ("m³⋅s⁻¹")
  , .general ("lusec") ("0.001") ("m³⋅s⁻¹")
  , .general ("CO") ("0.000707921") ("m³⋅s⁻¹")
  , .general ("gph") ("1.0") ("gal⋅h⁻¹")
  , .general ("gpm") ("1.0") ("gal⋅min⁻¹")
  , .general ("gps") ("0.0037854100000000003") ("gal⋅s⁻¹")
  , .general ("G") ("9.80665") ("m⋅s⁻²")
  , .general ("rps") ("1.0") ("rev⋅s⁻¹")
  , .general ("den") ("1.11111e-07") ("kg⋅m⁻¹")
  , .general ("denier") ("1.11111e-07") ("kg⋅m⁻¹")
  , .general ("te") ("1e-07") ("kg⋅m⁻¹")
  , .general ("au_lm") ("1.99285e-24") ("N⋅s")
  , .general ("c_power") ("12.5664") ("cd⋅sr")
  , .general ("asb") ("0.31831") ("cd⋅m⁻²") ]

/-- Registration table, part 14 (in source order). -/
def registrationsPart14 : List RegCmd :=
  [ .general ("nit") ("1.0") ("cd⋅m⁻²")
  , .general ("sb") ("10000.0") ("cd⋅m⁻²")
  , .general ("oe") ("79.5775") ("A⋅m⁻¹")
  , .general ("praoersted") ("11459.1") ("A⋅m⁻¹")
  , .general ("au_mdm") ("1.8548e-23") ("J⋅T⁻¹")
  , .general ("Gal") ("0.001") ("m⋅s⁻²")
  , .general ("leo") ("10") ("m⋅s⁻²")
  , .general ("gn") ("9.80665") ("m⋅s⁻²")
  , .general ("Ω_acoustic") ("1") ("Pa⋅s⋅m⁻³")
  , .general ("Ω_SI") ("1") ("Pa⋅s⋅m⁻³")
  , .general ("rayl_cgs") ("10") ("kg⋅m⁻²⋅s⁻¹")
  , .general ("rayl_MKSA") ("1") ("kg⋅m⁻²⋅s⁻¹")
  , .general ("Na") ("6.02214e+23") ("mol⁻¹")
  , .general ("au_action") ("1.05457e-34") ("J⋅s")
  , .general ("au_am") ("1.05457e-34") ("J⋅s")
  , .general ("planck") ("1") ("J⋅s")
  , .general ("rpm") ("1") ("rev⋅min⁻¹")
  , .general ("au_cd") ("1081200000000.0") ("C⋅m⁻³")
  , .general ("Ah") ("1.0") ("A⋅h⁻¹")
  , .general ("F_12C") ("96485.3") ("C⋅mol⁻¹")
  , .general ("F_chemical") ("96495.7") ("C⋅mol⁻¹")
  , .general ("F_physical") ("96512.9") ("C⋅mol⁻¹")
  , .general ("roc") ("100") ("S⋅m⁻¹")
  , .general ("rom") ("1.0") ("S⋅m⁻¹")
  , .general ("au_eqm") ("4.48655e-40") ("C⋅m²")
  , .general ("au_edm") ("8.47836e-30") ("C⋅m")
  , .general ("au_efs") ("514221000000.0") ("V⋅m⁻¹")
  , .general ("Jy") ("1e-27") ("W⋅m⁻²⋅Hz")
  , .general ("MGOe") ("7957.75") ("J⋅m⁻³")
  , .general ("Ly") ("41850.0") ("J⋅m⁻²") ]

/-- Registration table, part 15 (in source order). -/
def registrationsPart15 : List RegCmd :=
  [ .general ("ly_langley") ("697.5") ("W⋅m⁻²")
  , .general ("ue") ("4.184") ("J⋅K⁻¹⋅mol")
  , .general ("eu") ("4.184") ("J⋅K⁻¹⋅mol")
  , .general ("UI") ("1.66667e-08") ("mol⋅s⁻¹")
  , .general ("IU") ("1.66667e-08") ("mol⋅s⁻¹")
  , .general ("ph") ("0.01") ("lm⋅m⁻²")
  , .general ("cSt") ("1e-07") ("m²⋅s⁻¹")
  , .general ("St") ("1e-05") ("m²⋅s⁻¹")
  , .general ("fps") ("1.0") ("ft⋅s⁻¹")
  , .general ("fpm") ("1.0") ("ft⋅min⁻¹")
  , .general ("fph") ("1.0") ("ft⋅h⁻¹")
  , .general ("ips") ("1.0") ("in⋅s⁻¹")
  , .general ("mph") ("1.0") ("mi⋅h⁻¹")
  , .general ("cfm") ("1.0") ("ft³⋅min⁻¹")
  , .general ("cfs") ("1.0") ("ft³⋅s⁻¹") ]

/-- The full registration table of the source, in order. -/
def registrations : List RegCmd :=
  registrationsPart00 ++
  registrationsPart01 ++
  registrationsPart02 ++
  registrationsPart03 ++
  registrationsPart04 ++
  registrationsPart05 ++
  registrationsPart06 ++
  registrationsPart07 ++
  registrationsPart08 ++
  registrationsPart09 ++
  registrationsPart10 ++
  registrationsPart11 ++
  registrationsPart12 ++
  registrationsPart13 ++
  registrationsPart14 ++
  registrationsPart15


/-! ## The built catalog, as literal data -/

/-- Built catalog table chunk (see `catFinal`). -/
def catBasePart0 : List (List Char × UnitT) :=
  [ (("mol".data), (.mk ("mol".data) (mkRat (1) 1) (mkRat (1) 1) []))
  , (("cd".data), (.mk ("cd".data) (mkRat (1) 1) (mkRat (1) 1) []))
  , (("kg".data), (.mk ("kg".data) (mkRat (1) 1) (mkRat (1) 1) []))
  , (("m".data), (.mk ("m".data) (mkRat (1) 1) (mkRat (1) 1) []))
  , (("s".data), (.mk ("s".data) (mkRat (1) 1) (mkRat (1) 1) []))
  , (("A".data), (.mk ("A".data) (mkRat (1) 1) (mkRat (1) 1) []))
  , (("K".data), (.mk ("K".data) (mkRat (1) 1) (mkRat (1) 1) []))
  , (("bit".data), (.mk ("bit".data) (mkRat (1) 1) (mkRat (1) 1) []))
  , (("dB".data), (.mk ("dB".data) (mkRat (1) 1) (mkRat (1) 1) [])) ]

/-- Built catalog table chunk (see `catFinal`). -/
def catDerivedPart0 : List (List Char × UnitT) :=
  [ (("Hz".data), (.mk ("Hz".data) (mkRat (1) 1) (mkRat (1) 1) [(.mk ("s".data) (mkRat (1) 1) (mkRat (-1) 1) [])]))
  , (("N".data), (.mk ("N".data) (mkRat (1) 1) (mkRat (1) 1) [(.mk ("kg".data) (mkRat (1) 1) (mkRat (1) 1) []), (.mk ("m".data) (mkRat (1) 1) (mkRat (1) 1) []), (.mk ("s".data) (mkRat (1) 1) (mkRat (-2) 1) [])]))
  , (("Pa".data), (.mk ("Pa".data) (mkRat (1) 1) (mkRat (1) 1) [(.mk ("kg".data) (mkRat (1) 1) (mkRat (1) 1) []), (.mk ("m".data) (mkRat (1) 1) (mkRat (-1) 1) []), (.mk ("s".data) (mkRat (1) 1) (mkRat (-2) 1) [])]))
  , (("J".data), (.mk ("J".data) (mkRat (1) 1) (mkRat (1) 1) [(.mk ("kg".data) (mkRat (1) 1) (mkRat (1) 1) []), (.mk ("m".data) (mkRat (1) 1) (mkRat (2) 1) []), (.mk ("s".data) (mkRat (1) 1) (mkRat (-2) 1) [])]))
  , (("W".data), (.mk ("W".data) (mkRat (1) 1) (mkRat (1) 1) [(.mk ("kg".data) (mkRat (1) 1) (mkRat (1) 1) []), (.mk ("m".data) (mkRat (1) 1) (mkRat (2) 1) []), (.mk ("s".data) (mkRat (1) 1) (mkRat (-3) 1) [])]))
  , (("C".data), (.mk ("C".data) (mkRat (1) 1) (mkRat (1) 1) [(.mk ("s".data) (mkRat (1) 1) (mkRat (1) 1) []), (.mk ("A".data) (mkRat (1) 1) (mkRat (1) 1) [])]))
  , (("V".data), (.mk ("V".data) (mkRat (1) 1) (mkRat (1) 1) [(.mk ("kg".data) (mkRat (1) 1) (mkRat (1) 1) []), (.mk ("m".data) (mkRat (1) 1) (mkRat (2) 1) []), (.mk ("s".data) (mkRat (1) 1) (mkRat (-3) 1) []), (.mk ("A".data) (mkRat (1) 1) (mkRat (-1) 1) [])]))
  , (("F".data), (.mk ("F".data) (mkRat (1) 1) (mkRat (1) 1) [(.mk ("kg".data) (mkRat (1) 1) (mkRat (-1) 1) []), (.mk ("m".data) (mkRat (1) 1) (mkRat (-2) 1) []), (.mk ("s".data) (mkRat (1) 1) (mkRat (4) 1) []), (.mk ("A".data) (mkRat (1) 1) (mkRat (2) 1) [])]))
  , (("Ω".data), (.mk ("Ω".data) (mkRat (1) 1) (mkRat (1) 1) [(.mk ("kg".data) (mkRat (1) 1) (mkRat (1) 1) []), (.mk ("m".data) (mkRat (1) 1) (mkRat (2) 1) []), (.mk ("s".data) (mkRat (1) 1) (mkRat (-3) 1) []), (.mk ("A".data) (mkRat (1) 1) (mkRat (-2) 1) [])]))
  , (("S".data), (.mk ("S".data) (mkRat (1) 1) (mkRat (1) 1) [(.mk ("kg".data) (mkRat (1) 1) (mkRat (-1) 1) []), (.mk ("m".data) (mkRat (1) 1) (mkRat (-2) 1) []), (.mk ("s".data) (mkRat (1) 1) (mkRat (3) 1) []), (.mk ("A".data) (mkRat (1) 1) (mkRat (2) 1) [])]))
  , (("Wb".data), (.mk ("Wb".data) (mkRat (1) 1) (mkRat (1) 1) [(.mk ("kg".data) (mkRat (1) 1) (mkRat (1) 1) []), (.mk ("m".data) (mkRat (1) 1) (mkRat (2) 1) []), (.mk ("s".data) (mkRat (1) 1) (mkRat (-2) 1) []), (.mk ("A".data) (mkRat (1) 1) (mkRat (-1) 1) [])]))
  , (("T".data), (.mk ("T".data) (mkRat (1) 1) (mkRat (1) 1) [(.mk ("kg".data) (mkRat (1) 1) (mkRat (1) 1) []), (.mk ("s".data) (mkRat (1) 1) (mkRat (-2) 1) []), (.mk ("A".data) (mkRat (1) 1) (mkRat (-1) 1) [])]))
  , (("H".data), (.mk ("H".data) (mkRat (1) 1) (mkRat (1) 1) [(.mk ("kg".data) (mkRat (1) 1) (mkRat (1) 1) []), (.mk ("m".data) (mkRat (1) 1) (mkRat (2) 1) []), (.mk ("s".data) (mkRat (1) 1) (mkRat (-2) 1) []), (.mk ("A".data) (mkRat (1) 1) (mkRat (-2) 1) [])]))
  , (("lm".data), (.mk ("lm".data) (mkRat (1) 1) (mkRat (1) 1) [(.mk ("cd".data) (mkRat (1) 1) (mkRat (1) 1) [])]))
  , (("lx".data), (.mk ("lx".data) (mkRat (1) 1) (mkRat (1) 1) [(.mk ("cd".data) (mkRat (1) 1) (mkRat (1) 1) []), (.mk ("m".data) (mkRat (1) 1) (mkRat (-2) 1) [])]))
  , (("Bq".data), (.mk ("Bq".data) (mkRat (1) 1) (mkRat (1) 1) [(.mk ("s".data) (mkRat (1) 1) (mkRat (-1) 1) [])]))
  , (("Gy".data), (.mk ("Gy".data) (mkRat (1) 1) (mkRat (1) 1) [(.mk ("m".data) (mkRat (1) 1) (mkRat (2) 1) []), (.mk ("s".data) (mkRat (1) 1) (mkRat (-2) 1) [])]))
  , (("Sv".data), (.mk ("Sv".data) (mkRat (1) 1) (mkRat (1) 1) [(.mk ("m".data) (mkRat (1) 1) (mkRat (2) 1) []), (.mk ("s".data) (mkRat (1) 1) (mkRat (-2) 1) [])]))
  , (("kat".data), (.mk ("kat".data) (mkRat (1) 1) (mkRat (1) 1) [(.mk ("s".data) (mkRat (1) 1) (mkRat (-1) 1) []), (.mk ("mol".data) (mkRat (1) 1) (mkRat (1) 1) [])]))
  , (("r".data), (.mk ("r".data) (mkRat (1) 1) (mkRat (1) 1) [(.mk ("m".data) (mkRat (1) 1) (mkRat (1) 1) []), (.mk ("m".data) (mkRat (1) 1) (mkRat (-1) 1) [])]))
  , (("sr".data), (.mk ("sr".data) (mkRat (1) 1) (mkRat (1) 1) [(.mk ("m".data) (mkRat (1) 1) (mkRat (2) 1) []), (.mk ("m".data) (mkRat (1) 1) (mkRat (-2) 1) [])])) ]

/-- Built catalog table chunk (see `catFinal`). -/
def catUnitsPart0 : List (List Char × UnitT) :=
  [ (("au_length".data), (.mk ("au_length".data) (mkRat (26458849999999997) 500000000000000000000000000) (mkRat (1) 1) [(.mk ("m".data) (mkRat (1) 1) (mkRat (1) 1) [])]))
  , (("am".data), (.mk ("am".data) (mkRat (1) 1000000000000000000) (mkRat (1) 1) [(.mk ("m".data) (mkRat (1) 1) (mkRat (1) 1) [])]))
  , (("Å".data), (.mk ("Å".data) (mkRat (1) 10000000000) (mkRat (1) 1) [(.mk ("m".data) (mkRat (1) 1) (mkRat (1) 1) [])]))
  , (("ft".data), (.mk ("ft".data) (mkRat (381) 1250) (mkRat (1) 1) [(.mk ("m".data) (mkRat (1) 1) (mkRat (1) 1) [])]))
  , (("yd".data), (.mk ("yd".data) (mkRat (1143) 1250) (mkRat (1) 1) [(.mk ("m".data) (mkRat (1) 1) (mkRat (1) 1) [])]))
  , (("mi".data), (.mk ("mi".data) (mkRat (201168) 125) (mkRat (1) 1) [(.mk ("m".data) (mkRat (1) 1) (mkRat (1) 1) [])]))
  , (("in".data), (.mk ("in".data) (mkRat (127) 5000) (mkRat (1) 1) [(.mk ("m".data) (mkRat (1) 1) (mkRat (1) 1) [])]))
  , (("µ".data), (.mk ("µ".data) (mkRat (1) 1000000) (mkRat (1) 1) [(.mk ("m".data) (mkRat (1) 1) (mkRat (1) 1) [])]))
  , (("arcmin".data), (.mk ("arcmin".data) (mkRat (36361) 125000000) (mkRat (1) 1) [(.mk ("m".data) (mkRat (1) 1) (mkRat (1) 1) [])]))
  , (("AU".data), (.mk ("AU".data) (mkRat (149597870700) 1) (mkRat (1) 1) [(.mk ("m".data) (mkRat (1) 1) (mkRat (1) 1) [])]))
  , (("UA".data), (.mk ("UA".data) (mkRat (149597870700) 1) (mkRat (1) 1) [(.mk ("m".data) (mkRat (1) 1) (mkRat (1) 1) [])]))
  , (("au".data), (.mk ("au".data) (mkRat (149597870700) 1) (mkRat (1) 1) [(.mk ("m".data) (mkRat (1) 1) (mkRat (1) 1) [])]))
  , (("agate".data), (.mk ("agate".data) (mkRat (181428571429) 100000000000000) (mkRat (1) 1) [(.mk ("m".data) (mkRat (1) 1) (mkRat (1) 1) [])]))
  , (("aln".data), (.mk ("aln".data) (mkRat (296889) 500000) (mkRat (1) 1) [(.mk ("m".data) (mkRat (1) 1) (mkRat (1) 1) [])]))
  , (("bcorn".data), (.mk ("bcorn".data) (mkRat (84666666666667) 10000000000000000) (mkRat (1) 1) [(.mk ("m".data) (mkRat (1) 1) (mkRat (1) 1) [])])) ]

/-- Built catalog table chunk (see `catFinal`). -/
def catUnitsPart1 : List (List Char × UnitT) :=
  [ (("a0".data), (.mk ("a0".data) (mkRat (26458849999999997) 500000000000000000000000000) (mkRat (1) 1) [(.mk ("m".data) (mkRat (1) 1) (mkRat (1) 1) [])]))
  , (("rBohr".data), (.mk ("rBohr".data) (mkRat (26458849999999997) 500000000000000000000000000) (mkRat (1) 1) [(.mk ("m".data) (mkRat (1) 1) (mkRat (1) 1) [])]))
  , (("bolt".data), (.mk ("bolt".data) (mkRat (4572) 125) (mkRat (1) 1) [(.mk ("m".data) (mkRat (1) 1) (mkRat (1) 1) [])]))
  , (("bl".data), (.mk ("bl".data) (mkRat (50292) 625) (mkRat (1) 1) [(.mk ("m".data) (mkRat (1) 1) (mkRat (1) 1) [])]))
  , (("line_UK".data), (.mk ("line_UK".data) (mkRat (211667) 100000000) (mkRat (1) 1) [(.mk ("m".data) (mkRat (1) 1) (mkRat (1) 1) [])]))
  , (("line".data), (.mk ("line".data) (mkRat (127) 200000) (mkRat (1) 1) [(.mk ("m".data) (mkRat (1) 1) (mkRat (1) 1) [])]))
  , (("cable_int".data), (.mk ("cable_int".data) (mkRat (926) 5) (mkRat (1) 1) [(.mk ("m".data) (mkRat (1) 1) (mkRat (1) 1) [])]))
  , (("cable_UK".data), (.mk ("cable_UK".data) (mkRat (92659) 500) (mkRat (1) 1) [(.mk ("m".data) (mkRat (1) 1) (mkRat (1) 1) [])]))
  , (("cable".data), (.mk ("cable".data) (mkRat (27432) 125) (mkRat (1) 1) [(.mk ("m".data) (mkRat (1) 1) (mkRat (1) 1) [])]))
  , (("caliber".data), (.mk ("caliber".data) (mkRat (127) 500000) (mkRat (1) 1) [(.mk ("m".data) (mkRat (1) 1) (mkRat (1) 1) [])]))
  , (("ch_engineer".data), (.mk ("ch_engineer".data) (mkRat (762) 25) (mkRat (1) 1) [(.mk ("m".data) (mkRat (1) 1) (mkRat (1) 1) [])]))
  , (("ch_gunter".data), (.mk ("ch_gunter".data) (mkRat (12573) 625) (mkRat (1) 1) [(.mk ("m".data) (mkRat (1) 1) (mkRat (1) 1) [])]))
  , (("ch_ramsden".data), (.mk ("ch_ramsden".data) (mkRat (762) 25) (mkRat (1) 1) [(.mk ("m".data) (mkRat (1) 1) (mkRat (1) 1) [])]))
  , (("ch_surveyor".data), (.mk ("ch_surveyor".data) (mkRat (12573) 625) (mkRat (1) 1) [(.mk ("m".data) (mkRat (1) 1) (mkRat (1) 1) [])]))
  , (("cbt".data), (.mk ("cbt".data) (mkRat (1143) 2500) (mkRat (1) 1) [(.mk ("m".data) (mkRat (1) 1) (mkRat (1) 1) [])])) ]

/-- Built catalog table chunk (see `catFinal`). -/
def catUnitsPart2 : List (List Char × UnitT) :=
  [ (("didotpoint".data), (.mk ("didotpoint".data) (mkRat (187986111) 500000000000) (mkRat (1) 1) [(.mk ("m".data) (mkRat (1) 1) (mkRat (1) 1) [])]))
  , (("digit".data), (.mk ("digit".data) (mkRat (381) 20000) (mkRat (1) 1) [(.mk ("m".data) (mkRat (1) 1) (mkRat (1) 1) [])]))
  , (("re".data), (.mk ("re".data) (mkRat (140897) 50000000000000000000) (mkRat (1) 1) [(.mk ("m".data) (mkRat (1) 1) (mkRat (1) 1) [])]))
  , (("Ec".data), (.mk ("Ec".data) (mkRat (40000000) 1) (mkRat (1) 1) [(.mk ("m".data) (mkRat (1) 1) (mkRat (1) 1) [])]))
  , (("eel_scottish".data), (.mk ("eel_scottish".data) (mkRat (47) 50) (mkRat (1) 1) [(.mk ("m".data) (mkRat (1) 1) (mkRat (1) 1) [])]))
  , (("eel_flemish".data), (.mk ("eel_flemish".data) (mkRat (343) 500) (mkRat (1) 1) [(.mk ("m".data) (mkRat (1) 1) (mkRat (1) 1) [])]))
  , (("eel_french".data), (.mk ("eel_french".data) (mkRat (343) 250) (mkRat (1) 1) [(.mk ("m".data) (mkRat (1) 1) (mkRat (1) 1) [])]))
  , (("eel_polish".data), (.mk ("eel_polish".data) (mkRat (787) 1000) (mkRat (1) 1) [(.mk ("m".data) (mkRat (1) 1) (mkRat (1) 1) [])]))
  , (("eel_danish".data), (.mk ("eel_danish".data) (mkRat (156927) 250000) (mkRat (1) 1) [(.mk ("m".data) (mkRat (1) 1) (mkRat (1) 1) [])]))
  , (("eel_swedish".data), (.mk ("eel_swedish".data) (mkRat (59) 100) (mkRat (1) 1) [(.mk ("m".data) (mkRat (1) 1) (mkRat (1) 1) [])]))
  , (("eel_german".data), (.mk ("eel_german".data) (mkRat (547) 1000) (mkRat (1) 1) [(.mk ("m".data) (mkRat (1) 1) (mkRat (1) 1) [])]))
  , (("EM_pica".data), (.mk ("EM_pica".data) (mkRat (5271897) 1250000000) (mkRat (1) 1) [(.mk ("m".data) (mkRat (1) 1) (mkRat (1) 1) [])]))
  , (("Em".data), (.mk ("Em".data) (mkRat (100000000000000000) 1) (mkRat (1) 1) [(.mk ("m".data) (mkRat (1) 1) (mkRat (1) 1) [])]))
  , (("fath".data), (.mk ("fath".data) (mkRat (1143) 625) (mkRat (1) 1) [(.mk ("m".data) (mkRat (1) 1) (mkRat (1) 1) [])]))
  , (("fm".data), (.mk ("fm".data) (mkRat (1) 1000000000000000) (mkRat (1) 1) [(.mk ("m".data) (mkRat (1) 1) (mkRat (1) 1) [])])) ]

/-- Built catalog table chunk (see `catFinal`). -/
def catUnitsPart3 : List (List Char × UnitT) :=
  [ (("f".data), (.mk ("f".data) (mkRat (1) 1000000000000000) (mkRat (1) 1) [(.mk ("m".data) (mkRat (1) 1) (mkRat (1) 1) [])]))
  , (("finer".data), (.mk ("finer".data) (mkRat (1143) 10000) (mkRat (1) 1) [(.mk ("m".data) (mkRat (1) 1) (mkRat (1) 1) [])]))
  , (("fb".data), (.mk ("fb".data) (mkRat (889) 40000) (mkRat (1) 1) [(.mk ("m".data) (mkRat (1) 1) (mkRat (1) 1) [])]))
  , (("fod".data), (.mk ("fod".data) (mkRat (3141) 10000) (mkRat (1) 1) [(.mk ("m".data) (mkRat (1) 1) (mkRat (1) 1) [])]))
  , (("fbf".data), (.mk ("fbf".data) (mkRat (2286) 25) (mkRat (1) 1) [(.mk ("m".data) (mkRat (1) 1) (mkRat (1) 1) [])]))
  , (("fur".data), (.mk ("fur".data) (mkRat (25146) 125) (mkRat (1) 1) [(.mk ("m".data) (mkRat (1) 1) (mkRat (1) 1) [])]))
  , (("pleth".data), (.mk ("pleth".data) (mkRat (154) 5) (mkRat (1) 1) [(.mk ("m".data) (mkRat (1) 1) (mkRat (1) 1) [])]))
  , (("std".data), (.mk ("std".data) (mkRat (185) 1) (mkRat (1) 1) [(.mk ("m".data) (mkRat (1) 1) (mkRat (1) 1) [])]))
  , (("hand".data), (.mk ("hand".data) (mkRat (127) 1250) (mkRat (1) 1) [(.mk ("m".data) (mkRat (1) 1) (mkRat (1) 1) [])]))
  , (("hiMetric".data), (.mk ("hiMetric".data) (mkRat (1) 100000) (mkRat (1) 1) [(.mk ("m".data) (mkRat (1) 1) (mkRat (1) 1) [])]))
  , (("hl".data), (.mk ("hl".data) (mkRat (12) 5) (mkRat (1) 1) [(.mk ("m".data) (mkRat (1) 1) (mkRat (1) 1) [])]))
  , (("hvat".data), (.mk ("hvat".data) (mkRat (740814) 390625) (mkRat (1) 1) [(.mk ("m".data) (mkRat (1) 1) (mkRat (1) 1) [])]))
  , (("ly".data), (.mk ("ly".data) (mkRat (9461000000000000) 1) (mkRat (1) 1) [(.mk ("m".data) (mkRat (1) 1) (mkRat (1) 1) [])]))
  , (("li".data), (.mk ("li".data) (mkRat (201168402337) 1000000000000) (mkRat (1) 1) [(.mk ("m".data) (mkRat (1) 1) (mkRat (1) 1) [])]))
  , (("LD".data), (.mk ("LD".data) (mkRat (384402000) 1) (mkRat (1) 1) [(.mk ("m".data) (mkRat (1) 1) (mkRat (1) 1) [])])) ]

/-- Built catalog table chunk (see `catFinal`). -/
def catUnitsPart4 : List (List Char × UnitT) :=
  [ (("mil".data), (.mk ("mil".data) (mkRat (127) 5000000) (mkRat (1) 1) [(.mk ("m".data) (mkRat (1) 1) (mkRat (1) 1) [])]))
  , (("Mym".data), (.mk ("Mym".data) (mkRat (10000) 1) (mkRat (1) 1) [(.mk ("m".data) (mkRat (1) 1) (mkRat (1) 1) [])]))
  , (("nail".data), (.mk ("nail".data) (mkRat (1143) 20000) (mkRat (1) 1) [(.mk ("m".data) (mkRat (1) 1) (mkRat (1) 1) [])]))
  , (("NL".data), (.mk ("NL".data) (mkRat (5556) 1) (mkRat (1) 1) [(.mk ("m".data) (mkRat (1) 1) (mkRat (1) 1) [])]))
  , (("NM".data), (.mk ("NM".data) (mkRat (1852) 1) (mkRat (1) 1) [(.mk ("m".data) (mkRat (1) 1) (mkRat (1) 1) [])]))
  , (("pace".data), (.mk ("pace".data) (mkRat (381) 500) (mkRat (1) 1) [(.mk ("m".data) (mkRat (1) 1) (mkRat (1) 1) [])]))
  , (("palm".data), (.mk ("palm".data) (mkRat (381) 5000) (mkRat (1) 1) [(.mk ("m".data) (mkRat (1) 1) (mkRat (1) 1) [])]))
  , (("pc".data), (.mk ("pc".data) (mkRat (30856775814914000) 1) (mkRat (1) 1) [(.mk ("m".data) (mkRat (1) 1) (mkRat (1) 1) [])]))
  , (("perch".data), (.mk ("perch".data) (mkRat (12573) 2500) (mkRat (1) 1) [(.mk ("m".data) (mkRat (1) 1) (mkRat (1) 1) [])]))
  , (("p".data), (.mk ("p".data) (mkRat (423333333) 100000000000) (mkRat (1) 1) [(.mk ("m".data) (mkRat (1) 1) (mkRat (1) 1) [])]))
  , (("PX".data), (.mk ("PX".data) (mkRat (2645833) 10000000000) (mkRat (1) 1) [(.mk ("m".data) (mkRat (1) 1) (mkRat (1) 1) [])]))
  , (("pl".data), (.mk ("pl".data) (mkRat (1) 62500000000000000000000000000000000) (mkRat (1) 1) [(.mk ("m".data) (mkRat (1) 1) (mkRat (1) 1) [])]))
  , (("pole".data), (.mk ("pole".data) (mkRat (12573) 2500) (mkRat (1) 1) [(.mk ("m".data) (mkRat (1) 1) (mkRat (1) 1) [])]))
  , (("ru".data), (.mk ("ru".data) (mkRat (889) 20000) (mkRat (1) 1) [(.mk ("m".data) (mkRat (1) 1) (mkRat (1) 1) [])]))
  , (("rem".data), (.mk ("rem".data) (mkRat (2645833) 625000000) (mkRat (1) 1) [(.mk ("m".data) (mkRat (1) 1) (mkRat (1) 1) [])])) ]

/-- Built catalog table chunk (see `catFinal`). -/
def catUnitsPart5 : List (List Char × UnitT) :=
  [ (("rd".data), (.mk ("rd".data) (mkRat (12573) 2500) (mkRat (1) 1) [(.mk ("m".data) (mkRat (1) 1) (mkRat (1) 1) [])]))
  , (("actus".data), (.mk ("actus".data) (mkRat (71) 2) (mkRat (1) 1) [(.mk ("m".data) (mkRat (1) 1) (mkRat (1) 1) [])]))
  , (("rope".data), (.mk ("rope".data) (mkRat (762) 125) (mkRat (1) 1) [(.mk ("m".data) (mkRat (1) 1) (mkRat (1) 1) [])]))
  , (("sir".data), (.mk ("sir".data) (mkRat (149600000000000000) 1) (mkRat (1) 1) [(.mk ("m".data) (mkRat (1) 1) (mkRat (1) 1) [])]))
  , (("span".data), (.mk ("span".data) (mkRat (1143) 5000) (mkRat (1) 1) [(.mk ("m".data) (mkRat (1) 1) (mkRat (1) 1) [])]))
  , (("twip".data), (.mk ("twip".data) (mkRat (17639) 1000000000) (mkRat (1) 1) [(.mk ("m".data) (mkRat (1) 1) (mkRat (1) 1) [])]))
  , (("vr".data), (.mk ("vr".data) (mkRat (84667) 100000) (mkRat (1) 1) [(.mk ("m".data) (mkRat (1) 1) (mkRat (1) 1) [])]))
  , (("vst".data), (.mk ("vst".data) (mkRat (5334) 5) (mkRat (1) 1) [(.mk ("m".data) (mkRat (1) 1) (mkRat (1) 1) [])]))
  , (("xu".data), (.mk ("xu".data) (mkRat (250501) 2500000000000000000) (mkRat (1) 1) [(.mk ("m".data) (mkRat (1) 1) (mkRat (1) 1) [])]))
  , (("zoll".data), (.mk ("zoll".data) (mkRat (127) 5000) (mkRat (1) 1) [(.mk ("m".data) (mkRat (1) 1) (mkRat (1) 1) [])]))
  , (("µµ".data), (.mk ("µµ".data) (mkRat (1) 1000000000000) (mkRat (1) 1) [(.mk ("m".data) (mkRat (1) 1) (mkRat (1) 1) [])]))
  , (("D".data), (.mk ("D".data) (mkRat (986923) 1000000000000000000) (mkRat (1) 1) [(.mk ("m".data) (mkRat (1) 1) (mkRat (2) 1) [])]))
  , (("ac".data), (.mk ("ac".data) (mkRat (316160658) 78125) (mkRat (1) 1) [(.mk ("m".data) (mkRat (1) 1) (mkRat (2) 1) [])]))
  , (("acre".data), (.mk ("acre".data) (mkRat (316160658) 78125) (mkRat (1) 1) [(.mk ("m".data) (mkRat (1) 1) (mkRat (2) 1) [])]))
  , (("are".data), (.mk ("are".data) (mkRat (100) 1) (mkRat (1) 1) [(.mk ("m".data) (mkRat (1) 1) (mkRat (2) 1) [])])) ]

/-- Built catalog table chunk (see `catFinal`). -/
def catUnitsPart6 : List (List Char × UnitT) :=
  [ (("b".data), (.mk ("b".data) (mkRat (1) 1000000000000000000000000000) (mkRat (1) 1) [(.mk ("m".data) (mkRat (1) 1) (mkRat (2) 1) [])]))
  , (("cirin".data), (.mk ("cirin".data) (mkRat (202682991639) 400000000000000) (mkRat (1) 1) [(.mk ("m".data) (mkRat (1) 1) (mkRat (2) 1) [])]))
  , (("cirmil".data), (.mk ("cirmil".data) (mkRat (202682991639) 400000000000000000000) (mkRat (1) 1) [(.mk ("m".data) (mkRat (1) 1) (mkRat (2) 1) [])]))
  , (("Mg_dutch".data), (.mk ("Mg_dutch".data) (mkRat (164887) 20) (mkRat (1) 1) [(.mk ("m".data) (mkRat (1) 1) (mkRat (2) 1) [])]))
  , (("Mg_prussian".data), (.mk ("Mg_prussian".data) (mkRat (63306) 25) (mkRat (1) 1) [(.mk ("m".data) (mkRat (1) 1) (mkRat (2) 1) [])]))
  , (("Mg_southafrica".data), (.mk ("Mg_southafrica".data) (mkRat (85653) 10) (mkRat (1) 1) [(.mk ("m".data) (mkRat (1) 1) (mkRat (2) 1) [])]))
  , (("¼mi²_stat".data), (.mk ("¼mi²_stat".data) (mkRat (647497) 1) (mkRat (1) 1) [(.mk ("m".data) (mkRat (1) 1) (mkRat (2) 1) [])]))
  , (("¼ac".data), (.mk ("¼ac".data) (mkRat (101171) 100) (mkRat (1) 1) [(.mk ("m".data) (mkRat (1) 1) (mkRat (2) 1) [])]))
  , (("rood".data), (.mk ("rood".data) (mkRat (101171) 100) (mkRat (1) 1) [(.mk ("m".data) (mkRat (1) 1) (mkRat (2) 1) [])]))
  , (("sqmi".data), (.mk ("sqmi".data) (mkRat (2589990) 1) (mkRat (1) 1) [(.mk ("m".data) (mkRat (1) 1) (mkRat (2) 1) [])]))
  , (("mi²_stat".data), (.mk ("mi²_stat".data) (mkRat (2589990) 1) (mkRat (1) 1) [(.mk ("m".data) (mkRat (1) 1) (mkRat (2) 1) [])]))
  , (("outhouse".data), (.mk ("outhouse".data) (mkRat (1) 10000000000000000000000000000000000) (mkRat (1) 1) [(.mk ("m".data) (mkRat (1) 1) (mkRat (2) 1) [])]))
  , (("shed".data), (.mk ("shed".data) (mkRat (1) 10000000000000000000000000000000000000000000000000000) (mkRat (1) 1) [(.mk ("m".data) (mkRat (1) 1) (mkRat (2) 1) [])]))
  , (("sqch_engineer".data), (.mk ("sqch_engineer".data) (mkRat (92903) 100) (mkRat (1) 1) [(.mk ("m".data) (mkRat (1) 1) (mkRat (2) 1) [])]))
  , (("sqch_gunter".data), (.mk ("sqch_gunter".data) (mkRat (202343) 500) (mkRat (1) 1) [(.mk ("m".data) (mkRat (1) 1) (mkRat (2) 1) [])])) ]

/-- Built catalog table chunk (see `catFinal`). -/
def catUnitsPart7 : List (List Char × UnitT) :=
  [ (("acre⋅ft".data), (.mk ("acre⋅ft".data) (mkRat (30837) 25) (mkRat (1) 1) [(.mk ("m".data) (mkRat (1) 1) (mkRat (3) 1) [])]))
  , (("bag".data), (.mk ("bag".data) (mkRat (54553) 500000) (mkRat (1) 1) [(.mk ("m".data) (mkRat (1) 1) (mkRat (3) 1) [])]))
  , (("bbl_UScranb".data), (.mk ("bbl_UScranb".data) (mkRat (95471) 1000000) (mkRat (1) 1) [(.mk ("m".data) (mkRat (1) 1) (mkRat (3) 1) [])]))
  , (("bbl".data), (.mk ("bbl".data) (mkRat (149050589) 1250000000) (mkRat (1) 1) [(.mk ("m".data) (mkRat (1) 1) (mkRat (3) 1) [])]))
  , (("bbl_USpetrol".data), (.mk ("bbl_USpetrol".data) (mkRat (1589872949) 10000000000) (mkRat (1) 1) [(.mk ("m".data) (mkRat (1) 1) (mkRat (3) 1) [])]))
  , (("bbl_UK".data), (.mk ("bbl_UK".data) (mkRat (4091481) 25000000) (mkRat (1) 1) [(.mk ("m".data) (mkRat (1) 1) (mkRat (3) 1) [])]))
  , (("FBM".data), (.mk ("FBM".data) (mkRat (2359737) 1000000000) (mkRat (1) 1) [(.mk ("m".data) (mkRat (1) 1) (mkRat (3) 1) [])]))
  , (("bouteille".data), (.mk ("bouteille".data) (mkRat (378841) 500000000) (mkRat (1) 1) [(.mk ("m".data) (mkRat (1) 1) (mkRat (3) 1) [])]))
  , (("bk_UK".data), (.mk ("bk_UK".data) (mkRat (45461) 2500000) (mkRat (1) 1) [(.mk ("m".data) (mkRat (1) 1) (mkRat (3) 1) [])]))
  , (("bu_UK".data), (.mk ("bu_UK".data) (mkRat (9092175000000001) 250000000000000000) (mkRat (1) 1) [(.mk ("m".data) (mkRat (1) 1) (mkRat (3) 1) [])]))
  , (("bu_US".data), (.mk ("bu_US".data) (mkRat (352391) 10000000) (mkRat (1) 1) [(.mk ("m".data) (mkRat (1) 1) (mkRat (3) 1) [])]))
  , (("bt_UK".data), (.mk ("bt_UK".data) (mkRat (245489) 500000) (mkRat (1) 1) [(.mk ("m".data) (mkRat (1) 1) (mkRat (3) 1) [])]))
  , (("chal_UK".data), (.mk ("chal_UK".data) (mkRat (130927) 100000) (mkRat (1) 1) [(.mk ("m".data) (mkRat (1) 1) (mkRat (3) 1) [])]))
  , (("cc".data), (.mk ("cc".data) (mkRat (50119) 50000000000) (mkRat (1) 1) [(.mk ("m".data) (mkRat (1) 1) (mkRat (3) 1) [])]))
  , (("l".data), (.mk ("l".data) (mkRat (1) 1000) (mkRat (1) 1) [(.mk ("m".data) (mkRat (1) 1) (mkRat (3) 1) [])])) ]

/-- Built catalog table chunk (see `catFinal`). -/
def catUnitsPart8 : List (List Char × UnitT) :=
  [ (("L".data), (.mk ("L".data) (mkRat (1) 1000) (mkRat (1) 1) [(.mk ("m".data) (mkRat (1) 1) (mkRat (3) 1) [])]))
  , (("gal".data), (.mk ("gal".data) (mkRat (189270589) 50000000000) (mkRat (1) 1) [(.mk ("m".data) (mkRat (1) 1) (mkRat (3) 1) [])]))
  , (("gal_UK".data), (.mk ("gal_UK".data) (mkRat (454609) 100000000) (mkRat (1) 1) [(.mk ("m".data) (mkRat (1) 1) (mkRat (3) 1) [])]))
  , (("qt".data), (.mk ("qt".data) (mkRat (473176473) 500000000000) (mkRat (1) 1) [(.mk ("m".data) (mkRat (1) 1) (mkRat (3) 1) [])]))
  , (("qt_UK".data), (.mk ("qt_UK".data) (mkRat (454609) 400000000) (mkRat (1) 1) [(.mk ("m".data) (mkRat (1) 1) (mkRat (3) 1) [])]))
  , (("pt".data), (.mk ("pt".data) (mkRat (473176473) 1000000000000) (mkRat (1) 1) [(.mk ("m".data) (mkRat (1) 1) (mkRat (3) 1) [])]))
  , (("pt_UK".data), (.mk ("pt_UK".data) (mkRat (454609) 800000000) (mkRat (1) 1) [(.mk ("m".data) (mkRat (1) 1) (mkRat (3) 1) [])]))
  , (("floz".data), (.mk ("floz".data) (mkRat (18927059) 640000000000) (mkRat (1) 1) [(.mk ("m".data) (mkRat (1) 1) (mkRat (3) 1) [])]))
  , (("floz_UK".data), (.mk ("floz_UK".data) (mkRat (454609) 16000000000) (mkRat (1) 1) [(.mk ("m".data) (mkRat (1) 1) (mkRat (3) 1) [])]))
  , (("cran".data), (.mk ("cran".data) (mkRat (85239) 500000) (mkRat (1) 1) [(.mk ("m".data) (mkRat (1) 1) (mkRat (3) 1) [])]))
  , (("dr".data), (.mk ("dr".data) (mkRat (36967) 10000000000) (mkRat (1) 1) [(.mk ("m".data) (mkRat (1) 1) (mkRat (3) 1) [])]))
  , (("st".data), (.mk ("st".data) (mkRat (1) 1) (mkRat (1) 1) [(.mk ("m".data) (mkRat (1) 1) (mkRat (3) 1) [])]))
  , (("gi".data), (.mk ("gi".data) (mkRat (1182941) 10000000000) (mkRat (1) 1) [(.mk ("m".data) (mkRat (1) 1) (mkRat (3) 1) [])]))
  , (("gi_UK".data), (.mk ("gi_UK".data) (mkRat (1420653) 10000000000) (mkRat (1) 1) [(.mk ("m".data) (mkRat (1) 1) (mkRat (3) 1) [])]))
  , (("cup".data), (.mk ("cup".data) (mkRat (1) 4000) (mkRat (1) 1) [(.mk ("m".data) (mkRat (1) 1) (mkRat (3) 1) [])])) ]

/-- Built catalog table chunk (see `catFinal`). -/
def catUnitsPart9 : List (List Char × UnitT) :=
  [ (("cup_UK".data), (.mk ("cup_UK".data) (mkRat (1420653) 5000000000) (mkRat (1) 1) [(.mk ("m".data) (mkRat (1) 1) (mkRat (3) 1) [])]))
  , (("dstspn".data), (.mk ("dstspn".data) (mkRat (49289) 5000000000) (mkRat (1) 1) [(.mk ("m".data) (mkRat (1) 1) (mkRat (3) 1) [])]))
  , (("dstspn_UK".data), (.mk ("dstspn_UK".data) (mkRat (29597) 2500000000) (mkRat (1) 1) [(.mk ("m".data) (mkRat (1) 1) (mkRat (3) 1) [])]))
  , (("tbsp".data), (.mk ("tbsp".data) (mkRat (3) 200000) (mkRat (1) 1) [(.mk ("m".data) (mkRat (1) 1) (mkRat (3) 1) [])]))
  , (("tbsp_UK".data), (.mk ("tbsp_UK".data) (mkRat (88791) 5000000000) (mkRat (1) 1) [(.mk ("m".data) (mkRat (1) 1) (mkRat (3) 1) [])]))
  , (("tsp".data), (.mk ("tsp".data) (mkRat (1) 200000) (mkRat (1) 1) [(.mk ("m".data) (mkRat (1) 1) (mkRat (3) 1) [])]))
  , (("tsp_UK".data), (.mk ("tsp_UK".data) (mkRat (29597) 5000000000) (mkRat (1) 1) [(.mk ("m".data) (mkRat (1) 1) (mkRat (3) 1) [])]))
  , (("m₀".data), (.mk ("m₀".data) (mkRat (910939) 1000000000000000000000000000000000000) (mkRat (1) 1) [(.mk ("kg".data) (mkRat (1) 1) (mkRat (1) 1) [])]))
  , (("me".data), (.mk ("me".data) (mkRat (910939) 1000000000000000000000000000000000000) (mkRat (1) 1) [(.mk ("kg".data) (mkRat (1) 1) (mkRat (1) 1) [])]))
  , (("u_dalton".data), (.mk ("u_dalton".data) (mkRat (83027) 50000000000000000000000000000000) (mkRat (1) 1) [(.mk ("kg".data) (mkRat (1) 1) (mkRat (1) 1) [])]))
  , (("u".data), (.mk ("u".data) (mkRat (1660540199) 1000000000000000000000000000000000000) (mkRat (1) 1) [(.mk ("kg".data) (mkRat (1) 1) (mkRat (1) 1) [])]))
  , (("uma".data), (.mk ("uma".data) (mkRat (83027) 50000000000000000000000000000000) (mkRat (1) 1) [(.mk ("kg".data) (mkRat (1) 1) (mkRat (1) 1) [])]))
  , (("Da".data), (.mk ("Da".data) (mkRat (83027) 50000000000000000000000000000000) (mkRat (1) 1) [(.mk ("kg".data) (mkRat (1) 1) (mkRat (1) 1) [])]))
  , (("dr_troy".data), (.mk ("dr_troy".data) (mkRat (388793) 100000000) (mkRat (1) 1) [(.mk ("kg".data) (mkRat (1) 1) (mkRat (1) 1) [])]))
  , (("dr_apoth".data), (.mk ("dr_apoth".data) (mkRat (388793) 100000000) (mkRat (1) 1) [(.mk ("kg".data) (mkRat (1) 1) (mkRat (1) 1) [])])) ]

/-- Built catalog table chunk (see `catFinal`). -/
def catUnitsPart10 : List (List Char × UnitT) :=
  [ (("dr_avdp".data), (.mk ("dr_avdp".data) (mkRat (35437) 20000000) (mkRat (1) 1) [(.mk ("kg".data) (mkRat (1) 1) (mkRat (1) 1) [])]))
  , (("g".data), (.mk ("g".data) (mkRat (1) 1000) (mkRat (1) 1) [(.mk ("kg".data) (mkRat (1) 1) (mkRat (1) 1) [])]))
  , (("lb".data), (.mk ("lb".data) (mkRat (45359237) 100000000) (mkRat (1) 1) [(.mk ("kg".data) (mkRat (1) 1) (mkRat (1) 1) [])]))
  , (("oz".data), (.mk ("oz".data) (mkRat (45359237) 1600000000) (mkRat (1) 1) [(.mk ("kg".data) (mkRat (1) 1) (mkRat (1) 1) [])]))
  , (("t_long".data), (.mk ("t_long".data) (mkRat (317514659) 312500) (mkRat (1) 1) [(.mk ("kg".data) (mkRat (1) 1) (mkRat (1) 1) [])]))
  , (("t_short".data), (.mk ("t_short".data) (mkRat (45359237) 50000) (mkRat (1) 1) [(.mk ("kg".data) (mkRat (1) 1) (mkRat (1) 1) [])]))
  , (("t".data), (.mk ("t".data) (mkRat (1000) 1) (mkRat (1) 1) [(.mk ("kg".data) (mkRat (1) 1) (mkRat (1) 1) [])]))
  , (("dwt".data), (.mk ("dwt".data) (mkRat (7775869) 5000000000) (mkRat (1) 1) [(.mk ("kg".data) (mkRat (1) 1) (mkRat (1) 1) [])]))
  , (("kip".data), (.mk ("kip".data) (mkRat (45359237) 100000) (mkRat (1) 1) [(.mk ("kg".data) (mkRat (1) 1) (mkRat (1) 1) [])]))
  , (("gr".data), (.mk ("gr".data) (mkRat (647989) 10000000000) (mkRat (1) 1) [(.mk ("kg".data) (mkRat (1) 1) (mkRat (1) 1) [])]))
  , (("slug".data), (.mk ("slug".data) (mkRat (36484757343) 2500000000) (mkRat (1) 1) [(.mk ("kg".data) (mkRat (1) 1) (mkRat (1) 1) [])]))
  , (("t_assay".data), (.mk ("t_assay".data) (mkRat (29167) 1000000) (mkRat (1) 1) [(.mk ("kg".data) (mkRat (1) 1) (mkRat (1) 1) [])]))
  , (("Da_12C".data), (.mk ("Da_12C".data) (mkRat (83027) 50000000000000000000000000000000) (mkRat (1) 1) [(.mk ("kg".data) (mkRat (1) 1) (mkRat (1) 1) [])]))
  , (("Da_16O".data), (.mk ("Da_16O".data) (mkRat (166001) 100000000000000000000000000000000) (mkRat (1) 1) [(.mk ("kg".data) (mkRat (1) 1) (mkRat (1) 1) [])]))
  , (("Da_1H".data), (.mk ("Da_1H".data) (mkRat (167353) 100000000000000000000000000000000) (mkRat (1) 1) [(.mk ("kg".data) (mkRat (1) 1) (mkRat (1) 1) [])])) ]

/-- Built catalog table chunk (see `catFinal`). -/
def catUnitsPart11 : List (List Char × UnitT) :=
  [ (("avogram".data), (.mk ("avogram".data) (mkRat (41509) 25000000000000000000000000000) (mkRat (1) 1) [(.mk ("kg".data) (mkRat (1) 1) (mkRat (1) 1) [])]))
  , (("bag_UK".data), (.mk ("bag_UK".data) (mkRat (426377) 10000) (mkRat (1) 1) [(.mk ("kg".data) (mkRat (1) 1) (mkRat (1) 1) [])]))
  , (("ct".data), (.mk ("ct".data) (mkRat (1) 5000) (mkRat (1) 1) [(.mk ("kg".data) (mkRat (1) 1) (mkRat (1) 1) [])]))
  , (("ct_troy".data), (.mk ("ct_troy".data) (mkRat (205197) 1000000000) (mkRat (1) 1) [(.mk ("kg".data) (mkRat (1) 1) (mkRat (1) 1) [])]))
  , (("cH".data), (.mk ("cH".data) (mkRat (56699) 1250) (mkRat (1) 1) [(.mk ("kg".data) (mkRat (1) 1) (mkRat (1) 1) [])]))
  , (("cwt".data), (.mk ("cwt".data) (mkRat (100) 1) (mkRat (1) 1) [(.mk ("kg".data) (mkRat (1) 1) (mkRat (1) 1) [])]))
  , (("au_time".data), (.mk ("au_time".data) (mkRat (12094400000000001) 500000000000000000000000000000000) (mkRat (1) 1) [(.mk ("s".data) (mkRat (1) 1) (mkRat (1) 1) [])]))
  , (("blink".data), (.mk ("blink".data) (mkRat (108) 125) (mkRat (1) 1) [(.mk ("s".data) (mkRat (1) 1) (mkRat (1) 1) [])]))
  , (("d".data), (.mk ("d".data) (mkRat (86400) 1) (mkRat (1) 1) [(.mk ("s".data) (mkRat (1) 1) (mkRat (1) 1) [])]))
  , (("d_sidereal".data), (.mk ("d_sidereal".data) (mkRat (86164) 1) (mkRat (1) 1) [(.mk ("s".data) (mkRat (1) 1) (mkRat (1) 1) [])]))
  , (("fortnight".data), (.mk ("fortnight".data) (mkRat (1209600) 1) (mkRat (1) 1) [(.mk ("s".data) (mkRat (1) 1) (mkRat (1) 1) [])]))
  , (("h".data), (.mk ("h".data) (mkRat (3600) 1) (mkRat (1) 1) [(.mk ("s".data) (mkRat (1) 1) (mkRat (1) 1) [])]))
  , (("min".data), (.mk ("min".data) (mkRat (60) 1) (mkRat (1) 1) [(.mk ("s".data) (mkRat (1) 1) (mkRat (1) 1) [])]))
  , (("mo".data), (.mk ("mo".data) (mkRat (2592000) 1) (mkRat (1) 1) [(.mk ("s".data) (mkRat (1) 1) (mkRat (1) 1) [])]))
  , (("mo_sidereal".data), (.mk ("mo_sidereal".data) (mkRat (2360590) 1) (mkRat (1) 1) [(.mk ("s".data) (mkRat (1) 1) (mkRat (1) 1) [])])) ]

/-- Built catalog table chunk (see `catFinal`). -/
def catUnitsPart12 : List (List Char × UnitT) :=
  [ (("mo_mean".data), (.mk ("mo_mean".data) (mkRat (2628000) 1) (mkRat (1) 1) [(.mk ("s".data) (mkRat (1) 1) (mkRat (1) 1) [])]))
  , (("mo_synodic".data), (.mk ("mo_synodic".data) (mkRat (2551440) 1) (mkRat (1) 1) [(.mk ("s".data) (mkRat (1) 1) (mkRat (1) 1) [])]))
  , (("shake".data), (.mk ("shake".data) (mkRat (1) 100000000) (mkRat (1) 1) [(.mk ("s".data) (mkRat (1) 1) (mkRat (1) 1) [])]))
  , (("week".data), (.mk ("week".data) (mkRat (604800) 1) (mkRat (1) 1) [(.mk ("s".data) (mkRat (1) 1) (mkRat (1) 1) [])]))
  , (("wink".data), (.mk ("wink".data) (mkRat (333333) 1000000000000000) (mkRat (1) 1) [(.mk ("s".data) (mkRat (1) 1) (mkRat (1) 1) [])]))
  , (("a_astr".data), (.mk ("a_astr".data) (mkRat (31557900) 1) (mkRat (1) 1) [(.mk ("s".data) (mkRat (1) 1) (mkRat (1) 1) [])]))
  , (("a".data), (.mk ("a".data) (mkRat (31536000) 1) (mkRat (1) 1) [(.mk ("s".data) (mkRat (1) 1) (mkRat (1) 1) [])]))
  , (("y".data), (.mk ("y".data) (mkRat (31536000) 1) (mkRat (1) 1) [(.mk ("s".data) (mkRat (1) 1) (mkRat (1) 1) [])]))
  , (("a_sidereal".data), (.mk ("a_sidereal".data) (mkRat (31558200) 1) (mkRat (1) 1) [(.mk ("s".data) (mkRat (1) 1) (mkRat (1) 1) [])]))
  , (("a_mean".data), (.mk ("a_mean".data) (mkRat (31557600) 1) (mkRat (1) 1) [(.mk ("s".data) (mkRat (1) 1) (mkRat (1) 1) [])]))
  , (("a_tropical".data), (.mk ("a_tropical".data) (mkRat (31556900) 1) (mkRat (1) 1) [(.mk ("s".data) (mkRat (1) 1) (mkRat (1) 1) [])]))
  , (("bd".data), (.mk ("bd".data) (mkRat (51) 50) (mkRat (1) 1) [(.mk ("cd".data) (mkRat (1) 1) (mkRat (1) 1) [])]))
  , (("bi".data), (.mk ("bi".data) (mkRat (1) 1) (mkRat (1) 1) [(.mk ("cd".data) (mkRat (1) 1) (mkRat (1) 1) [])]))
  , (("c_int".data), (.mk ("c_int".data) (mkRat (101937) 100000) (mkRat (1) 1) [(.mk ("cd".data) (mkRat (1) 1) (mkRat (1) 1) [])]))
  , (("c".data), (.mk ("c".data) (mkRat (1) 1) (mkRat (1) 1) [(.mk ("cd".data) (mkRat (1) 1) (mkRat (1) 1) [])])) ]

/-- Built catalog table chunk (see `catFinal`). -/
def catUnitsPart13 : List (List Char × UnitT) :=
  [ (("carcel".data), (.mk ("carcel".data) (mkRat (10) 1) (mkRat (1) 1) [(.mk ("cd".data) (mkRat (1) 1) (mkRat (1) 1) [])]))
  , (("HK".data), (.mk ("HK".data) (mkRat (903) 1000) (mkRat (1) 1) [(.mk ("cd".data) (mkRat (1) 1) (mkRat (1) 1) [])]))
  , (("violle".data), (.mk ("violle".data) (mkRat (102) 5) (mkRat (1) 1) [(.mk ("cd".data) (mkRat (1) 1) (mkRat (1) 1) [])]))
  , (("entities".data), (.mk ("entities".data) (mkRat (83027) 50000000000000000000000000000) (mkRat (1) 1) [(.mk ("mol".data) (mkRat (1) 1) (mkRat (1) 1) [])]))
  , (("SCF".data), (.mk ("SCF".data) (mkRat (119531) 100000) (mkRat (1) 1) [(.mk ("mol".data) (mkRat (1) 1) (mkRat (1) 1) [])]))
  , (("SCM".data), (.mk ("SCM".data) (mkRat (446159) 10000) (mkRat (1) 1) [(.mk ("mol".data) (mkRat (1) 1) (mkRat (1) 1) [])]))
  , (("\x27".data), (.mk ("\x27".data) (mkRat (36361) 125000000) (mkRat (1) 1) [(.mk ("r".data) (mkRat (1) 1) (mkRat (1) 1) [(.mk ("m".data) (mkRat (1) 1) (mkRat (1) 1) []), (.mk ("m".data) (mkRat (1) 1) (mkRat (-1) 1) [])])]))
  , (("\x22".data), (.mk ("\x22".data) (mkRat (242407) 50000000000) (mkRat (1) 1) [(.mk ("r".data) (mkRat (1) 1) (mkRat (1) 1) [(.mk ("m".data) (mkRat (1) 1) (mkRat (1) 1) []), (.mk ("m".data) (mkRat (1) 1) (mkRat (-1) 1) [])])]))
  , (("pid".data), (.mk ("pid".data) (mkRat (628319) 100000) (mkRat (1) 1) [(.mk ("r".data) (mkRat (1) 1) (mkRat (1) 1) [(.mk ("m".data) (mkRat (1) 1) (mkRat (1) 1) []), (.mk ("m".data) (mkRat (1) 1) (mkRat (-1) 1) [])])]))
  , (("°".data), (.mk ("°".data) (mkRat (174533) 10000000) (mkRat (1) 1) [(.mk ("r".data) (mkRat (1) 1) (mkRat (1) 1) [(.mk ("m".data) (mkRat (1) 1) (mkRat (1) 1) []), (.mk ("m".data) (mkRat (1) 1) (mkRat (-1) 1) [])])]))
  , (("gon".data), (.mk ("gon".data) (mkRat (3927) 250000) (mkRat (1) 1) [(.mk ("r".data) (mkRat (1) 1) (mkRat (1) 1) [(.mk ("m".data) (mkRat (1) 1) (mkRat (1) 1) []), (.mk ("m".data) (mkRat (1) 1) (mkRat (-1) 1) [])])]))
  , (("grade".data), (.mk ("grade".data) (mkRat (3927) 250000) (mkRat (1) 1) [(.mk ("r".data) (mkRat (1) 1) (mkRat (1) 1) [(.mk ("m".data) (mkRat (1) 1) (mkRat (1) 1) []), (.mk ("m".data) (mkRat (1) 1) (mkRat (-1) 1) [])])]))
  , (("ah".data), (.mk ("ah".data) (mkRat (261799) 1000000) (mkRat (1) 1) [(.mk ("r".data) (mkRat (1) 1) (mkRat (1) 1) [(.mk ("m".data) (mkRat (1) 1) (mkRat (1) 1) []), (.mk ("m".data) (mkRat (1) 1) (mkRat (-1) 1) [])])]))
  , (("%".data), (.mk ("%".data) (mkRat (999967) 100000000) (mkRat (1) 1) [(.mk ("r".data) (mkRat (1) 1) (mkRat (1) 1) [(.mk ("m".data) (mkRat (1) 1) (mkRat (1) 1) []), (.mk ("m".data) (mkRat (1) 1) (mkRat (-1) 1) [])])]))
  , (("rev".data), (.mk ("rev".data) (mkRat (628319) 100000) (mkRat (1) 1) [(.mk ("r".data) (mkRat (1) 1) (mkRat (1) 1) [(.mk ("m".data) (mkRat (1) 1) (mkRat (1) 1) []), (.mk ("m".data) (mkRat (1) 1) (mkRat (-1) 1) [])])])) ]

/-- Built catalog table chunk (see `catFinal`). -/
def catUnitsPart14 : List (List Char × UnitT) :=
  [ (("sign".data), (.mk ("sign".data) (mkRat (523599) 1000000) (mkRat (1) 1) [(.mk ("r".data) (mkRat (1) 1) (mkRat (1) 1) [(.mk ("m".data) (mkRat (1) 1) (mkRat (1) 1) []), (.mk ("m".data) (mkRat (1) 1) (mkRat (-1) 1) [])])]))
  , (("B".data), (.mk ("B".data) (mkRat (8) 1) (mkRat (1) 1) [(.mk ("bit".data) (mkRat (1) 1) (mkRat (1) 1) [])]))
  , (("Gib".data), (.mk ("Gib".data) (mkRat (1073740000) 1) (mkRat (1) 1) [(.mk ("bit".data) (mkRat (1) 1) (mkRat (1) 1) [])]))
  , (("GiB".data), (.mk ("GiB".data) (mkRat (8589930000) 1) (mkRat (1) 1) [(.mk ("bit".data) (mkRat (1) 1) (mkRat (1) 1) [])]))
  , (("Gb".data), (.mk ("Gb".data) (mkRat (1000000000) 1) (mkRat (1) 1) [(.mk ("bit".data) (mkRat (1) 1) (mkRat (1) 1) [])]))
  , (("GB".data), (.mk ("GB".data) (mkRat (8000000000) 1) (mkRat (1) 1) [(.mk ("bit".data) (mkRat (1) 1) (mkRat (1) 1) [])]))
  , (("Kib".data), (.mk ("Kib".data) (mkRat (1024) 1) (mkRat (1) 1) [(.mk ("bit".data) (mkRat (1) 1) (mkRat (1) 1) [])]))
  , (("KiB".data), (.mk ("KiB".data) (mkRat (8192) 1) (mkRat (1) 1) [(.mk ("bit".data) (mkRat (1) 1) (mkRat (1) 1) [])]))
  , (("Kb".data), (.mk ("Kb".data) (mkRat (1000) 1) (mkRat (1) 1) [(.mk ("bit".data) (mkRat (1) 1) (mkRat (1) 1) [])]))
  , (("KB".data), (.mk ("KB".data) (mkRat (8000) 1) (mkRat (1) 1) [(.mk ("bit".data) (mkRat (1) 1) (mkRat (1) 1) [])]))
  , (("Mib".data), (.mk ("Mib".data) (mkRat (1048580) 1) (mkRat (1) 1) [(.mk ("bit".data) (mkRat (1) 1) (mkRat (1) 1) [])]))
  , (("MiB".data), (.mk ("MiB".data) (mkRat (8388610) 1) (mkRat (1) 1) [(.mk ("bit".data) (mkRat (1) 1) (mkRat (1) 1) [])]))
  , (("Mb".data), (.mk ("Mb".data) (mkRat (1000000) 1) (mkRat (1) 1) [(.mk ("bit".data) (mkRat (1) 1) (mkRat (1) 1) [])]))
  , (("MB".data), (.mk ("MB".data) (mkRat (8000000) 1) (mkRat (1) 1) [(.mk ("bit".data) (mkRat (1) 1) (mkRat (1) 1) [])]))
  , (("Tib".data), (.mk ("Tib".data) (mkRat (1099510000000) 1) (mkRat (1) 1) [(.mk ("bit".data) (mkRat (1) 1) (mkRat (1) 1) [])])) ]

/-- Built catalog table chunk (see `catFinal`). -/
def catUnitsPart15 : List (List Char × UnitT) :=
  [ (("TiB".data), (.mk ("TiB".data) (mkRat (8796090000000) 1) (mkRat (1) 1) [(.mk ("bit".data) (mkRat (1) 1) (mkRat (1) 1) [])]))
  , (("Tb".data), (.mk ("Tb".data) (mkRat (100000000000) 1) (mkRat (1) 1) [(.mk ("bit".data) (mkRat (1) 1) (mkRat (1) 1) [])]))
  , (("TB".data), (.mk ("TB".data) (mkRat (8000000000000) 1) (mkRat (1) 1) [(.mk ("bit".data) (mkRat (1) 1) (mkRat (1) 1) [])]))
  , (("aW".data), (.mk ("aW".data) (mkRat (1) 10000000) (mkRat (1) 1) [(.mk ("W".data) (mkRat (1) 1) (mkRat (1) 1) [(.mk ("kg".data) (mkRat (1) 1) (mkRat (1) 1) []), (.mk ("m".data) (mkRat (1) 1) (mkRat (2) 1) []), (.mk ("s".data) (mkRat (1) 1) (mkRat (-3) 1) [])])]))
  , (("hp".data), (.mk ("hp".data) (mkRat (7457) 10) (mkRat (1) 1) [(.mk ("W".data) (mkRat (1) 1) (mkRat (1) 1) [(.mk ("kg".data) (mkRat (1) 1) (mkRat (1) 1) []), (.mk ("m".data) (mkRat (1) 1) (mkRat (2) 1) []), (.mk ("s".data) (mkRat (1) 1) (mkRat (-3) 1) [])])]))
  , (("hp_boiler".data), (.mk ("hp_boiler".data) (mkRat (19619) 2) (mkRat (1) 1) [(.mk ("W".data) (mkRat (1) 1) (mkRat (1) 1) [(.mk ("kg".data) (mkRat (1) 1) (mkRat (1) 1) []), (.mk ("m".data) (mkRat (1) 1) (mkRat (2) 1) []), (.mk ("s".data) (mkRat (1) 1) (mkRat (-3) 1) [])])]))
  , (("hp_British".data), (.mk ("hp_British".data) (mkRat (7457) 10) (mkRat (1) 1) [(.mk ("W".data) (mkRat (1) 1) (mkRat (1) 1) [(.mk ("kg".data) (mkRat (1) 1) (mkRat (1) 1) []), (.mk ("m".data) (mkRat (1) 1) (mkRat (2) 1) []), (.mk ("s".data) (mkRat (1) 1) (mkRat (-3) 1) [])])]))
  , (("cv".data), (.mk ("cv".data) (mkRat (735499) 1000) (mkRat (1) 1) [(.mk ("W".data) (mkRat (1) 1) (mkRat (1) 1) [(.mk ("kg".data) (mkRat (1) 1) (mkRat (1) 1) []), (.mk ("m".data) (mkRat (1) 1) (mkRat (2) 1) []), (.mk ("s".data) (mkRat (1) 1) (mkRat (-3) 1) [])])]))
  , (("hp_cheval".data), (.mk ("hp_cheval".data) (mkRat (735499) 1000) (mkRat (1) 1) [(.mk ("W".data) (mkRat (1) 1) (mkRat (1) 1) [(.mk ("kg".data) (mkRat (1) 1) (mkRat (1) 1) []), (.mk ("m".data) (mkRat (1) 1) (mkRat (2) 1) []), (.mk ("s".data) (mkRat (1) 1) (mkRat (-3) 1) [])])]))
  , (("hp_electric".data), (.mk ("hp_electric".data) (mkRat (746) 1) (mkRat (1) 1) [(.mk ("W".data) (mkRat (1) 1) (mkRat (1) 1) [(.mk ("kg".data) (mkRat (1) 1) (mkRat (1) 1) []), (.mk ("m".data) (mkRat (1) 1) (mkRat (2) 1) []), (.mk ("s".data) (mkRat (1) 1) (mkRat (-3) 1) [])])]))
  , (("hp_metric".data), (.mk ("hp_metric".data) (mkRat (735499) 1000) (mkRat (1) 1) [(.mk ("W".data) (mkRat (1) 1) (mkRat (1) 1) [(.mk ("kg".data) (mkRat (1) 1) (mkRat (1) 1) []), (.mk ("m".data) (mkRat (1) 1) (mkRat (2) 1) []), (.mk ("s".data) (mkRat (1) 1) (mkRat (-3) 1) [])])]))
  , (("hp_water".data), (.mk ("hp_water".data) (mkRat (746043) 1000) (mkRat (1) 1) [(.mk ("W".data) (mkRat (1) 1) (mkRat (1) 1) [(.mk ("kg".data) (mkRat (1) 1) (mkRat (1) 1) []), (.mk ("m".data) (mkRat (1) 1) (mkRat (2) 1) []), (.mk ("s".data) (mkRat (1) 1) (mkRat (-3) 1) [])])]))
  , (("prony".data), (.mk ("prony".data) (mkRat (196133) 2000) (mkRat (1) 1) [(.mk ("W".data) (mkRat (1) 1) (mkRat (1) 1) [(.mk ("kg".data) (mkRat (1) 1) (mkRat (1) 1) []), (.mk ("m".data) (mkRat (1) 1) (mkRat (2) 1) []), (.mk ("s".data) (mkRat (1) 1) (mkRat (-3) 1) [])])]))
  , (("at".data), (.mk ("at".data) (mkRat (196133) 2) (mkRat (1) 1) [(.mk ("Pa".data) (mkRat (1) 1) (mkRat (1) 1) [(.mk ("kg".data) (mkRat (1) 1) (mkRat (1) 1) []), (.mk ("m".data) (mkRat (1) 1) (mkRat (-1) 1) []), (.mk ("s".data) (mkRat (1) 1) (mkRat (-2) 1) [])])]))
  , (("atm".data), (.mk ("atm".data) (mkRat (101325) 1) (mkRat (1) 1) [(.mk ("Pa".data) (mkRat (1) 1) (mkRat (1) 1) [(.mk ("kg".data) (mkRat (1) 1) (mkRat (1) 1) []), (.mk ("m".data) (mkRat (1) 1) (mkRat (-1) 1) []), (.mk ("s".data) (mkRat (1) 1) (mkRat (-2) 1) [])])])) ]

/-- Built catalog table chunk (see `catFinal`). -/
def catUnitsPart16 : List (List Char × UnitT) :=
  [ (("bar".data), (.mk ("bar".data) (mkRat (100000) 1) (mkRat (1) 1) [(.mk ("Pa".data) (mkRat (1) 1) (mkRat (1) 1) [(.mk ("kg".data) (mkRat (1) 1) (mkRat (1) 1) []), (.mk ("m".data) (mkRat (1) 1) (mkRat (-1) 1) []), (.mk ("s".data) (mkRat (1) 1) (mkRat (-2) 1) [])])]))
  , (("Ba".data), (.mk ("Ba".data) (mkRat (1) 10) (mkRat (1) 1) [(.mk ("Pa".data) (mkRat (1) 1) (mkRat (1) 1) [(.mk ("kg".data) (mkRat (1) 1) (mkRat (1) 1) []), (.mk ("m".data) (mkRat (1) 1) (mkRat (-1) 1) []), (.mk ("s".data) (mkRat (1) 1) (mkRat (-2) 1) [])])]))
  , (("p_P".data), (.mk ("p_P".data) (mkRat (463309000000000000000000000000000000000000000000000000000000000000000000000000000000000000000000000000000000000000) 1) (mkRat (1) 1) [(.mk ("Pa".data) (mkRat (1) 1) (mkRat (1) 1) [(.mk ("kg".data) (mkRat (1) 1) (mkRat (1) 1) []), (.mk ("m".data) (mkRat (1) 1) (mkRat (-1) 1) []), (.mk ("s".data) (mkRat (1) 1) (mkRat (-2) 1) [])])]))
  , (("cgs".data), (.mk ("cgs".data) (mkRat (1) 10) (mkRat (1) 1) [(.mk ("Pa".data) (mkRat (1) 1) (mkRat (1) 1) [(.mk ("kg".data) (mkRat (1) 1) (mkRat (1) 1) []), (.mk ("m".data) (mkRat (1) 1) (mkRat (-1) 1) []), (.mk ("s".data) (mkRat (1) 1) (mkRat (-2) 1) [])])]))
  , (("torr".data), (.mk ("torr".data) (mkRat (6666118421) 50000000) (mkRat (1) 1) [(.mk ("Pa".data) (mkRat (1) 1) (mkRat (1) 1) [(.mk ("kg".data) (mkRat (1) 1) (mkRat (1) 1) []), (.mk ("m".data) (mkRat (1) 1) (mkRat (-1) 1) []), (.mk ("s".data) (mkRat (1) 1) (mkRat (-2) 1) [])])]))
  , (("pz".data), (.mk ("pz".data) (mkRat (1000) 1) (mkRat (1) 1) [(.mk ("Pa".data) (mkRat (1) 1) (mkRat (1) 1) [(.mk ("kg".data) (mkRat (1) 1) (mkRat (1) 1) []), (.mk ("m".data) (mkRat (1) 1) (mkRat (-1) 1) []), (.mk ("s".data) (mkRat (1) 1) (mkRat (-2) 1) [])])]))
  , (("Hg".data), (.mk ("Hg".data) (mkRat (133322368421) 1000000) (mkRat (1) 1) [(.mk ("Pa".data) (mkRat (1) 1) (mkRat (1) 1) [(.mk ("kg".data) (mkRat (1) 1) (mkRat (1) 1) []), (.mk ("m".data) (mkRat (1) 1) (mkRat (-1) 1) []), (.mk ("s".data) (mkRat (1) 1) (mkRat (-2) 1) [])])]))
  , (("H₂O".data), (.mk ("H₂O".data) (mkRat (196133) 20) (mkRat (1) 1) [(.mk ("Pa".data) (mkRat (1) 1) (mkRat (1) 1) [(.mk ("kg".data) (mkRat (1) 1) (mkRat (1) 1) []), (.mk ("m".data) (mkRat (1) 1) (mkRat (-1) 1) []), (.mk ("s".data) (mkRat (1) 1) (mkRat (-2) 1) [])])]))
  , (("H2O".data), (.mk ("H2O".data) (mkRat (196133) 20) (mkRat (1) 1) [(.mk ("Pa".data) (mkRat (1) 1) (mkRat (1) 1) [(.mk ("kg".data) (mkRat (1) 1) (mkRat (1) 1) []), (.mk ("m".data) (mkRat (1) 1) (mkRat (-1) 1) []), (.mk ("s".data) (mkRat (1) 1) (mkRat (-2) 1) [])])]))
  , (("Aq".data), (.mk ("Aq".data) (mkRat (196133) 20) (mkRat (1) 1) [(.mk ("Pa".data) (mkRat (1) 1) (mkRat (1) 1) [(.mk ("kg".data) (mkRat (1) 1) (mkRat (1) 1) []), (.mk ("m".data) (mkRat (1) 1) (mkRat (-1) 1) []), (.mk ("s".data) (mkRat (1) 1) (mkRat (-2) 1) [])])]))
  , (("O₂".data), (.mk ("O₂".data) (mkRat (6338728500000231) 500000000000000) (mkRat (1) 1) [(.mk ("Pa".data) (mkRat (1) 1) (mkRat (1) 1) [(.mk ("kg".data) (mkRat (1) 1) (mkRat (1) 1) []), (.mk ("m".data) (mkRat (1) 1) (mkRat (-1) 1) []), (.mk ("s".data) (mkRat (1) 1) (mkRat (-2) 1) [])])]))
  , (("O2".data), (.mk ("O2".data) (mkRat (6338728500000231) 500000000000000) (mkRat (1) 1) [(.mk ("Pa".data) (mkRat (1) 1) (mkRat (1) 1) [(.mk ("kg".data) (mkRat (1) 1) (mkRat (1) 1) []), (.mk ("m".data) (mkRat (1) 1) (mkRat (-1) 1) []), (.mk ("s".data) (mkRat (1) 1) (mkRat (-2) 1) [])])]))
  , (("ksi".data), (.mk ("ksi".data) (mkRat (1723689323300011) 250000000) (mkRat (1) 1) [(.mk ("Pa".data) (mkRat (1) 1) (mkRat (1) 1) [(.mk ("kg".data) (mkRat (1) 1) (mkRat (1) 1) []), (.mk ("m".data) (mkRat (1) 1) (mkRat (-1) 1) []), (.mk ("s".data) (mkRat (1) 1) (mkRat (-2) 1) [])])]))
  , (("psi".data), (.mk ("psi".data) (mkRat (17236893233) 2500000) (mkRat (1) 1) [(.mk ("Pa".data) (mkRat (1) 1) (mkRat (1) 1) [(.mk ("kg".data) (mkRat (1) 1) (mkRat (1) 1) []), (.mk ("m".data) (mkRat (1) 1) (mkRat (-1) 1) []), (.mk ("s".data) (mkRat (1) 1) (mkRat (-2) 1) [])])]))
  , (("psf".data), (.mk ("psf".data) (mkRat (1197006474499999) 25000000000000) (mkRat (1) 1) [(.mk ("Pa".data) (mkRat (1) 1) (mkRat (1) 1) [(.mk ("kg".data) (mkRat (1) 1) (mkRat (1) 1) []), (.mk ("m".data) (mkRat (1) 1) (mkRat (-1) 1) []), (.mk ("s".data) (mkRat (1) 1) (mkRat (-2) 1) [])])])) ]

/-- Built catalog table chunk (see `catFinal`). -/
def catUnitsPart17 : List (List Char × UnitT) :=
  [ (("osi".data), (.mk ("osi".data) (mkRat (269326456250003) 625000000000) (mkRat (1) 1) [(.mk ("Pa".data) (mkRat (1) 1) (mkRat (1) 1) [(.mk ("kg".data) (mkRat (1) 1) (mkRat (1) 1) []), (.mk ("m".data) (mkRat (1) 1) (mkRat (-1) 1) []), (.mk ("s".data) (mkRat (1) 1) (mkRat (-2) 1) [])])]))
  , (("kerma".data), (.mk ("kerma".data) (mkRat (1) 1) (mkRat (1) 1) [(.mk ("Gy".data) (mkRat (1) 1) (mkRat (1) 1) [(.mk ("m".data) (mkRat (1) 1) (mkRat (2) 1) []), (.mk ("s".data) (mkRat (1) 1) (mkRat (-2) 1) [])])]))
  , (("Mrd".data), (.mk ("Mrd".data) (mkRat (10000) 1) (mkRat (1) 1) [(.mk ("Gy".data) (mkRat (1) 1) (mkRat (1) 1) [(.mk ("m".data) (mkRat (1) 1) (mkRat (2) 1) []), (.mk ("s".data) (mkRat (1) 1) (mkRat (-2) 1) [])])]))
  , (("rad".data), (.mk ("rad".data) (mkRat (1) 100) (mkRat (1) 1) [(.mk ("Gy".data) (mkRat (1) 1) (mkRat (1) 1) [(.mk ("m".data) (mkRat (1) 1) (mkRat (2) 1) []), (.mk ("s".data) (mkRat (1) 1) (mkRat (-2) 1) [])])]))
  , (("B_power".data), (.mk ("B_power".data) (mkRat (10) 1) (mkRat (1) 1) [(.mk ("dB".data) (mkRat (1) 1) (mkRat (1) 1) [])]))
  , (("B_voltage".data), (.mk ("B_voltage".data) (mkRat (5) 1) (mkRat (1) 1) [(.mk ("dB".data) (mkRat (1) 1) (mkRat (1) 1) [])]))
  , (("dB_power".data), (.mk ("dB_power".data) (mkRat (1) 1) (mkRat (1) 1) [(.mk ("dB".data) (mkRat (1) 1) (mkRat (1) 1) [])]))
  , (("dB_voltage".data), (.mk ("dB_voltage".data) (mkRat (1) 2) (mkRat (1) 1) [(.mk ("dB".data) (mkRat (1) 1) (mkRat (1) 1) [])]))
  , (("Nₚ".data), (.mk ("Nₚ".data) (mkRat (217147) 50000) (mkRat (1) 1) [(.mk ("dB".data) (mkRat (1) 1) (mkRat (1) 1) [])]))
  , (("au_mf".data), (.mk ("au_mf".data) (mkRat (235052) 1) (mkRat (1) 1) [(.mk ("T".data) (mkRat (1) 1) (mkRat (1) 1) [(.mk ("kg".data) (mkRat (1) 1) (mkRat (1) 1) []), (.mk ("s".data) (mkRat (1) 1) (mkRat (-2) 1) []), (.mk ("A".data) (mkRat (1) 1) (mkRat (-1) 1) [])])]))
  , (("Gs".data), (.mk ("Gs".data) (mkRat (1) 100000) (mkRat (1) 1) [(.mk ("T".data) (mkRat (1) 1) (mkRat (1) 1) [(.mk ("kg".data) (mkRat (1) 1) (mkRat (1) 1) []), (.mk ("s".data) (mkRat (1) 1) (mkRat (-2) 1) []), (.mk ("A".data) (mkRat (1) 1) (mkRat (-1) 1) [])])]))
  , (("M".data), (.mk ("M".data) (mkRat (1) 1000000000) (mkRat (1) 1) [(.mk ("Wb".data) (mkRat (1) 1) (mkRat (1) 1) [(.mk ("kg".data) (mkRat (1) 1) (mkRat (1) 1) []), (.mk ("m".data) (mkRat (1) 1) (mkRat (2) 1) []), (.mk ("s".data) (mkRat (1) 1) (mkRat (-2) 1) []), (.mk ("A".data) (mkRat (1) 1) (mkRat (-1) 1) [])])]))
  , (("au_charge".data), (.mk ("au_charge".data) (mkRat (80109) 500000000000000000000000) (mkRat (1) 1) [(.mk ("C".data) (mkRat (1) 1) (mkRat (1) 1) [(.mk ("s".data) (mkRat (1) 1) (mkRat (1) 1) []), (.mk ("A".data) (mkRat (1) 1) (mkRat (1) 1) [])])]))
  , (("aC".data), (.mk ("aC".data) (mkRat (10) 1) (mkRat (1) 1) [(.mk ("C".data) (mkRat (1) 1) (mkRat (1) 1) [(.mk ("s".data) (mkRat (1) 1) (mkRat (1) 1) []), (.mk ("A".data) (mkRat (1) 1) (mkRat (1) 1) [])])]))
  , (("esc".data), (.mk ("esc".data) (mkRat (8011) 50000000000000000000000) (mkRat (1) 1) [(.mk ("C".data) (mkRat (1) 1) (mkRat (1) 1) [(.mk ("s".data) (mkRat (1) 1) (mkRat (1) 1) []), (.mk ("A".data) (mkRat (1) 1) (mkRat (1) 1) [])])])) ]

/-- Built catalog table chunk (see `catFinal`). -/
def catUnitsPart18 : List (List Char × UnitT) :=
  [ (("esu".data), (.mk ("esu".data) (mkRat (417) 125000000) (mkRat (1) 1) [(.mk ("C".data) (mkRat (1) 1) (mkRat (1) 1) [(.mk ("s".data) (mkRat (1) 1) (mkRat (1) 1) []), (.mk ("A".data) (mkRat (1) 1) (mkRat (1) 1) [])])]))
  , (("Fr".data), (.mk ("Fr".data) (mkRat (83391) 250000000000000) (mkRat (1) 1) [(.mk ("C".data) (mkRat (1) 1) (mkRat (1) 1) [(.mk ("s".data) (mkRat (1) 1) (mkRat (1) 1) []), (.mk ("A".data) (mkRat (1) 1) (mkRat (1) 1) [])])]))
  , (("statC".data), (.mk ("statC".data) (mkRat (83891) 250000000000000) (mkRat (1) 1) [(.mk ("C".data) (mkRat (1) 1) (mkRat (1) 1) [(.mk ("s".data) (mkRat (1) 1) (mkRat (1) 1) []), (.mk ("A".data) (mkRat (1) 1) (mkRat (1) 1) [])])]))
  , (("aS".data), (.mk ("aS".data) (mkRat (1000000000) 1) (mkRat (1) 1) [(.mk ("S".data) (mkRat (1) 1) (mkRat (1) 1) [(.mk ("kg".data) (mkRat (1) 1) (mkRat (-1) 1) []), (.mk ("m".data) (mkRat (1) 1) (mkRat (-2) 1) []), (.mk ("s".data) (mkRat (1) 1) (mkRat (3) 1) []), (.mk ("A".data) (mkRat (1) 1) (mkRat (2) 1) [])])]))
  , (("aW-1".data), (.mk ("aW-1".data) (mkRat (1000000000) 1) (mkRat (1) 1) [(.mk ("S".data) (mkRat (1) 1) (mkRat (1) 1) [(.mk ("kg".data) (mkRat (1) 1) (mkRat (-1) 1) []), (.mk ("m".data) (mkRat (1) 1) (mkRat (-2) 1) []), (.mk ("s".data) (mkRat (1) 1) (mkRat (3) 1) []), (.mk ("A".data) (mkRat (1) 1) (mkRat (2) 1) [])])]))
  , (("gemʊ".data), (.mk ("gemʊ".data) (mkRat (1) 10000000) (mkRat (1) 1) [(.mk ("S".data) (mkRat (1) 1) (mkRat (1) 1) [(.mk ("kg".data) (mkRat (1) 1) (mkRat (-1) 1) []), (.mk ("m".data) (mkRat (1) 1) (mkRat (-2) 1) []), (.mk ("s".data) (mkRat (1) 1) (mkRat (3) 1) []), (.mk ("A".data) (mkRat (1) 1) (mkRat (2) 1) [])])]))
  , (("mho".data), (.mk ("mho".data) (mkRat (1) 1) (mkRat (1) 1) [(.mk ("S".data) (mkRat (1) 1) (mkRat (1) 1) [(.mk ("kg".data) (mkRat (1) 1) (mkRat (-1) 1) []), (.mk ("m".data) (mkRat (1) 1) (mkRat (-2) 1) []), (.mk ("s".data) (mkRat (1) 1) (mkRat (3) 1) []), (.mk ("A".data) (mkRat (1) 1) (mkRat (2) 1) [])])]))
  , (("statmho".data), (.mk ("statmho".data) (mkRat (22253) 20000000000000000) (mkRat (1) 1) [(.mk ("S".data) (mkRat (1) 1) (mkRat (1) 1) [(.mk ("kg".data) (mkRat (1) 1) (mkRat (-1) 1) []), (.mk ("m".data) (mkRat (1) 1) (mkRat (-2) 1) []), (.mk ("s".data) (mkRat (1) 1) (mkRat (3) 1) []), (.mk ("A".data) (mkRat (1) 1) (mkRat (2) 1) [])])]))
  , (("aH".data), (.mk ("aH".data) (mkRat (1) 10000000000) (mkRat (1) 1) [(.mk ("H".data) (mkRat (1) 1) (mkRat (1) 1) [(.mk ("kg".data) (mkRat (1) 1) (mkRat (1) 1) []), (.mk ("m".data) (mkRat (1) 1) (mkRat (2) 1) []), (.mk ("s".data) (mkRat (1) 1) (mkRat (-2) 1) []), (.mk ("A".data) (mkRat (1) 1) (mkRat (-2) 1) [])])]))
  , (("statH".data), (.mk ("statH".data) (mkRat (898755000000) 1) (mkRat (1) 1) [(.mk ("H".data) (mkRat (1) 1) (mkRat (1) 1) [(.mk ("kg".data) (mkRat (1) 1) (mkRat (1) 1) []), (.mk ("m".data) (mkRat (1) 1) (mkRat (2) 1) []), (.mk ("s".data) (mkRat (1) 1) (mkRat (-2) 1) []), (.mk ("A".data) (mkRat (1) 1) (mkRat (-2) 1) [])])]))
  , (("au_ep".data), (.mk ("au_ep".data) (mkRat (136057) 5000) (mkRat (1) 1) [(.mk ("V".data) (mkRat (1) 1) (mkRat (1) 1) [(.mk ("kg".data) (mkRat (1) 1) (mkRat (1) 1) []), (.mk ("m".data) (mkRat (1) 1) (mkRat (2) 1) []), (.mk ("s".data) (mkRat (1) 1) (mkRat (-3) 1) []), (.mk ("A".data) (mkRat (1) 1) (mkRat (-1) 1) [])])]))
  , (("aV".data), (.mk ("aV".data) (mkRat (1) 1000000000) (mkRat (1) 1) [(.mk ("V".data) (mkRat (1) 1) (mkRat (1) 1) [(.mk ("kg".data) (mkRat (1) 1) (mkRat (1) 1) []), (.mk ("m".data) (mkRat (1) 1) (mkRat (2) 1) []), (.mk ("s".data) (mkRat (1) 1) (mkRat (-3) 1) []), (.mk ("A".data) (mkRat (1) 1) (mkRat (-1) 1) [])])]))
  , (("statV".data), (.mk ("statV".data) (mkRat (37474) 125) (mkRat (1) 1) [(.mk ("V".data) (mkRat (1) 1) (mkRat (1) 1) [(.mk ("kg".data) (mkRat (1) 1) (mkRat (1) 1) []), (.mk ("m".data) (mkRat (1) 1) (mkRat (2) 1) []), (.mk ("s".data) (mkRat (1) 1) (mkRat (-3) 1) []), (.mk ("A".data) (mkRat (1) 1) (mkRat (-1) 1) [])])]))
  , (("V_mean".data), (.mk ("V_mean".data) (mkRat (50017) 50000) (mkRat (1) 1) [(.mk ("V".data) (mkRat (1) 1) (mkRat (1) 1) [(.mk ("kg".data) (mkRat (1) 1) (mkRat (1) 1) []), (.mk ("m".data) (mkRat (1) 1) (mkRat (2) 1) []), (.mk ("s".data) (mkRat (1) 1) (mkRat (-3) 1) []), (.mk ("A".data) (mkRat (1) 1) (mkRat (-1) 1) [])])]))
  , (("V_US".data), (.mk ("V_US".data) (mkRat (100033) 100000) (mkRat (1) 1) [(.mk ("V".data) (mkRat (1) 1) (mkRat (1) 1) [(.mk ("kg".data) (mkRat (1) 1) (mkRat (1) 1) []), (.mk ("m".data) (mkRat (1) 1) (mkRat (2) 1) []), (.mk ("s".data) (mkRat (1) 1) (mkRat (-3) 1) []), (.mk ("A".data) (mkRat (1) 1) (mkRat (-1) 1) [])])])) ]

/-- Built catalog table chunk (see `catFinal`). -/
def catUnitsPart19 : List (List Char × UnitT) :=
  [ (("aΩ".data), (.mk ("aΩ".data) (mkRat (1) 10000000000) (mkRat (1) 1) [(.mk ("Ω".data) (mkRat (1) 1) (mkRat (1) 1) [(.mk ("kg".data) (mkRat (1) 1) (mkRat (1) 1) []), (.mk ("m".data) (mkRat (1) 1) (mkRat (2) 1) []), (.mk ("s".data) (mkRat (1) 1) (mkRat (-3) 1) []), (.mk ("A".data) (mkRat (1) 1) (mkRat (-2) 1) [])])]))
  , (("SΩ".data), (.mk ("SΩ".data) (mkRat (24) 25) (mkRat (1) 1) [(.mk ("Ω".data) (mkRat (1) 1) (mkRat (1) 1) [(.mk ("kg".data) (mkRat (1) 1) (mkRat (1) 1) []), (.mk ("m".data) (mkRat (1) 1) (mkRat (2) 1) []), (.mk ("s".data) (mkRat (1) 1) (mkRat (-3) 1) []), (.mk ("A".data) (mkRat (1) 1) (mkRat (-2) 1) [])])]))
  , (("statohm".data), (.mk ("statohm".data) (mkRat (898755000000) 1) (mkRat (1) 1) [(.mk ("Ω".data) (mkRat (1) 1) (mkRat (1) 1) [(.mk ("kg".data) (mkRat (1) 1) (mkRat (1) 1) []), (.mk ("m".data) (mkRat (1) 1) (mkRat (2) 1) []), (.mk ("s".data) (mkRat (1) 1) (mkRat (-3) 1) []), (.mk ("A".data) (mkRat (1) 1) (mkRat (-2) 1) [])])]))
  , (("au_energy".data), (.mk ("au_energy".data) (mkRat (17439) 4000000000000000000000) (mkRat (1) 1) [(.mk ("J".data) (mkRat (1) 1) (mkRat (1) 1) [(.mk ("kg".data) (mkRat (1) 1) (mkRat (1) 1) []), (.mk ("m".data) (mkRat (1) 1) (mkRat (2) 1) []), (.mk ("s".data) (mkRat (1) 1) (mkRat (-2) 1) [])])]))
  , (("bboe".data), (.mk ("bboe".data) (mkRat (6120000000) 1) (mkRat (1) 1) [(.mk ("J".data) (mkRat (1) 1) (mkRat (1) 1) [(.mk ("kg".data) (mkRat (1) 1) (mkRat (1) 1) []), (.mk ("m".data) (mkRat (1) 1) (mkRat (2) 1) []), (.mk ("s".data) (mkRat (1) 1) (mkRat (-2) 1) [])])]))
  , (("BeV".data), (.mk ("BeV".data) (mkRat (80109) 500000000000000) (mkRat (1) 1) [(.mk ("J".data) (mkRat (1) 1) (mkRat (1) 1) [(.mk ("kg".data) (mkRat (1) 1) (mkRat (1) 1) []), (.mk ("m".data) (mkRat (1) 1) (mkRat (2) 1) []), (.mk ("s".data) (mkRat (1) 1) (mkRat (-2) 1) [])])]))
  , (("Btu_ISO".data), (.mk ("Btu_ISO".data) (mkRat (52753) 50) (mkRat (1) 1) [(.mk ("J".data) (mkRat (1) 1) (mkRat (1) 1) [(.mk ("kg".data) (mkRat (1) 1) (mkRat (1) 1) []), (.mk ("m".data) (mkRat (1) 1) (mkRat (2) 1) []), (.mk ("s".data) (mkRat (1) 1) (mkRat (-2) 1) [])])]))
  , (("Btu_IT".data), (.mk ("Btu_IT".data) (mkRat (52753) 50) (mkRat (1) 1) [(.mk ("J".data) (mkRat (1) 1) (mkRat (1) 1) [(.mk ("kg".data) (mkRat (1) 1) (mkRat (1) 1) []), (.mk ("m".data) (mkRat (1) 1) (mkRat (2) 1) []), (.mk ("s".data) (mkRat (1) 1) (mkRat (-2) 1) [])])]))
  , (("Btu_mean".data), (.mk ("Btu_mean".data) (mkRat (105587) 100) (mkRat (1) 1) [(.mk ("J".data) (mkRat (1) 1) (mkRat (1) 1) [(.mk ("kg".data) (mkRat (1) 1) (mkRat (1) 1) []), (.mk ("m".data) (mkRat (1) 1) (mkRat (2) 1) []), (.mk ("s".data) (mkRat (1) 1) (mkRat (-2) 1) [])])]))
  , (("Btu_therm".data), (.mk ("Btu_therm".data) (mkRat (21087) 20) (mkRat (1) 1) [(.mk ("J".data) (mkRat (1) 1) (mkRat (1) 1) [(.mk ("kg".data) (mkRat (1) 1) (mkRat (1) 1) []), (.mk ("m".data) (mkRat (1) 1) (mkRat (2) 1) []), (.mk ("s".data) (mkRat (1) 1) (mkRat (-2) 1) [])])]))
  , (("cal_15".data), (.mk ("cal_15".data) (mkRat (837) 200) (mkRat (1) 1) [(.mk ("J".data) (mkRat (1) 1) (mkRat (1) 1) [(.mk ("kg".data) (mkRat (1) 1) (mkRat (1) 1) []), (.mk ("m".data) (mkRat (1) 1) (mkRat (2) 1) []), (.mk ("s".data) (mkRat (1) 1) (mkRat (-2) 1) [])])]))
  , (("cal_4".data), (.mk ("cal_4".data) (mkRat (8409) 2000) (mkRat (1) 1) [(.mk ("J".data) (mkRat (1) 1) (mkRat (1) 1) [(.mk ("kg".data) (mkRat (1) 1) (mkRat (1) 1) []), (.mk ("m".data) (mkRat (1) 1) (mkRat (2) 1) []), (.mk ("s".data) (mkRat (1) 1) (mkRat (-2) 1) [])])]))
  , (("Cal".data), (.mk ("Cal".data) (mkRat (4180) 1) (mkRat (1) 1) [(.mk ("J".data) (mkRat (1) 1) (mkRat (1) 1) [(.mk ("kg".data) (mkRat (1) 1) (mkRat (1) 1) []), (.mk ("m".data) (mkRat (1) 1) (mkRat (2) 1) []), (.mk ("s".data) (mkRat (1) 1) (mkRat (-2) 1) [])])]))
  , (("kcal".data), (.mk ("kcal".data) (mkRat (4180) 1) (mkRat (1) 1) [(.mk ("J".data) (mkRat (1) 1) (mkRat (1) 1) [(.mk ("kg".data) (mkRat (1) 1) (mkRat (1) 1) []), (.mk ("m".data) (mkRat (1) 1) (mkRat (2) 1) []), (.mk ("s".data) (mkRat (1) 1) (mkRat (-2) 1) [])])]))
  , (("cal_IT".data), (.mk ("cal_IT".data) (mkRat (209337) 50000) (mkRat (1) 1) [(.mk ("J".data) (mkRat (1) 1) (mkRat (1) 1) [(.mk ("kg".data) (mkRat (1) 1) (mkRat (1) 1) []), (.mk ("m".data) (mkRat (1) 1) (mkRat (2) 1) []), (.mk ("s".data) (mkRat (1) 1) (mkRat (-2) 1) [])])])) ]

/-- Built catalog table chunk (see `catFinal`). -/
def catUnitsPart20 : List (List Char × UnitT) :=
  [ (("cal_mean".data), (.mk ("cal_mean".data) (mkRat (209501) 50000) (mkRat (1) 1) [(.mk ("J".data) (mkRat (1) 1) (mkRat (1) 1) [(.mk ("kg".data) (mkRat (1) 1) (mkRat (1) 1) []), (.mk ("m".data) (mkRat (1) 1) (mkRat (2) 1) []), (.mk ("s".data) (mkRat (1) 1) (mkRat (-2) 1) [])])]))
  , (("cal_therm".data), (.mk ("cal_therm".data) (mkRat (523) 125) (mkRat (1) 1) [(.mk ("J".data) (mkRat (1) 1) (mkRat (1) 1) [(.mk ("kg".data) (mkRat (1) 1) (mkRat (1) 1) []), (.mk ("m".data) (mkRat (1) 1) (mkRat (2) 1) []), (.mk ("s".data) (mkRat (1) 1) (mkRat (-2) 1) [])])]))
  , (("Chu".data), (.mk ("Chu".data) (mkRat (94959) 50) (mkRat (1) 1) [(.mk ("J".data) (mkRat (1) 1) (mkRat (1) 1) [(.mk ("kg".data) (mkRat (1) 1) (mkRat (1) 1) []), (.mk ("m".data) (mkRat (1) 1) (mkRat (2) 1) []), (.mk ("s".data) (mkRat (1) 1) (mkRat (-2) 1) [])])]))
  , (("eV".data), (.mk ("eV".data) (mkRat (80109) 500000000000000000000000) (mkRat (1) 1) [(.mk ("J".data) (mkRat (1) 1) (mkRat (1) 1) [(.mk ("kg".data) (mkRat (1) 1) (mkRat (1) 1) []), (.mk ("m".data) (mkRat (1) 1) (mkRat (2) 1) []), (.mk ("s".data) (mkRat (1) 1) (mkRat (-2) 1) [])])]))
  , (("erg".data), (.mk ("erg".data) (mkRat (1) 10000000) (mkRat (1) 1) [(.mk ("J".data) (mkRat (1) 1) (mkRat (1) 1) [(.mk ("kg".data) (mkRat (1) 1) (mkRat (1) 1) []), (.mk ("m".data) (mkRat (1) 1) (mkRat (2) 1) []), (.mk ("s".data) (mkRat (1) 1) (mkRat (-2) 1) [])])]))
  , (("Eh".data), (.mk ("Eh".data) (mkRat (17439) 4000000000000000000000) (mkRat (1) 1) [(.mk ("J".data) (mkRat (1) 1) (mkRat (1) 1) [(.mk ("kg".data) (mkRat (1) 1) (mkRat (1) 1) []), (.mk ("m".data) (mkRat (1) 1) (mkRat (2) 1) []), (.mk ("s".data) (mkRat (1) 1) (mkRat (-2) 1) [])])]))
  , (("au_force".data), (.mk ("au_force".data) (mkRat (823873) 10000000000000) (mkRat (1) 1) [(.mk ("N".data) (mkRat (1) 1) (mkRat (1) 1) [(.mk ("kg".data) (mkRat (1) 1) (mkRat (1) 1) []), (.mk ("m".data) (mkRat (1) 1) (mkRat (1) 1) []), (.mk ("s".data) (mkRat (1) 1) (mkRat (-2) 1) [])])]))
  , (("crinal".data), (.mk ("crinal".data) (mkRat (1) 10) (mkRat (1) 1) [(.mk ("N".data) (mkRat (1) 1) (mkRat (1) 1) [(.mk ("kg".data) (mkRat (1) 1) (mkRat (1) 1) []), (.mk ("m".data) (mkRat (1) 1) (mkRat (1) 1) []), (.mk ("s".data) (mkRat (1) 1) (mkRat (-2) 1) [])])]))
  , (("dyn".data), (.mk ("dyn".data) (mkRat (1) 100000) (mkRat (1) 1) [(.mk ("N".data) (mkRat (1) 1) (mkRat (1) 1) [(.mk ("kg".data) (mkRat (1) 1) (mkRat (1) 1) []), (.mk ("m".data) (mkRat (1) 1) (mkRat (1) 1) []), (.mk ("s".data) (mkRat (1) 1) (mkRat (-2) 1) [])])]))
  , (("gf".data), (.mk ("gf".data) (mkRat (196133) 20000000) (mkRat (1) 1) [(.mk ("N".data) (mkRat (1) 1) (mkRat (1) 1) [(.mk ("kg".data) (mkRat (1) 1) (mkRat (1) 1) []), (.mk ("m".data) (mkRat (1) 1) (mkRat (1) 1) []), (.mk ("s".data) (mkRat (1) 1) (mkRat (-2) 1) [])])]))
  , (("kgf".data), (.mk ("kgf".data) (mkRat (196133) 20000) (mkRat (1) 1) [(.mk ("N".data) (mkRat (1) 1) (mkRat (1) 1) [(.mk ("kg".data) (mkRat (1) 1) (mkRat (1) 1) []), (.mk ("m".data) (mkRat (1) 1) (mkRat (1) 1) []), (.mk ("s".data) (mkRat (1) 1) (mkRat (-2) 1) [])])]))
  , (("kgp".data), (.mk ("kgp".data) (mkRat (196133) 20000) (mkRat (1) 1) [(.mk ("N".data) (mkRat (1) 1) (mkRat (1) 1) [(.mk ("kg".data) (mkRat (1) 1) (mkRat (1) 1) []), (.mk ("m".data) (mkRat (1) 1) (mkRat (1) 1) []), (.mk ("s".data) (mkRat (1) 1) (mkRat (-2) 1) [])])]))
  , (("grf".data), (.mk ("grf".data) (mkRat (1271) 2000) (mkRat (1) 1) [(.mk ("N".data) (mkRat (1) 1) (mkRat (1) 1) [(.mk ("kg".data) (mkRat (1) 1) (mkRat (1) 1) []), (.mk ("m".data) (mkRat (1) 1) (mkRat (1) 1) []), (.mk ("s".data) (mkRat (1) 1) (mkRat (-2) 1) [])])]))
  , (("kp".data), (.mk ("kp".data) (mkRat (196133) 20000) (mkRat (1) 1) [(.mk ("N".data) (mkRat (1) 1) (mkRat (1) 1) [(.mk ("kg".data) (mkRat (1) 1) (mkRat (1) 1) []), (.mk ("m".data) (mkRat (1) 1) (mkRat (1) 1) []), (.mk ("s".data) (mkRat (1) 1) (mkRat (-2) 1) [])])]))
  , (("kipf".data), (.mk ("kipf".data) (mkRat (222411) 50) (mkRat (1) 1) [(.mk ("N".data) (mkRat (1) 1) (mkRat (1) 1) [(.mk ("kg".data) (mkRat (1) 1) (mkRat (1) 1) []), (.mk ("m".data) (mkRat (1) 1) (mkRat (1) 1) []), (.mk ("s".data) (mkRat (1) 1) (mkRat (-2) 1) [])])])) ]

/-- Built catalog table chunk (see `catFinal`). -/
def catUnitsPart21 : List (List Char × UnitT) :=
  [ (("lbf".data), (.mk ("lbf".data) (mkRat (5560277) 1250000) (mkRat (1) 1) [(.mk ("N".data) (mkRat (1) 1) (mkRat (1) 1) [(.mk ("kg".data) (mkRat (1) 1) (mkRat (1) 1) []), (.mk ("m".data) (mkRat (1) 1) (mkRat (1) 1) []), (.mk ("s".data) (mkRat (1) 1) (mkRat (-2) 1) [])])]))
  , (("pdl".data), (.mk ("pdl".data) (mkRat (27651) 200000) (mkRat (1) 1) [(.mk ("N".data) (mkRat (1) 1) (mkRat (1) 1) [(.mk ("kg".data) (mkRat (1) 1) (mkRat (1) 1) []), (.mk ("m".data) (mkRat (1) 1) (mkRat (1) 1) []), (.mk ("s".data) (mkRat (1) 1) (mkRat (-2) 1) [])])]))
  , (("slugf".data), (.mk ("slugf".data) (mkRat (143117) 1000) (mkRat (1) 1) [(.mk ("N".data) (mkRat (1) 1) (mkRat (1) 1) [(.mk ("kg".data) (mkRat (1) 1) (mkRat (1) 1) []), (.mk ("m".data) (mkRat (1) 1) (mkRat (1) 1) []), (.mk ("s".data) (mkRat (1) 1) (mkRat (-2) 1) [])])]))
  , (("tf_long".data), (.mk ("tf_long".data) (mkRat (498201) 50) (mkRat (1) 1) [(.mk ("N".data) (mkRat (1) 1) (mkRat (1) 1) [(.mk ("kg".data) (mkRat (1) 1) (mkRat (1) 1) []), (.mk ("m".data) (mkRat (1) 1) (mkRat (1) 1) []), (.mk ("s".data) (mkRat (1) 1) (mkRat (-2) 1) [])])]))
  , (("tf_metric".data), (.mk ("tf_metric".data) (mkRat (196133) 20) (mkRat (1) 1) [(.mk ("N".data) (mkRat (1) 1) (mkRat (1) 1) [(.mk ("kg".data) (mkRat (1) 1) (mkRat (1) 1) []), (.mk ("m".data) (mkRat (1) 1) (mkRat (1) 1) []), (.mk ("s".data) (mkRat (1) 1) (mkRat (-2) 1) [])])]))
  , (("tf_short".data), (.mk ("tf_short".data) (mkRat (222411) 25) (mkRat (1) 1) [(.mk ("N".data) (mkRat (1) 1) (mkRat (1) 1) [(.mk ("kg".data) (mkRat (1) 1) (mkRat (1) 1) []), (.mk ("m".data) (mkRat (1) 1) (mkRat (1) 1) []), (.mk ("s".data) (mkRat (1) 1) (mkRat (-2) 1) [])])]))
  , (("ozf".data), (.mk ("ozf".data) (mkRat (139007) 500000) (mkRat (1) 1) [(.mk ("N".data) (mkRat (1) 1) (mkRat (1) 1) [(.mk ("kg".data) (mkRat (1) 1) (mkRat (1) 1) []), (.mk ("m".data) (mkRat (1) 1) (mkRat (1) 1) []), (.mk ("s".data) (mkRat (1) 1) (mkRat (-2) 1) [])])]))
  , (("au_ec".data), (.mk ("au_ec".data) (mkRat (331181) 50000000) (mkRat (1) 1) [(.mk ("A".data) (mkRat (1) 1) (mkRat (1) 1) [])]))
  , (("abA".data), (.mk ("abA".data) (mkRat (10) 1) (mkRat (1) 1) [(.mk ("A".data) (mkRat (1) 1) (mkRat (1) 1) [])]))
  , (("Bi".data), (.mk ("Bi".data) (mkRat (10) 1) (mkRat (1) 1) [(.mk ("A".data) (mkRat (1) 1) (mkRat (1) 1) [])]))
  , (("edison".data), (.mk ("edison".data) (mkRat (100) 1) (mkRat (1) 1) [(.mk ("A".data) (mkRat (1) 1) (mkRat (1) 1) [])]))
  , (("statA".data), (.mk ("statA".data) (mkRat (83891) 250000000000000) (mkRat (1) 1) [(.mk ("A".data) (mkRat (1) 1) (mkRat (1) 1) [])]))
  , (("gilbert".data), (.mk ("gilbert".data) (mkRat (79577) 100000) (mkRat (1) 1) [(.mk ("A".data) (mkRat (1) 1) (mkRat (1) 1) [])]))
  , (("pragilbert".data), (.mk ("pragilbert".data) (mkRat (114591) 10) (mkRat (1) 1) [(.mk ("A".data) (mkRat (1) 1) (mkRat (1) 1) [])]))
  , (("cps".data), (.mk ("cps".data) (mkRat (1) 1) (mkRat (1) 1) [(.mk ("Hz".data) (mkRat (1) 1) (mkRat (1) 1) [(.mk ("s".data) (mkRat (1) 1) (mkRat (-1) 1) [])])])) ]

/-- Built catalog table chunk (see `catFinal`). -/
def catUnitsPart22 : List (List Char × UnitT) :=
  [ (("Kt".data), (.mk ("Kt".data) (mkRat (416667) 10000000) (mkRat (1) 1) []))
  , (("ppb".data), (.mk ("ppb".data) (mkRat (1) 10000000000) (mkRat (1) 1) []))
  , (("pph".data), (.mk ("pph".data) (mkRat (1) 1000) (mkRat (1) 1) []))
  , (("pphm".data), (.mk ("pphm".data) (mkRat (1) 1000000000) (mkRat (1) 1) []))
  , (("ppht".data), (.mk ("ppht".data) (mkRat (1) 1000000) (mkRat (1) 1) []))
  , (("ppm".data), (.mk ("ppm".data) (mkRat (1) 10000000) (mkRat (1) 1) []))
  , (("ppq".data), (.mk ("ppq".data) (mkRat (1) 1000000000000000) (mkRat (1) 1) []))
  , (("ppt_tera".data), (.mk ("ppt_tera".data) (mkRat (1) 10000000000000) (mkRat (1) 1) []))
  , (("ppt".data), (.mk ("ppt".data) (mkRat (1) 1000) (mkRat (1) 1) []))
  , (("Ci".data), (.mk ("Ci".data) (mkRat (37000000000) 1) (mkRat (1) 1) [(.mk ("Bq".data) (mkRat (1) 1) (mkRat (1) 1) [(.mk ("s".data) (mkRat (1) 1) (mkRat (-1) 1) [])])]))
  , (("sp".data), (.mk ("sp".data) (mkRat (7854) 625) (mkRat (1) 1) [(.mk ("sr".data) (mkRat (1) 1) (mkRat (1) 1) [(.mk ("m".data) (mkRat (1) 1) (mkRat (2) 1) []), (.mk ("m".data) (mkRat (1) 1) (mkRat (-2) 1) [])])]))
  , (("gy".data), (.mk ("gy".data) (mkRat (1000) 1) (mkRat (1) 1) [(.mk ("kg".data) (mkRat (1) 1) (mkRat (1) 1) []), (.mk ("m".data) (mkRat (1) 1) (mkRat (-3) 1) [])]))
  , (("lbm".data), (.mk ("lbm".data) (mkRat (56699) 125000) (mkRat (1) 1) [(.mk ("kg".data) (mkRat (1) 1) (mkRat (1) 1) []), (.mk ("m".data) (mkRat (1) 1) (mkRat (2) 1) [])]))
  , (("Ω_mechanical".data), (.mk ("Ω_mechanical".data) (mkRat (1) 1) (mkRat (1) 1) [(.mk ("Pa".data) (mkRat (1) 1) (mkRat (1) 1) [(.mk ("kg".data) (mkRat (1) 1) (mkRat (1) 1) []), (.mk ("m".data) (mkRat (1) 1) (mkRat (-1) 1) []), (.mk ("s".data) (mkRat (1) 1) (mkRat (-2) 1) [])]), (.mk ("s".data) (mkRat (1) 1) (mkRat (1) 1) []), (.mk ("m".data) (mkRat (1) 1) (mkRat (-3) 1) [])]))
  , (("perm_0C".data), (.mk ("perm_0C".data) (mkRat (114427) 2000000000000000) (mkRat (1) 1) [(.mk ("kg".data) (mkRat (1) 1) (mkRat (1) 1) []), (.mk ("N".data) (mkRat (1) 1) (mkRat (-1) 1) [(.mk ("kg".data) (mkRat (1) 1) (mkRat (1) 1) []), (.mk ("m".data) (mkRat (1) 1) (mkRat (1) 1) []), (.mk ("s".data) (mkRat (1) 1) (mkRat (-2) 1) [])]), (.mk ("s".data) (mkRat (1) 1) (mkRat (-1) 1) [])])) ]

/-- Built catalog table chunk (see `catFinal`). -/
def catUnitsPart23 : List (List Char × UnitT) :=
  [ (("perm_23C".data), (.mk ("perm_23C".data) (mkRat (22981) 400000000000000) (mkRat (1) 1) [(.mk ("kg".data) (mkRat (1) 1) (mkRat (1) 1) []), (.mk ("N".data) (mkRat (1) 1) (mkRat (-1) 1) [(.mk ("kg".data) (mkRat (1) 1) (mkRat (1) 1) []), (.mk ("m".data) (mkRat (1) 1) (mkRat (1) 1) []), (.mk ("s".data) (mkRat (1) 1) (mkRat (-2) 1) [])]), (.mk ("s".data) (mkRat (1) 1) (mkRat (-1) 1) [])]))
  , (("permin_0C".data), (.mk ("permin_0C".data) (mkRat (72661) 50000000000000000) (mkRat (1) 1) [(.mk ("kg".data) (mkRat (1) 1) (mkRat (1) 1) []), (.mk ("Pa".data) (mkRat (1) 1) (mkRat (-1) 1) [(.mk ("kg".data) (mkRat (1) 1) (mkRat (1) 1) []), (.mk ("m".data) (mkRat (1) 1) (mkRat (-1) 1) []), (.mk ("s".data) (mkRat (1) 1) (mkRat (-2) 1) [])]), (.mk ("m".data) (mkRat (1) 1) (mkRat (-1) 1) []), (.mk ("s".data) (mkRat (1) 1) (mkRat (-1) 1) [])]))
  , (("permin_23C".data), (.mk ("permin_23C".data) (mkRat (145929) 100000000000000000) (mkRat (1) 1) [(.mk ("kg".data) (mkRat (1) 1) (mkRat (1) 1) []), (.mk ("Pa".data) (mkRat (1) 1) (mkRat (-1) 1) [(.mk ("kg".data) (mkRat (1) 1) (mkRat (1) 1) []), (.mk ("m".data) (mkRat (1) 1) (mkRat (-1) 1) []), (.mk ("s".data) (mkRat (1) 1) (mkRat (-2) 1) [])]), (.mk ("m".data) (mkRat (1) 1) (mkRat (-1) 1) []), (.mk ("s".data) (mkRat (1) 1) (mkRat (-1) 1) [])]))
  , (("permmil_0C".data), (.mk ("permmil_0C".data) (mkRat (72661) 50000000000000000000) (mkRat (1) 1) [(.mk ("kg".data) (mkRat (1) 1) (mkRat (1) 1) []), (.mk ("Pa".data) (mkRat (1) 1) (mkRat (-1) 1) [(.mk ("kg".data) (mkRat (1) 1) (mkRat (1) 1) []), (.mk ("m".data) (mkRat (1) 1) (mkRat (-1) 1) []), (.mk ("s".data) (mkRat (1) 1) (mkRat (-2) 1) [])]), (.mk ("m".data) (mkRat (1) 1) (mkRat (-1) 1) []), (.mk ("s".data) (mkRat (1) 1) (mkRat (-1) 1) [])]))
  , (("permmil_23C".data), (.mk ("permmil_23C".data) (mkRat (145929) 100000000000000000000) (mkRat (1) 1) [(.mk ("kg".data) (mkRat (1) 1) (mkRat (1) 1) []), (.mk ("Pa".data) (mkRat (1) 1) (mkRat (-1) 1) [(.mk ("kg".data) (mkRat (1) 1) (mkRat (1) 1) []), (.mk ("m".data) (mkRat (1) 1) (mkRat (-1) 1) []), (.mk ("s".data) (mkRat (1) 1) (mkRat (-2) 1) [])]), (.mk ("m".data) (mkRat (1) 1) (mkRat (-1) 1) []), (.mk ("s".data) (mkRat (1) 1) (mkRat (-1) 1) [])]))
  , (("brewster".data), (.mk ("brewster".data) (mkRat (1) 1000000000000) (mkRat (1) 1) [(.mk ("m".data) (mkRat (1) 1) (mkRat (2) 1) []), (.mk ("N".data) (mkRat (1) 1) (mkRat (-1) 1) [(.mk ("kg".data) (mkRat (1) 1) (mkRat (1) 1) []), (.mk ("m".data) (mkRat (1) 1) (mkRat (1) 1) []), (.mk ("s".data) (mkRat (1) 1) (mkRat (-2) 1) [])])]))
  , (("aF".data), (.mk ("aF".data) (mkRat (1000000000) 1) (mkRat (1) 1) [(.mk ("F".data) (mkRat (1) 1) (mkRat (1) 1) [(.mk ("kg".data) (mkRat (1) 1) (mkRat (-1) 1) []), (.mk ("m".data) (mkRat (1) 1) (mkRat (-2) 1) []), (.mk ("s".data) (mkRat (1) 1) (mkRat (4) 1) []), (.mk ("A".data) (mkRat (1) 1) (mkRat (2) 1) [])])]))
  , (("jar".data), (.mk ("jar".data) (mkRat (111111) 100000000000000) (mkRat (1) 1) [(.mk ("F".data) (mkRat (1) 1) (mkRat (1) 1) [(.mk ("kg".data) (mkRat (1) 1) (mkRat (-1) 1) []), (.mk ("m".data) (mkRat (1) 1) (mkRat (-2) 1) []), (.mk ("s".data) (mkRat (1) 1) (mkRat (4) 1) []), (.mk ("A".data) (mkRat (1) 1) (mkRat (2) 1) [])])]))
  , (("statF".data), (.mk ("statF".data) (mkRat (22253) 20000000000000000) (mkRat (1) 1) [(.mk ("F".data) (mkRat (1) 1) (mkRat (1) 1) [(.mk ("kg".data) (mkRat (1) 1) (mkRat (-1) 1) []), (.mk ("m".data) (mkRat (1) 1) (mkRat (-2) 1) []), (.mk ("s".data) (mkRat (1) 1) (mkRat (4) 1) []), (.mk ("A".data) (mkRat (1) 1) (mkRat (2) 1) [])])]))
  , (("P".data), (.mk ("P".data) (mkRat (1) 10) (mkRat (1) 1) [(.mk ("Pa".data) (mkRat (1) 1) (mkRat (1) 1) [(.mk ("kg".data) (mkRat (1) 1) (mkRat (1) 1) []), (.mk ("m".data) (mkRat (1) 1) (mkRat (-1) 1) []), (.mk ("s".data) (mkRat (1) 1) (mkRat (-2) 1) [])]), (.mk ("s".data) (mkRat (1) 1) (mkRat (1) 1) [])]))
  , (("Pl".data), (.mk ("Pl".data) (mkRat (1) 1) (mkRat (1) 1) [(.mk ("Pa".data) (mkRat (1) 1) (mkRat (1) 1) [(.mk ("kg".data) (mkRat (1) 1) (mkRat (1) 1) []), (.mk ("m".data) (mkRat (1) 1) (mkRat (-1) 1) []), (.mk ("s".data) (mkRat (1) 1) (mkRat (-2) 1) [])]), (.mk ("s".data) (mkRat (1) 1) (mkRat (1) 1) [])]))
  , (("reyn".data), (.mk ("reyn".data) (mkRat (172369) 25) (mkRat (1) 1) [(.mk ("Pa".data) (mkRat (1) 1) (mkRat (1) 1) [(.mk ("kg".data) (mkRat (1) 1) (mkRat (1) 1) []), (.mk ("m".data) (mkRat (1) 1) (mkRat (-1) 1) []), (.mk ("s".data) (mkRat (1) 1) (mkRat (-2) 1) [])]), (.mk ("s".data) (mkRat (1) 1) (mkRat (1) 1) [])]))
  , (("clo".data), (.mk ("clo".data) (mkRat (7741) 50000) (mkRat (1) 1) [(.mk ("K".data) (mkRat (1) 1) (mkRat (1) 1) []), (.mk ("m".data) (mkRat (1) 1) (mkRat (2) 1) []), (.mk ("W".data) (mkRat (1) 1) (mkRat (-1) 1) [(.mk ("kg".data) (mkRat (1) 1) (mkRat (1) 1) []), (.mk ("m".data) (mkRat (1) 1) (mkRat (2) 1) []), (.mk ("s".data) (mkRat (1) 1) (mkRat (-3) 1) [])])]))
  , (("°F⋅ft²⋅h⋅Btu_therm⁻¹".data), (.mk ("°F⋅ft²⋅h⋅Btu_therm⁻¹".data) (mkRat (44057) 250000) (mkRat (1) 1) [(.mk ("K".data) (mkRat (1) 1) (mkRat (1) 1) []), (.mk ("m".data) (mkRat (1) 1) (mkRat (2) 1) []), (.mk ("W".data) (mkRat (1) 1) (mkRat (-1) 1) [(.mk ("kg".data) (mkRat (1) 1) (mkRat (1) 1) []), (.mk ("m".data) (mkRat (1) 1) (mkRat (2) 1) []), (.mk ("s".data) (mkRat (1) 1) (mkRat (-3) 1) [])])]))
  , (("°F⋅ft²⋅h/Btu_therm".data), (.mk ("°F⋅ft²⋅h/Btu_therm".data) (mkRat (44057) 250000) (mkRat (1) 1) [(.mk ("K".data) (mkRat (1) 1) (mkRat (1) 1) []), (.mk ("m".data) (mkRat (1) 1) (mkRat (2) 1) []), (.mk ("W".data) (mkRat (1) 1) (mkRat (-1) 1) [(.mk ("kg".data) (mkRat (1) 1) (mkRat (1) 1) []), (.mk ("m".data) (mkRat (1) 1) (mkRat (2) 1) []), (.mk ("s".data) (mkRat (1) 1) (mkRat (-3) 1) [])])])) ]

/-- Built catalog table chunk (see `catFinal`). -/
def catUnitsPart24 : List (List Char × UnitT) :=
  [ (("RSI".data), (.mk ("RSI".data) (mkRat (1) 1) (mkRat (1) 1) [(.mk ("K".data) (mkRat (1) 1) (mkRat (1) 1) []), (.mk ("m".data) (mkRat (1) 1) (mkRat (2) 1) []), (.mk ("W".data) (mkRat (1) 1) (mkRat (-1) 1) [(.mk ("kg".data) (mkRat (1) 1) (mkRat (1) 1) []), (.mk ("m".data) (mkRat (1) 1) (mkRat (2) 1) []), (.mk ("s".data) (mkRat (1) 1) (mkRat (-3) 1) [])])]))
  , (("tog".data), (.mk ("tog".data) (mkRat (1) 10) (mkRat (1) 1) [(.mk ("K".data) (mkRat (1) 1) (mkRat (1) 1) []), (.mk ("m".data) (mkRat (1) 1) (mkRat (2) 1) []), (.mk ("W".data) (mkRat (1) 1) (mkRat (-1) 1) [(.mk ("kg".data) (mkRat (1) 1) (mkRat (1) 1) []), (.mk ("m".data) (mkRat (1) 1) (mkRat (2) 1) []), (.mk ("s".data) (mkRat (1) 1) (mkRat (-3) 1) [])])]))
  , (("Bz".data), (.mk ("Bz".data) (mkRat (1) 1) (mkRat (1) 1) [(.mk ("m".data) (mkRat (1) 1) (mkRat (1) 1) []), (.mk ("s".data) (mkRat (1) 1) (mkRat (-1) 1) [])]))
  , (("kn_noeud".data), (.mk ("kn_noeud".data) (mkRat (128611) 250000) (mkRat (1) 1) [(.mk ("m".data) (mkRat (1) 1) (mkRat (1) 1) []), (.mk ("s".data) (mkRat (1) 1) (mkRat (-1) 1) [])]))
  , (("knot_noeud".data), (.mk ("knot_noeud".data) (mkRat (128611) 250000) (mkRat (1) 1) [(.mk ("m".data) (mkRat (1) 1) (mkRat (1) 1) []), (.mk ("s".data) (mkRat (1) 1) (mkRat (-1) 1) [])]))
  , (("mpy".data), (.mk ("mpy".data) (mkRat (804327) 1000000000000000000) (mkRat (1) 1) [(.mk ("m".data) (mkRat (1) 1) (mkRat (1) 1) []), (.mk ("s".data) (mkRat (1) 1) (mkRat (-1) 1) [])]))
  , (("kn".data), (.mk ("kn".data) (mkRat (128611) 250000) (mkRat (1) 1) [(.mk ("m".data) (mkRat (1) 1) (mkRat (1) 1) []), (.mk ("s".data) (mkRat (1) 1) (mkRat (-1) 1) [])]))
  , (("knot".data), (.mk ("knot".data) (mkRat (128611) 250000) (mkRat (1) 1) [(.mk ("m".data) (mkRat (1) 1) (mkRat (1) 1) []), (.mk ("s".data) (mkRat (1) 1) (mkRat (-1) 1) [])]))
  , (("c_light".data), (.mk ("c_light".data) (mkRat (299792000) 1) (mkRat (1) 1) [(.mk ("m".data) (mkRat (1) 1) (mkRat (1) 1) []), (.mk ("s".data) (mkRat (1) 1) (mkRat (-1) 1) [])]))
  , (("dioptre".data), (.mk ("dioptre".data) (mkRat (1) 1) (mkRat (1) 1) [(.mk ("m".data) (mkRat (1) 1) (mkRat (-1) 1) [])]))
  , (("mayer".data), (.mk ("mayer".data) (mkRat (1000) 1) (mkRat (1) 1) [(.mk ("J".data) (mkRat (1) 1) (mkRat (1) 1) [(.mk ("kg".data) (mkRat (1) 1) (mkRat (1) 1) []), (.mk ("m".data) (mkRat (1) 1) (mkRat (2) 1) []), (.mk ("s".data) (mkRat (1) 1) (mkRat (-2) 1) [])]), (.mk ("kg".data) (mkRat (1) 1) (mkRat (-1) 1) []), (.mk ("K".data) (mkRat (1) 1) (mkRat (-1) 1) [])]))
  , (("helmholtz".data), (.mk ("helmholtz".data) (mkRat (417) 1250000000000) (mkRat (1) 1) [(.mk ("C".data) (mkRat (1) 1) (mkRat (1) 1) [(.mk ("s".data) (mkRat (1) 1) (mkRat (1) 1) []), (.mk ("A".data) (mkRat (1) 1) (mkRat (1) 1) [])]), (.mk ("m".data) (mkRat (1) 1) (mkRat (-1) 1) [])]))
  , (("mired".data), (.mk ("mired".data) (mkRat (1000000) 1) (mkRat (1) 1) [(.mk ("K".data) (mkRat (1) 1) (mkRat (-1) 1) [])]))
  , (("cumec".data), (.mk ("cumec".data) (mkRat (1) 1) (mkRat (1) 1) [(.mk ("m".data) (mkRat (1) 1) (mkRat (3) 1) []), (.mk ("s".data) (mkRat (1) 1) (mkRat (-1) 1) [])]))
  , (("gph_UK".data), (.mk ("gph_UK".data) (mkRat (6313999999999999) 5000000000000000000000) (mkRat (1) 1) [(.mk ("m".data) (mkRat (1) 1) (mkRat (3) 1) []), (.mk ("s".data) (mkRat (1) 1) (mkRat (-1) 1) [])])) ]

/-- Built catalog table chunk (see `catFinal`). -/
def catUnitsPart25 : List (List Char × UnitT) :=
  [ (("gpm_UK".data), (.mk ("gpm_UK".data) (mkRat (378841) 5000000000) (mkRat (1) 1) [(.mk ("m".data) (mkRat (1) 1) (mkRat (3) 1) []), (.mk ("s".data) (mkRat (1) 1) (mkRat (-1) 1) [])]))
  , (("gps_UK".data), (.mk ("gps_UK".data) (mkRat (4546090000000001) 1000000000000000000) (mkRat (1) 1) [(.mk ("m".data) (mkRat (1) 1) (mkRat (3) 1) []), (.mk ("s".data) (mkRat (1) 1) (mkRat (-1) 1) [])]))
  , (("lusec".data), (.mk ("lusec".data) (mkRat (1) 1000) (mkRat (1) 1) [(.mk ("m".data) (mkRat (1) 1) (mkRat (3) 1) []), (.mk ("s".data) (mkRat (1) 1) (mkRat (-1) 1) [])]))
  , (("CO".data), (.mk ("CO".data) (mkRat (707921) 1000000000) (mkRat (1) 1) [(.mk ("m".data) (mkRat (1) 1) (mkRat (3) 1) []), (.mk ("s".data) (mkRat (1) 1) (mkRat (-1) 1) [])]))
  , (("gph".data), (.mk ("gph".data) (mkRat (1) 1) (mkRat (1) 1) [(.mk ("gal".data) (mkRat (189270589) 50000000000) (mkRat (1) 1) [(.mk ("m".data) (mkRat (1) 1) (mkRat (3) 1) [])]), (.mk ("h".data) (mkRat (3600) 1) (mkRat (-1) 1) [(.mk ("s".data) (mkRat (1) 1) (mkRat (1) 1) [])])]))
  , (("gpm".data), (.mk ("gpm".data) (mkRat (1) 1) (mkRat (1) 1) [(.mk ("gal".data) (mkRat (189270589) 50000000000) (mkRat (1) 1) [(.mk ("m".data) (mkRat (1) 1) (mkRat (3) 1) [])]), (.mk ("min".data) (mkRat (60) 1) (mkRat (-1) 1) [(.mk ("s".data) (mkRat (1) 1) (mkRat (1) 1) [])])]))
  , (("gps".data), (.mk ("gps".data) (mkRat (37854100000000003) 10000000000000000000) (mkRat (1) 1) [(.mk ("gal".data) (mkRat (189270589) 50000000000) (mkRat (1) 1) [(.mk ("m".data) (mkRat (1) 1) (mkRat (3) 1) [])]), (.mk ("s".data) (mkRat (1) 1) (mkRat (-1) 1) [])]))
  , (("G".data), (.mk ("G".data) (mkRat (196133) 20000) (mkRat (1) 1) [(.mk ("m".data) (mkRat (1) 1) (mkRat (1) 1) []), (.mk ("s".data) (mkRat (1) 1) (mkRat (-2) 1) [])]))
  , (("rps".data), (.mk ("rps".data) (mkRat (1) 1) (mkRat (1) 1) [(.mk ("rev".data) (mkRat (628319) 100000) (mkRat (1) 1) [(.mk ("r".data) (mkRat (1) 1) (mkRat (1) 1) [(.mk ("m".data) (mkRat (1) 1) (mkRat (1) 1) []), (.mk ("m".data) (mkRat (1) 1) (mkRat (-1) 1) [])])]), (.mk ("s".data) (mkRat (1) 1) (mkRat (-1) 1) [])]))
  , (("den".data), (.mk ("den".data) (mkRat (111111) 1000000000000) (mkRat (1) 1) [(.mk ("kg".data) (mkRat (1) 1) (mkRat (1) 1) []), (.mk ("m".data) (mkRat (1) 1) (mkRat (-1) 1) [])]))
  , (("denier".data), (.mk ("denier".data) (mkRat (111111) 1000000000000) (mkRat (1) 1) [(.mk ("kg".data) (mkRat (1) 1) (mkRat (1) 1) []), (.mk ("m".data) (mkRat (1) 1) (mkRat (-1) 1) [])]))
  , (("te".data), (.mk ("te".data) (mkRat (1) 10000000) (mkRat (1) 1) [(.mk ("kg".data) (mkRat (1) 1) (mkRat (1) 1) []), (.mk ("m".data) (mkRat (1) 1) (mkRat (-1) 1) [])]))
  , (("au_lm".data), (.mk ("au_lm".data) (mkRat (39857) 20000000000000000000000000000) (mkRat (1) 1) [(.mk ("N".data) (mkRat (1) 1) (mkRat (1) 1) [(.mk ("kg".data) (mkRat (1) 1) (mkRat (1) 1) []), (.mk ("m".data) (mkRat (1) 1) (mkRat (1) 1) []), (.mk ("s".data) (mkRat (1) 1) (mkRat (-2) 1) [])]), (.mk ("s".data) (mkRat (1) 1) (mkRat (1) 1) [])]))
  , (("c_power".data), (.mk ("c_power".data) (mkRat (7854) 625) (mkRat (1) 1) [(.mk ("cd".data) (mkRat (1) 1) (mkRat (1) 1) []), (.mk ("sr".data) (mkRat (1) 1) (mkRat (1) 1) [(.mk ("m".data) (mkRat (1) 1) (mkRat (2) 1) []), (.mk ("m".data) (mkRat (1) 1) (mkRat (-2) 1) [])])]))
  , (("asb".data), (.mk ("asb".data) (mkRat (31831) 100000) (mkRat (1) 1) [(.mk ("cd".data) (mkRat (1) 1) (mkRat (1) 1) []), (.mk ("m".data) (mkRat (1) 1) (mkRat (-2) 1) [])])) ]

/-- Built catalog table chunk (see `catFinal`). -/
def catUnitsPart26 : List (List Char × UnitT) :=
  [ (("nit".data), (.mk ("nit".data) (mkRat (1) 1) (mkRat (1) 1) [(.mk ("cd".data) (mkRat (1) 1) (mkRat (1) 1) []), (.mk ("m".data) (mkRat (1) 1) (mkRat (-2) 1) [])]))
  , (("sb".data), (.mk ("sb".data) (mkRat (10000) 1) (mkRat (1) 1) [(.mk ("cd".data) (mkRat (1) 1) (mkRat (1) 1) []), (.mk ("m".data) (mkRat (1) 1) (mkRat (-2) 1) [])]))
  , (("oe".data), (.mk ("oe".data) (mkRat (31831) 400) (mkRat (1) 1) [(.mk ("A".data) (mkRat (1) 1) (mkRat (1) 1) []), (.mk ("m".data) (mkRat (1) 1) (mkRat (-1) 1) [])]))
  , (("praoersted".data), (.mk ("praoersted".data) (mkRat (114591) 10) (mkRat (1) 1) [(.mk ("A".data) (mkRat (1) 1) (mkRat (1) 1) []), (.mk ("m".data) (mkRat (1) 1) (mkRat (-1) 1) [])]))
  , (("au_mdm".data), (.mk ("au_mdm".data) (mkRat (4637) 250000000000000000000000000) (mkRat (1) 1) [(.mk ("J".data) (mkRat (1) 1) (mkRat (1) 1) [(.mk ("kg".data) (mkRat (1) 1) (mkRat (1) 1) []), (.mk ("m".data) (mkRat (1) 1) (mkRat (2) 1) []), (.mk ("s".data) (mkRat (1) 1) (mkRat (-2) 1) [])]), (.mk ("T".data) (mkRat (1) 1) (mkRat (-1) 1) [(.mk ("kg".data) (mkRat (1) 1) (mkRat (1) 1) []), (.mk ("s".data) (mkRat (1) 1) (mkRat (-2) 1) []), (.mk ("A".data) (mkRat (1) 1) (mkRat (-1) 1) [])])]))
  , (("Gal".data), (.mk ("Gal".data) (mkRat (1) 1000) (mkRat (1) 1) [(.mk ("m".data) (mkRat (1) 1) (mkRat (1) 1) []), (.mk ("s".data) (mkRat (1) 1) (mkRat (-2) 1) [])]))
  , (("leo".data), (.mk ("leo".data) (mkRat (10) 1) (mkRat (1) 1) [(.mk ("m".data) (mkRat (1) 1) (mkRat (1) 1) []), (.mk ("s".data) (mkRat (1) 1) (mkRat (-2) 1) [])]))
  , (("gn".data), (.mk ("gn".data) (mkRat (196133) 20000) (mkRat (1) 1) [(.mk ("m".data) (mkRat (1) 1) (mkRat (1) 1) []), (.mk ("s".data) (mkRat (1) 1) (mkRat (-2) 1) [])]))
  , (("Ω_acoustic".data), (.mk ("Ω_acoustic".data) (mkRat (1) 1) (mkRat (1) 1) [(.mk ("Pa".data) (mkRat (1) 1) (mkRat (1) 1) [(.mk ("kg".data) (mkRat (1) 1) (mkRat (1) 1) []), (.mk ("m".data) (mkRat (1) 1) (mkRat (-1) 1) []), (.mk ("s".data) (mkRat (1) 1) (mkRat (-2) 1) [])]), (.mk ("s".data) (mkRat (1) 1) (mkRat (1) 1) []), (.mk ("m".data) (mkRat (1) 1) (mkRat (-3) 1) [])]))
  , (("Ω_SI".data), (.mk ("Ω_SI".data) (mkRat (1) 1) (mkRat (1) 1) [(.mk ("Pa".data) (mkRat (1) 1) (mkRat (1) 1) [(.mk ("kg".data) (mkRat (1) 1) (mkRat (1) 1) []), (.mk ("m".data) (mkRat (1) 1) (mkRat (-1) 1) []), (.mk ("s".data) (mkRat (1) 1) (mkRat (-2) 1) [])]), (.mk ("s".data) (mkRat (1) 1) (mkRat (1) 1) []), (.mk ("m".data) (mkRat (1) 1) (mkRat (-3) 1) [])]))
  , (("rayl_cgs".data), (.mk ("rayl_cgs".data) (mkRat (10) 1) (mkRat (1) 1) [(.mk ("kg".data) (mkRat (1) 1) (mkRat (1) 1) []), (.mk ("m".data) (mkRat (1) 1) (mkRat (-2) 1) []), (.mk ("s".data) (mkRat (1) 1) (mkRat (-1) 1) [])]))
  , (("rayl_MKSA".data), (.mk ("rayl_MKSA".data) (mkRat (1) 1) (mkRat (1) 1) [(.mk ("kg".data) (mkRat (1) 1) (mkRat (1) 1) []), (.mk ("m".data) (mkRat (1) 1) (mkRat (-2) 1) []), (.mk ("s".data) (mkRat (1) 1) (mkRat (-1) 1) [])]))
  , (("Na".data), (.mk ("Na".data) (mkRat (602214000000000000000000) 1) (mkRat (1) 1) [(.mk ("mol".data) (mkRat (1) 1) (mkRat (-1) 1) [])]))
  , (("au_action".data), (.mk ("au_action".data) (mkRat (105457) 1000000000000000000000000000000000000000) (mkRat (1) 1) [(.mk ("J".data) (mkRat (1) 1) (mkRat (1) 1) [(.mk ("kg".data) (mkRat (1) 1) (mkRat (1) 1) []), (.mk ("m".data) (mkRat (1) 1) (mkRat (2) 1) []), (.mk ("s".data) (mkRat (1) 1) (mkRat (-2) 1) [])]), (.mk ("s".data) (mkRat (1) 1) (mkRat (1) 1) [])]))
  , (("au_am".data), (.mk ("au_am".data) (mkRat (105457) 1000000000000000000000000000000000000000) (mkRat (1) 1) [(.mk ("J".data) (mkRat (1) 1) (mkRat (1) 1) [(.mk ("kg".data) (mkRat (1) 1) (mkRat (1) 1) []), (.mk ("m".data) (mkRat (1) 1) (mkRat (2) 1) []), (.mk ("s".data) (mkRat (1) 1) (mkRat (-2) 1) [])]), (.mk ("s".data) (mkRat (1) 1) (mkRat (1) 1) [])])) ]

/-- Built catalog table chunk (see `catFinal`). -/
def catUnitsPart27 : List (List Char × UnitT) :=
  [ (("planck".data), (.mk ("planck".data) (mkRat (1) 1) (mkRat (1) 1) [(.mk ("J".data) (mkRat (1) 1) (mkRat (1) 1) [(.mk ("kg".data) (mkRat (1) 1) (mkRat (1) 1) []), (.mk ("m".data) (mkRat (1) 1) (mkRat (2) 1) []), (.mk ("s".data) (mkRat (1) 1) (mkRat (-2) 1) [])]), (.mk ("s".data) (mkRat (1) 1) (mkRat (1) 1) [])]))
  , (("rpm".data), (.mk ("rpm".data) (mkRat (1) 1) (mkRat (1) 1) [(.mk ("rev".data) (mkRat (628319) 100000) (mkRat (1) 1) [(.mk ("r".data) (mkRat (1) 1) (mkRat (1) 1) [(.mk ("m".data) (mkRat (1) 1) (mkRat (1) 1) []), (.mk ("m".data) (mkRat (1) 1) (mkRat (-1) 1) [])])]), (.mk ("min".data) (mkRat (60) 1) (mkRat (-1) 1) [(.mk ("s".data) (mkRat (1) 1) (mkRat (1) 1) [])])]))
  , (("au_cd".data), (.mk ("au_cd".data) (mkRat (1081200000000) 1) (mkRat (1) 1) [(.mk ("C".data) (mkRat (1) 1) (mkRat (1) 1) [(.mk ("s".data) (mkRat (1) 1) (mkRat (1) 1) []), (.mk ("A".data) (mkRat (1) 1) (mkRat (1) 1) [])]), (.mk ("m".data) (mkRat (1) 1) (mkRat (-3) 1) [])]))
  , (("Ah".data), (.mk ("Ah".data) (mkRat (1) 1) (mkRat (1) 1) [(.mk ("A".data) (mkRat (1) 1) (mkRat (1) 1) []), (.mk ("h".data) (mkRat (3600) 1) (mkRat (-1) 1) [(.mk ("s".data) (mkRat (1) 1) (mkRat (1) 1) [])])]))
  , (("F_12C".data), (.mk ("F_12C".data) (mkRat (964853) 10) (mkRat (1) 1) [(.mk ("C".data) (mkRat (1) 1) (mkRat (1) 1) [(.mk ("s".data) (mkRat (1) 1) (mkRat (1) 1) []), (.mk ("A".data) (mkRat (1) 1) (mkRat (1) 1) [])]), (.mk ("mol".data) (mkRat (1) 1) (mkRat (-1) 1) [])]))
  , (("F_chemical".data), (.mk ("F_chemical".data) (mkRat (964957) 10) (mkRat (1) 1) [(.mk ("C".data) (mkRat (1) 1) (mkRat (1) 1) [(.mk ("s".data) (mkRat (1) 1) (mkRat (1) 1) []), (.mk ("A".data) (mkRat (1) 1) (mkRat (1) 1) [])]), (.mk ("mol".data) (mkRat (1) 1) (mkRat (-1) 1) [])]))
  , (("F_physical".data), (.mk ("F_physical".data) (mkRat (965129) 10) (mkRat (1) 1) [(.mk ("C".data) (mkRat (1) 1) (mkRat (1) 1) [(.mk ("s".data) (mkRat (1) 1) (mkRat (1) 1) []), (.mk ("A".data) (mkRat (1) 1) (mkRat (1) 1) [])]), (.mk ("mol".data) (mkRat (1) 1) (mkRat (-1) 1) [])]))
  , (("roc".data), (.mk ("roc".data) (mkRat (100) 1) (mkRat (1) 1) [(.mk ("S".data) (mkRat (1) 1) (mkRat (1) 1) [(.mk ("kg".data) (mkRat (1) 1) (mkRat (-1) 1) []), (.mk ("m".data) (mkRat (1) 1) (mkRat (-2) 1) []), (.mk ("s".data) (mkRat (1) 1) (mkRat (3) 1) []), (.mk ("A".data) (mkRat (1) 1) (mkRat (2) 1) [])]), (.mk ("m".data) (mkRat (1) 1) (mkRat (-1) 1) [])]))
  , (("rom".data), (.mk ("rom".data) (mkRat (1) 1) (mkRat (1) 1) [(.mk ("S".data) (mkRat (1) 1) (mkRat (1) 1) [(.mk ("kg".data) (mkRat (1) 1) (mkRat (-1) 1) []), (.mk ("m".data) (mkRat (1) 1) (mkRat (-2) 1) []), (.mk ("s".data) (mkRat (1) 1) (mkRat (3) 1) []), (.mk ("A".data) (mkRat (1) 1) (mkRat (2) 1) [])]), (.mk ("m".data) (mkRat (1) 1) (mkRat (-1) 1) [])]))
  , (("au_eqm".data), (.mk ("au_eqm".data) (mkRat (89731) 200000000000000000000000000000000000000000000) (mkRat (1) 1) [(.mk ("C".data) (mkRat (1) 1) (mkRat (1) 1) [(.mk ("s".data) (mkRat (1) 1) (mkRat (1) 1) []), (.mk ("A".data) (mkRat (1) 1) (mkRat (1) 1) [])]), (.mk ("m".data) (mkRat (1) 1) (mkRat (2) 1) [])]))
  , (("au_edm".data), (.mk ("au_edm".data) (mkRat (211959) 25000000000000000000000000000000000) (mkRat (1) 1) [(.mk ("C".data) (mkRat (1) 1) (mkRat (1) 1) [(.mk ("s".data) (mkRat (1) 1) (mkRat (1) 1) []), (.mk ("A".data) (mkRat (1) 1) (mkRat (1) 1) [])]), (.mk ("m".data) (mkRat (1) 1) (mkRat (1) 1) [])]))
  , (("au_efs".data), (.mk ("au_efs".data) (mkRat (514221000000) 1) (mkRat (1) 1) [(.mk ("V".data) (mkRat (1) 1) (mkRat (1) 1) [(.mk ("kg".data) (mkRat (1) 1) (mkRat (1) 1) []), (.mk ("m".data) (mkRat (1) 1) (mkRat (2) 1) []), (.mk ("s".data) (mkRat (1) 1) (mkRat (-3) 1) []), (.mk ("A".data) (mkRat (1) 1) (mkRat (-1) 1) [])]), (.mk ("m".data) (mkRat (1) 1) (mkRat (-1) 1) [])]))
  , (("Jy".data), (.mk ("Jy".data) (mkRat (1) 1000000000000000000000000000) (mkRat (1) 1) [(.mk ("W".data) (mkRat (1) 1) (mkRat (1) 1) [(.mk ("kg".data) (mkRat (1) 1) (mkRat (1) 1) []), (.mk ("m".data) (mkRat (1) 1) (mkRat (2) 1) []), (.mk ("s".data) (mkRat (1) 1) (mkRat (-3) 1) [])]), (.mk ("m".data) (mkRat (1) 1) (mkRat (-2) 1) []), (.mk ("Hz".data) (mkRat (1) 1) (mkRat (1) 1) [(.mk ("s".data) (mkRat (1) 1) (mkRat (-1) 1) [])])]))
  , (("MGOe".data), (.mk ("MGOe".data) (mkRat (31831) 4) (mkRat (1) 1) [(.mk ("J".data) (mkRat (1) 1) (mkRat (1) 1) [(.mk ("kg".data) (mkRat (1) 1) (mkRat (1) 1) []), (.mk ("m".data) (mkRat (1) 1) (mkRat (2) 1) []), (.mk ("s".data) (mkRat (1) 1) (mkRat (-2) 1) [])]), (.mk ("m".data) (mkRat (1) 1) (mkRat (-3) 1) [])]))
  , (("Ly".data), (.mk ("Ly".data) (mkRat (41850) 1) (mkRat (1) 1) [(.mk ("J".data) (mkRat (1) 1) (mkRat (1) 1) [(.mk ("kg".data) (mkRat (1) 1) (mkRat (1) 1) []), (.mk ("m".data) (mkRat (1) 1) (mkRat (2) 1) []), (.mk ("s".data) (mkRat (1) 1) (mkRat (-2) 1) [])]), (.mk ("m".data) (mkRat (1) 1) (mkRat (-2) 1) [])])) ]

/-- Built catalog table chunk (see `catFinal`). -/
def catUnitsPart28 : List (List Char × UnitT) :=
  [ (("ly_langley".data), (.mk ("ly_langley".data) (mkRat (1395) 2) (mkRat (1) 1) [(.mk ("W".data) (mkRat (1) 1) (mkRat (1) 1) [(.mk ("kg".data) (mkRat (1) 1) (mkRat (1) 1) []), (.mk ("m".data) (mkRat (1) 1) (mkRat (2) 1) []), (.mk ("s".data) (mkRat (1) 1) (mkRat (-3) 1) [])]), (.mk ("m".data) (mkRat (1) 1) (mkRat (-2) 1) [])]))
  , (("ue".data), (.mk ("ue".data) (mkRat (523) 125) (mkRat (1) 1) [(.mk ("J".data) (mkRat (1) 1) (mkRat (1) 1) [(.mk ("kg".data) (mkRat (1) 1) (mkRat (1) 1) []), (.mk ("m".data) (mkRat (1) 1) (mkRat (2) 1) []), (.mk ("s".data) (mkRat (1) 1) (mkRat (-2) 1) [])]), (.mk ("K".data) (mkRat (1) 1) (mkRat (-1) 1) []), (.mk ("mol".data) (mkRat (1) 1) (mkRat (1) 1) [])]))
  , (("eu".data), (.mk ("eu".data) (mkRat (523) 125) (mkRat (1) 1) [(.mk ("J".data) (mkRat (1) 1) (mkRat (1) 1) [(.mk ("kg".data) (mkRat (1) 1) (mkRat (1) 1) []), (.mk ("m".data) (mkRat (1) 1) (mkRat (2) 1) []), (.mk ("s".data) (mkRat (1) 1) (mkRat (-2) 1) [])]), (.mk ("K".data) (mkRat (1) 1) (mkRat (-1) 1) []), (.mk ("mol".data) (mkRat (1) 1) (mkRat (1) 1) [])]))
  , (("UI".data), (.mk ("UI".data) (mkRat (166667) 10000000000000) (mkRat (1) 1) [(.mk ("mol".data) (mkRat (1) 1) (mkRat (1) 1) []), (.mk ("s".data) (mkRat (1) 1) (mkRat (-1) 1) [])]))
  , (("IU".data), (.mk ("IU".data) (mkRat (166667) 10000000000000) (mkRat (1) 1) [(.mk ("mol".data) (mkRat (1) 1) (mkRat (1) 1) []), (.mk ("s".data) (mkRat (1) 1) (mkRat (-1) 1) [])]))
  , (("ph".data), (.mk ("ph".data) (mkRat (1) 100) (mkRat (1) 1) [(.mk ("lm".data) (mkRat (1) 1) (mkRat (1) 1) [(.mk ("cd".data) (mkRat (1) 1) (mkRat (1) 1) [])]), (.mk ("m".data) (mkRat (1) 1) (mkRat (-2) 1) [])]))
  , (("cSt".data), (.mk ("cSt".data) (mkRat (1) 10000000) (mkRat (1) 1) [(.mk ("m".data) (mkRat (1) 1) (mkRat (2) 1) []), (.mk ("s".data) (mkRat (1) 1) (mkRat (-1) 1) [])]))
  , (("St".data), (.mk ("St".data) (mkRat (1) 100000) (mkRat (1) 1) [(.mk ("m".data) (mkRat (1) 1) (mkRat (2) 1) []), (.mk ("s".data) (mkRat (1) 1) (mkRat (-1) 1) [])]))
  , (("fps".data), (.mk ("fps".data) (mkRat (1) 1) (mkRat (1) 1) [(.mk ("ft".data) (mkRat (381) 1250) (mkRat (1) 1) [(.mk ("m".data) (mkRat (1) 1) (mkRat (1) 1) [])]), (.mk ("s".data) (mkRat (1) 1) (mkRat (-1) 1) [])]))
  , (("fpm".data), (.mk ("fpm".data) (mkRat (1) 1) (mkRat (1) 1) [(.mk ("ft".data) (mkRat (381) 1250) (mkRat (1) 1) [(.mk ("m".data) (mkRat (1) 1) (mkRat (1) 1) [])]), (.mk ("min".data) (mkRat (60) 1) (mkRat (-1) 1) [(.mk ("s".data) (mkRat (1) 1) (mkRat (1) 1) [])])]))
  , (("fph".data), (.mk ("fph".data) (mkRat (1) 1) (mkRat (1) 1) [(.mk ("ft".data) (mkRat (381) 1250) (mkRat (1) 1) [(.mk ("m".data) (mkRat (1) 1) (mkRat (1) 1) [])]), (.mk ("h".data) (mkRat (3600) 1) (mkRat (-1) 1) [(.mk ("s".data) (mkRat (1) 1) (mkRat (1) 1) [])])]))
  , (("ips".data), (.mk ("ips".data) (mkRat (1) 1) (mkRat (1) 1) [(.mk ("in".data) (mkRat (127) 5000) (mkRat (1) 1) [(.mk ("m".data) (mkRat (1) 1) (mkRat (1) 1) [])]), (.mk ("s".data) (mkRat (1) 1) (mkRat (-1) 1) [])]))
  , (("mph".data), (.mk ("mph".data) (mkRat (1) 1) (mkRat (1) 1) [(.mk ("mi".data) (mkRat (201168) 125) (mkRat (1) 1) [(.mk ("m".data) (mkRat (1) 1) (mkRat (1) 1) [])]), (.mk ("h".data) (mkRat (3600) 1) (mkRat (-1) 1) [(.mk ("s".data) (mkRat (1) 1) (mkRat (1) 1) [])])]))
  , (("cfm".data), (.mk ("cfm".data) (mkRat (1) 1) (mkRat (1) 1) [(.mk ("ft".data) (mkRat (381) 1250) (mkRat (3) 1) [(.mk ("m".data) (mkRat (1) 1) (mkRat (1) 1) [])]), (.mk ("min".data) (mkRat (60) 1) (mkRat (-1) 1) [(.mk ("s".data) (mkRat (1) 1) (mkRat (1) 1) [])])]))
  , (("cfs".data), (.mk ("cfs".data) (mkRat (1) 1) (mkRat (1) 1) [(.mk ("ft".data) (mkRat (381) 1250) (mkRat (3) 1) [(.mk ("m".data) (mkRat (1) 1) (mkRat (1) 1) [])]), (.mk ("s".data) (mkRat (1) 1) (mkRat (-1) 1) [])])) ]

/-- The catalog as the source's import-time build sequence produces it,
given literally so that proofs evaluate against it cheaply.  The theorem
`catalogBuildsCatFinal` below proves that running the registration table
through the builders yields exactly these three tables. -/
def catFinal : Catalog :=
  ⟨catBasePart0,
   catDerivedPart0,
   catUnitsPart0 ++
   catUnitsPart1 ++
   catUnitsPart2 ++
   catUnitsPart3 ++
   catUnitsPart4 ++
   catUnitsPart5 ++
   catUnitsPart6 ++
   catUnitsPart7 ++
   catUnitsPart8 ++
   catUnitsPart9 ++
   catUnitsPart10 ++
   catUnitsPart11 ++
   catUnitsPart12 ++
   catUnitsPart13 ++
   catUnitsPart14 ++
   catUnitsPart15 ++
   catUnitsPart16 ++
   catUnitsPart17 ++
   catUnitsPart18 ++
   catUnitsPart19 ++
   catUnitsPart20 ++
   catUnitsPart21 ++
   catUnitsPart22 ++
   catUnitsPart23 ++
   catUnitsPart24 ++
   catUnitsPart25 ++
   catUnitsPart26 ++
   catUnitsPart27 ++
   catUnitsPart28⟩

/-! ## Structural equality on unit nodes

Used to state (and check by evaluation) that the literal `catFinal` is
exactly what the registration sequence builds. -/

mutual
/-- Structural equality of unit nodes. -/
def beqU : UnitT → UnitT → Bool
  | .mk s1 f1 e1 b1, .mk s2 f2 e2 b2 =>
    decide (s1 = s2) && decide (f1 = f2) && decide (e1 = e2) && beqUL b1 b2

/-- Structural equality of unit-node lists. -/
def beqUL : List UnitT → List UnitT → Bool
  | [], [] => true
  | u :: t, v :: w => beqU u v && beqUL t w
  | _ :: _, [] => false
  | [], _ :: _ => false
end

/-- Structural equality of catalog tables. -/
def beqTable : List (List Char × UnitT) → List (List Char × UnitT) → Bool
  | [], [] => true
  | (k1, v1) :: t1, (k2, v2) :: t2 =>
    decide (k1 = k2) && beqU v1 v2 && beqTable t1 t2
  | _ :: _, [] => false
  | [], _ :: _ => false

/-- Structural equality of catalogs. -/
def beqCatalog (a b : Catalog) : Bool :=
  beqTable a.baseUnits b.baseUnits &&
    beqTable a.namedDerivedUnits b.namedDerivedUnits &&
    beqTable a.units b.units

/-- Catalog snapshot mid-build: the three tables only ever grow by appending
(`dictSet` replaces in place only on a duplicate key, and the registration
sequence has none), so the catalog after any registration prefix consists of
prefixes of the final tables. -/
def catSnap (a b c : Nat) : Catalog :=
  ⟨catFinal.baseUnits.take a, catFinal.namedDerivedUnits.take b,
   catFinal.units.take c⟩

/-- Boolean form of "running the registration chunk `l` from catalog `acc`
builds exactly `out`", kept as a definition so each chunk is checked by one
bounded evaluation. -/
def buildChunkOK (acc : Catalog) (l : List RegCmd) (out : Catalog) : Bool :=
  match buildSeq 40 (.ok acc) l with
  | .ok c => beqCatalog c out
  | .error _ => false

/-! ## Scalar application (`__mul__` / `__rmul__`) -/

/-- `Unit.__mul__(other)` for a `Unit` operand: concatenate the two `symbol`
properties with `⋅` and build `Unit(symbol)` (empty base units, so the
combined symbol is re-parsed). -/
def unitMulUnit (fuel : Nat) (cat : Catalog) (a b : UnitT) :
    Except PyError UnitT :=
  match symbolStr a with
  | .error e => .error e
  | .ok sa =>
    match symbolStr b with
    | .error e => .error e
    | .ok sb => mkUnit fuel cat (sa ++ ['⋅'] ++ sb) [] (mkRat 1 1) (mkRat 1 1)

/-- `Unit.__rmul__(other)` for a `Unit` operand: the product of the two
`factor` properties. -/
def unitRMulUnit (a b : UnitT) : Rat := qMul a.factor b.factor

/-! ## Registered symbols and the identity check -/

/-- A unit object on the heap: as `UnitT`, with children as addresses. -/
structure UCell where
  sym : List Char
  fac : Rat
  exp : Rat
  bUnits : List Nat
deriving DecidableEq, Repr

/-- The heap: cells addressed by position; allocation appends. -/
abbrev Store := List UCell

/-- Clone a list of children left to right. -/
def cloneListGoS (ih : Store → Nat → Option (Store × Nat)) :
    Store → List Nat → Option (Store × List Nat)
  | s, [] => some (s, [])
  | s, a :: t =>
    match ih s a with
    | none => none
    | some (s1, a') =>
      match cloneListGoS ih s1 t with
      | none => none
      | some (s2, addrs) => some (s2, a' :: addrs)

/-- One unfolding of `Unit.__call__(None, None)` (the clone `unit()`):
children first, then the new object — `none` on a dangling address or
exhausted stack. -/
def cloneStepS (ih : Store → Nat → Option (Store × Nat)) :
    Store → Nat → Option (Store × Nat) := fun s a =>
  match s.get? a with
  | none => none
  | some c =>
    match cloneListGoS ih s c.bUnits with
    | none => none
    | some (s1, addrs) =>
      some (s1 ++ [⟨c.sym, c.fac, c.exp, addrs⟩], s1.length)

/-- `Unit.__call__(None, None)` over the heap, with fuel for the stack. -/
def cloneS : Nat → Store → Nat → Option (Store × Nat)
  | 0 => fun _ _ => none
  | fuel + 1 => cloneStepS (cloneS fuel)

/-- First address in `out` whose cell carries symbol `symb` (`__eq__`
compares symbols; `list.index` takes the first hit). -/
def findSym (s : Store) (symb : List Char) : List Nat → Option Nat
  | [] => none
  | o :: t =>
    match s.get? o with
    | some c => if c.sym = symb then some o else findSym s symb t
    | none => findSym s symb t

/-- `output[idx] += unit`: `__iadd__` adds the source exponent to the target
cell, in place. -/
def iaddS (s : Store) (o x : Nat) : Option Store :=
  match s.get? o, s.get? x with
  | some co, some cx => some (s.set o ⟨co.sym, co.fac, qAdd co.exp cx.exp, co.bUnits⟩)
  | _, _ => none

/-- The merge loop of `__iter__` over the heap: first occurrences are
appended as fresh clones. -/
def iterMergeS (cloneF : Store → Nat → Option (Store × Nat)) :
    Store → List Nat → List Nat → Option (Store × List Nat)
  | s, out, [] => some (s, out)
  | s, out, x :: t =>
    match s.get? x with
    | none => none
    | some cx =>
      match findSym s cx.sym out with
      | some o =>
        match iaddS s o x with
        | none => none
        | some s1 => iterMergeS cloneF s1 out t
      | none =>
        match cloneF s x with
        | none => none
        | some (s1, x') => iterMergeS cloneF s1 (out ++ [x']) t

/-- The `for base in self._b_units` loop of `__iter__` over the heap: clone
the child, scale the clone's exponent in place, flatten it through
`iter_bases`. -/
def iterNewBasesS (cloneF : Store → Nat → Option (Store × Nat))
    (ihIB : Store → Nat → Option (Store × List Nat)) (selfExp : Rat) :
    Store → List Nat → Option (Store × List Nat)
  | s, [] => some (s, [])
  | s, b0 :: t =>
    match cloneF s b0 with
    | none => none
    | some (s1, b) =>
      match s1.get? b with
      | none => none
      | some cb =>
        let s2 := s1.set b ⟨cb.sym, cb.fac, qMul cb.exp selfExp, cb.bUnits⟩
        match ihIB s2 b with
        | none => none
        | some (s3, r) =>
          match iterNewBasesS cloneF ihIB selfExp s3 t with
          | none => none
          | some (s4, rest) => some (s4, r ++ rest)

/-- One level of `__iter__` over the heap. -/
def iterBodyS (cloneF : Store → Nat → Option (Store × Nat))
    (ihIB : Store → Nat → Option (Store × List Nat)) (s : Store) (a : Nat) :
    Option (Store × List Nat) :=
  match s.get? a with
  | none => none
  | some selfC =>
    match iterNewBasesS cloneF ihIB selfC.exp s selfC.bUnits with
    | none => none
    | some (s1, newBases) => iterMergeS cloneF s1 [] newBases

/-- `out_bases.extend(iter_bases(bse))` over the heap. -/
def iterBasesFoldS (ihIB : Store → Nat → Option (Store × List Nat)) :
    Store → List Nat → Option (Store × List Nat)
  | s, [] => some (s, [])
  | s, x :: t =>
    match ihIB s x with
    | none => none
    | some (s1, r) =>
      match iterBasesFoldS ihIB s1 t with
      | none => none
      | some (s2, rest) => some (s2, r ++ rest)

/-- One level of `iter_bases` over the heap. -/
def iterBasesBodyS (ihIter ihIB : Store → Nat → Option (Store × List Nat))
    (s : Store) (b : Nat) : Option (Store × List Nat) :=
  match ihIter s b with
  | none => none
  | some (s1, bases) =>
    if bases.isEmpty then some (s1, [b]) else iterBasesFoldS ihIB s1 bases

/-- The fuel-indexed heap pair (`__iter__`, `iter_bases`). -/
def iterPairS (fuel : Nat) :
    (Store → Nat → Option (Store × List Nat)) ×
      (Store → Nat → Option (Store × List Nat)) :=
  Nat.rec
    (motive := fun _ =>
      (Store → Nat → Option (Store × List Nat)) ×
        (Store → Nat → Option (Store × List Nat)))
    (fun _ _ => none, fun _ _ => none)
    (fun fuelPrev prev =>
      (fun s a => iterBodyS (cloneS fuelPrev) prev.2 s a,
       fun s b => iterBasesBodyS prev.1 prev.2 s b))
    fuel

/-- The merge loop of `combine_units` over the heap: first occurrences are
appended *without* cloning. -/
def combineMergeS : Store → List Nat → List Nat → Option (Store × List Nat)
  | s, out, [] => some (s, out)
  | s, out, b :: t =>
    match s.get? b with
    | none => none
    | some cb =>
      match findSym s cb.sym out with
      | some o =>
        match iaddS s o b with
        | none => none
        | some s1 => combineMergeS s1 out t
      | none => combineMergeS s (out ++ [b]) t

/-- The outer loop of `combine_units` over the heap. -/
def combineOuterS (fuel : Nat) : Store → List Nat → List Nat →
    Option (Store × List Nat)
  | s, out, [] => some (s, out)
  | s, out, u :: rest =>
    match (iterPairS fuel).1 s u with
    | none => none
    | some (s1, baseUnits) =>
      match combineMergeS s1 out baseUnits with
      | none => none
      | some (s2, out') => combineOuterS fuel s2 out' rest

/-- `str_units` over the heap; the `symbol` property reads only the symbol
and exponent of a cell, so the pure `symbolStr` is reused on a childless
copy. -/
def strUnitsS (s : Store) : List Nat → Option (List (List Char))
  | [] => some []
  | a :: t =>
    match s.get? a with
    | none => none
    | some c =>
      if c.exp ≠ mkRat 0 1 then
        match symbolStr (UnitT.mk c.sym c.fac c.exp []) with
        | .error _ => none
        | .ok str => (strUnitsS s t).map (fun r => str :: r)
      else strUnitsS s t

/-- `combine_units` over the heap: returns the new heap and the canonical
string. -/
def combineUnitsS (fuel : Nat) (s : Store) (a : Nat) :
    Option (Store × List Char) :=
  match (iterPairS fuel).1 s a with
  | none => none
  | some (s1, atoms) =>
    match combineOuterS fuel s1 [] atoms with
    | none => none
    | some (s2, outUnits) =>
      match strUnitsS s2 outUnits with
      | none => none
      | some strs => some (s2, joinMult (sortStrings strs))

/-- Frame property of the heap operations: the store only grows, and every
cell below index `n` (the cells that existed when the operation started) is
unchanged. -/
def PreservesBelow (n : Nat) (s s' : Store) : Prop :=
  s.length ≤ s'.length ∧ ∀ i, i < n → s'.get? i = s.get? i

/-- A small concrete heap used to witness the frame theorem: a base
prototype `m` (address 0), a magnitude wrapper `mm` aliasing it (address 1),
and a parsed top-level unit (address 2). -/
def witnessStore : Store :=
  [⟨("m".data), mkRat 1 1, mkRat 1 1, []⟩,
   ⟨("mm".data), mkRat 1 1000, mkRat 1 1, [0]⟩,
   ⟨("mmTop".data), mkRat 1 1, mkRat 1 1, [1]⟩]

/-- Frame contract of a clone operation over the heap: the store only
grows, pre-existing cells are untouched, and the returned address is a
fresh, valid cell. -/
def CloneOK (f : Store → Nat → Option (Store × Nat)) : Prop :=
  ∀ s a s' a', f s a = some (s', a') →
    PreservesBelow s.length s s' ∧ s.length ≤ a' ∧ a' < s'.length

/-- Frame contract of `__iter__` over the heap: the argument is a valid
cell, the store grows, pre-existing cells are untouched, and every returned
address is a fresh, valid cell. -/
def IterOK (f : Store → Nat → Option (Store × List Nat)) : Prop :=
  ∀ s a s' out, f s a = some (s', out) →
    a < s.length ∧ PreservesBelow s.length s s' ∧
      ∀ x ∈ out, s.length ≤ x ∧ x < s'.length

/-- Frame contract of `iter_bases` over the heap: like `IterOK`, except the
result may also contain the argument address itself (returned when the cell
has no constituents). -/
def IBOK (f : Store → Nat → Option (Store × List Nat)) : Prop :=
  ∀ s a s' out, f s a = some (s', out) →
    a < s.length ∧ PreservesBelow s.length s s' ∧
      ∀ x ∈ out, (x = a ∨ s.length ≤ x) ∧ x < s'.length

/-! # Proofs

    Bridges from the kernel-computable arithmetic to Mathlib's operations -/

theorem mkRatZero_eq : mkRat 0 1 = 0 := by simp

/-! ## Soundness of the structural equality -/

mutual
theorem beqU_sound : ∀ (a b : UnitT), beqU a b = true → a = b
  | .mk s1 f1 e1 b1, .mk s2 f2 e2 b2, h => by
    simp only [beqU, Bool.and_eq_true, decide_eq_true_eq] at h
    obtain ⟨⟨⟨h1, h2⟩, h3⟩, h4⟩ := h
    rw [h1, h2, h3, beqUL_sound b1 b2 h4]

theorem beqUL_sound : ∀ (l1 l2 : List UnitT), beqUL l1 l2 = true → l1 = l2
  | [], [], _ => rfl
  | u :: t, v :: w, h => by
    simp only [beqUL, Bool.and_eq_true] at h
    rw [beqU_sound u v h.1, beqUL_sound t w h.2]
  | [], _ :: _, h => by simp [beqUL] at h
  | _ :: _, [], h => by simp [beqUL] at h
end

theorem beqTable_sound :
    ∀ (t1 t2 : List (List Char × UnitT)), beqTable t1 t2 = true → t1 = t2
  | [], [], _ => rfl
  | (k1, v1) :: t1, (k2, v2) :: t2, h => by
    simp only [beqTable, Bool.and_eq_true, decide_eq_true_eq] at h
    rw [h.1.1, beqU_sound v1 v2 h.1.2, beqTable_sound t1 t2 h.2]
  | [], _ :: _, h => by simp [beqTable] at h
  | _ :: _, [], h => by simp [beqTable] at h

theorem beqCatalog_sound (a b : Catalog) (h : beqCatalog a b = true) :
    a = b := by
  obtain ⟨a1, a2, a3⟩ := a
  obtain ⟨b1, b2, b3⟩ := b
  simp only [beqCatalog, Bool.and_eq_true] at h
  rw [Catalog.mk.injEq]
  exact ⟨beqTable_sound _ _ h.1.1, beqTable_sound _ _ h.1.2,
    beqTable_sound _ _ h.2⟩

theorem buildSeq_error (fuel : Nat) (e : PyError) :
    ∀ l : List RegCmd, buildSeq fuel (.error e) l = .error e
  | [] => rfl
  | _ :: _ => rfl

theorem buildSeq_append (fuel : Nat) :
    ∀ (l1 l2 : List RegCmd) (acc : Except PyError Catalog),
      buildSeq fuel acc (l1 ++ l2) =
        buildSeq fuel (buildSeq fuel acc l1) l2 := by
  intro l1
  induction l1 with
  | nil =>
    intro l2 acc
    cases acc with
    | ok c => rfl
    | error e => simp only [buildSeq_error]
  | cons r t ih =>
    intro l2 acc
    cases acc with
    | error e => simp only [buildSeq_error]
    | ok c =>
      show buildSeq fuel (applyReg fuel c r) (t ++ l2) =
        buildSeq fuel (buildSeq fuel (applyReg fuel c r) t) l2
      rw [ih]

theorem buildChunkOK_sound {acc : Catalog} {l : List RegCmd} {out : Catalog}
    (h : buildChunkOK acc l out = true) :
    buildSeq 40 (.ok acc) l = .ok out := by
  unfold buildChunkOK at h
  cases hb : buildSeq 40 (.ok acc) l with
  | ok c =>
    rw [hb] at h
    exact congrArg Except.ok (beqCatalog_sound c out h)
  | error e => rw [hb] at h; cases h

set_option maxRecDepth 200000 in
set_option maxHeartbeats 20000000 in
theorem buildChunk00 :
    buildSeq 40 (.ok ⟨[], [], []⟩) registrationsPart00 = .ok (catSnap 9 21 0) :=
  buildChunkOK_sound (by decide)

set_option maxRecDepth 200000 in
set_option maxHeartbeats 20000000 in
theorem buildChunk01 :
    buildSeq 40 (.ok (catSnap 9 21 0)) registrationsPart01 = .ok (catSnap 9 21 30) :=
  buildChunkOK_sound (by decide)

set_option maxRecDepth 200000 in
set_option maxHeartbeats 20000000 in
theorem buildChunk02 :
    buildSeq 40 (.ok (catSnap 9 21 30)) registrationsPart02 = .ok (catSnap 9 21 60) :=
  buildChunkOK_sound (by decide)

set_option maxRecDepth 200000 in
set_option maxHeartbeats 20000000 in
theorem buildChunk03 :
    buildSeq 40 (.ok (catSnap 9 21 60)) registrationsPart03 = .ok (catSnap 9 21 90) :=
  buildChunkOK_sound (by decide)

set_option maxRecDepth 200000 in
set_option maxHeartbeats 20000000 in
theorem buildChunk04 :
    buildSeq 40 (.ok (catSnap 9 21 90)) registrationsPart04 = .ok (catSnap 9 21 120) :=
  buildChunkOK_sound (by decide)

set_option maxRecDepth 200000 in
set_option maxHeartbeats 20000000 in
theorem buildChunk05 :
    buildSeq 40 (.ok (catSnap 9 21 120)) registrationsPart05 = .ok (catSnap 9 21 150) :=
  buildChunkOK_sound (by decide)

set_option maxRecDepth 200000 in
set_option maxHeartbeats 20000000 in
theorem buildChunk06 :
    buildSeq 40 (.ok (catSnap 9 21 150)) registrationsPart06 = .ok (catSnap 9 21 180) :=
  buildChunkOK_sound (by decide)

set_option maxRecDepth 200000 in
set_option maxHeartbeats 20000000 in
theorem buildChunk07 :
    buildSeq 40 (.ok (catSnap 9 21 180)) registrationsPart07 = .ok (catSnap 9 21 210) :=
  buildChunkOK_sound (by decide)

set_option maxRecDepth 200000 in
set_option maxHeartbeats 20000000 in
theorem buildChunk08 :
    buildSeq 40 (.ok (catSnap 9 21 210)) registrationsPart08 = .ok (catSnap 9 21 240) :=
  buildChunkOK_sound (by decide)

set_option maxRecDepth 200000 in
set_option maxHeartbeats 20000000 in
theorem buildChunk09 :
    buildSeq 40 (.ok (catSnap 9 21 240)) registrationsPart09 = .ok (catSnap 9 21 270) :=
  buildChunkOK_sound (by decide)

set_option maxRecDepth 200000 in
set_option maxHeartbeats 20000000 in
theorem buildChunk10 :
    buildSeq 40 (.ok (catSnap 9 21 270)) registrationsPart10 = .ok (catSnap 9 21 300) :=
  buildChunkOK_sound (by decide)

set_option maxRecDepth 200000 in
set_option maxHeartbeats 20000000 in
theorem buildChunk11 :
    buildSeq 40 (.ok (catSnap 9 21 300)) registrationsPart11 = .ok (catSnap 9 21 330) :=
  buildChunkOK_sound (by decide)

set_option maxRecDepth 200000 in
set_option maxHeartbeats 20000000 in
theorem buildChunk12 :
    buildSeq 40 (.ok (catSnap 9 21 330)) registrationsPart12 = .ok (catSnap 9 21 360) :=
  buildChunkOK_sound (by decide)

set_option maxRecDepth 200000 in
set_option maxHeartbeats 20000000 in
theorem buildChunk13 :
    buildSeq 40 (.ok (catSnap 9 21 360)) registrationsPart13 = .ok (catSnap 9 21 390) :=
  buildChunkOK_sound (by decide)

set_option maxRecDepth 200000 in
set_option maxHeartbeats 20000000 in
theorem buildChunk14 :
    buildSeq 40 (.ok (catSnap 9 21 390)) registrationsPart14 = .ok (catSnap 9 21 420) :=
  buildChunkOK_sound (by decide)

set_option maxRecDepth 200000 in
set_option maxHeartbeats 20000000 in
theorem buildChunk15 :
    buildSeq 40 (.ok (catSnap 9 21 420)) registrationsPart15 = .ok catFinal :=
  buildChunkOK_sound (by decide)

/-- Running the full registration sequence of the source through the catalog
builders produces exactly the literal tables of `catFinal`: the sequence is
checked chunk by chunk against snapshots of the final tables. -/
theorem catalogBuildsCatFinal :
    buildSeq 40 (.ok ⟨[], [], []⟩) registrations = .ok catFinal := by
  unfold registrations
  rw [buildSeq_append, buildSeq_append, buildSeq_append, buildSeq_append, buildSeq_append, buildSeq_append, buildSeq_append, buildSeq_append, buildSeq_append, buildSeq_append, buildSeq_append, buildSeq_append, buildSeq_append, buildSeq_append, buildSeq_append]
  rw [buildChunk00, buildChunk01, buildChunk02, buildChunk03, buildChunk04, buildChunk05, buildChunk06, buildChunk07, buildChunk08, buildChunk09, buildChunk10, buildChunk11, buildChunk12, buildChunk13, buildChunk14, buildChunk15]

/-! ## Concrete claim theorems -/

set_option maxRecDepth 1000000 in
/-- C1: the claim — that a single atomic token resolving through neither
catalog lookup nor magnitude-stripped lookup makes parsing fail with a
`UnitNotFound` error and never yields a usable unit value — is contradicted
by the code: `_process_unit` is only ever invoked with `first_pass=True`, in
which case the unresolvable token `xyz` produces an *empty* decomposition
with no error at all, and `convert(1, 'xyz', 'm')` then returns 1.  (The
`ValueError('Unit ... not found')` branch exists but is dead code.) -/
theorem c1_unknown_token_parses_empty :
    (processUnit 40 catFinal true ("xyz".data)).map List.isEmpty = .ok true ∧
      pyConvert 40 catFinal (.pyInt 1) ("xyz".data) ("m".data) =
        .ok (.pyInt 1) := by
  constructor
  · decide
  · decide

set_option maxRecDepth 1000000 in
/-- C2: the claim — that `convert` with a temperature-scale `fromUnit` and a
non-temperature `toUnit` fails with a `NotATemperature`-class error and does
not fall through to the general conversion path — is contradicted by the
code: the `TypeError` that `_temperature_conversion` raises for the bad
`toUnit` is caught by `convert`'s `except TypeError`, the general path runs
on `('°C', 'm')`, both of which flatten to the empty canonical string, and
`convert(0, '°C', 'm')` returns 0. -/
theorem c2_temperature_fallthrough :
    pyConvert 40 catFinal (.pyInt 0) ("°C".data) ("m".data) =
      .ok (.pyInt 0) := by
  decide

set_option maxRecDepth 1000000 in
/-- C5: `convert(1, 'N', 'kg⋅m⋅s⁻²') == 1`, and both the named derived unit
and its explicit decomposition string parse to units of effective factor
exactly 1. -/
theorem c5_newton_decomposition :
    getConversionFactor 40 catFinal ("N".data) ("kg⋅m⋅s⁻²".data) =
        .ok (mkRat 1 1, mkRat 1 1) ∧
      pyConvert 40 catFinal (.pyInt 1) ("N".data) ("kg⋅m⋅s⁻²".data) =
        .ok (.pyInt 1) := by
  constructor
  · decide
  · decide

set_option maxRecDepth 1000000 in
/-- C6: the claim — that differing canonical base vectors make `convert`
fail with `IncompatibleUnits`, and in particular that `convert(1, 'm', 's')`
raises — is contradicted by the code: `combine_units` iterates the parsed
unit into already-atomic leaves and then flattens each *leaf* (whose own
iteration is empty), so `out_units` is always empty and every unit's
canonical string is `''`; no pair of units is ever incompatible, and
`convert(1, 'm', 's')` returns 1. -/
theorem c6_incompatible_check_vacuous :
    ((mkUnit 40 catFinal ("m".data) [] (mkRat 1 1) (mkRat 1 1)).bind
        (combineUnits 40) = .ok []) ∧
      ((mkUnit 40 catFinal ("s".data) [] (mkRat 1 1) (mkRat 1 1)).bind
        (combineUnits 40) = .ok []) ∧
      pyConvert 40 catFinal (.pyInt 1) ("m".data) ("s".data) =
        .ok (.pyInt 1) := by
  refine ⟨by decide, by decide, by decide⟩

set_option maxRecDepth 1000000 in
/-- C8: `convert(1, 'm', 'mm') == 1000`: the SI magnitude `m` (milli)
stripped from `mm` resolves the remainder `m` in the base table, and the
resulting unit's effective factor is the magnitude multiplier 1/1000 applied
to the stripped unit's factor 1. -/
theorem c8_milli_conversion :
    getConversionFactor 40 catFinal ("m".data) ("mm".data) =
        .ok (mkRat 1 1, mkRat 1 1000) ∧
      pyConvert 40 catFinal (.pyInt 1) ("m".data) ("mm".data) =
        .ok (.pyInt 1000) := by
  constructor
  · decide
  · decide

/-! ## The precision policy (C4) -/

set_option maxRecDepth 1000000 in
/-- C3 counterexample: registering the same symbol twice through the
Base-namespace builder succeeds — no fatal failure — contradicting the claim
that the duplicate check is performed on every insert for all three
registration operations. -/
theorem c3_counterexample :
    ((buildBaseUnit 40 ⟨[], [], []⟩ ("m".data)).bind
        (fun c => buildBaseUnit 40 c ("m".data))).isOk = true := by
  decide

/-- C3 amended: only the General-namespace builder (`_build_unit`) checks
for duplicates — against all three tables, fatally, on every insert — while
`_build_base_unit` and `_build_derived_unit` perform no duplicate check at
all: re-registering an existing base symbol always succeeds (silently
overwriting), and so does re-registering a derived symbol. -/
theorem c3_amended :
    (∀ (fuel : Nat) (cat : Catalog) (s f dec : List Char),
        (dictHasKey cat.baseUnits s || dictHasKey cat.namedDerivedUnits s ||
            dictHasKey cat.units s) = true →
        ∃ m, buildUnit fuel cat s f dec = .error (.runtimeError m)) ∧
      (∀ (fuel : Nat) (cat : Catalog) (s : List Char),
          dictHasKey cat.baseUnits s = true →
          ∃ c, buildBaseUnit fuel cat s = .ok c) ∧
      ((buildSeq 40 (.ok ⟨[], [], []⟩)
          [.base ("s"), .derived ("Hz") ("s⁻¹"),
            .derived ("Hz") ("s⁻¹")]).isOk = true) := by
  refine ⟨?_, ?_, by decide⟩
  · intro fuel cat s f dec h
    unfold buildUnit
    by_cases h1 : dictHasKey cat.baseUnits s = true
    · rw [if_pos h1]; exact ⟨_, rfl⟩
    · rw [if_neg h1]
      by_cases h2 : dictHasKey cat.namedDerivedUnits s = true
      · rw [if_pos h2]; exact ⟨_, rfl⟩
      · rw [if_neg h2]
        have h3 : dictHasKey cat.units s = true := by
          rcases Bool.or_eq_true_iff.mp h with h' | h3
          · rcases Bool.or_eq_true_iff.mp h' with h1' | h2'
            · exact absurd h1' h1
            · exact absurd h2' h2
          · exact h3
        rw [if_pos h3]; exact ⟨_, rfl⟩
  · intro fuel cat s h
    unfold buildBaseUnit mkUnit
    rw [h]
    simp only [Bool.not_true, Bool.and_false, if_neg (by simp : ¬(List.isEmpty [] && !true) = true)]
    exact ⟨_, rfl⟩

set_option maxRecDepth 1000000 in
/-- Witness for C3 amended, at the built catalog: re-registering the
existing General symbol `ft` fails fatally, while re-registering the
existing Base symbol `m` succeeds. -/
theorem c3_amended_witness :
    (∃ m, buildUnit 40 catFinal ("ft".data) ("1.0".data) ("m".data) =
        .error (.runtimeError m)) ∧
      ∃ c, buildBaseUnit 40 catFinal ("m".data) = .ok c :=
  ⟨c3_amended.1 40 catFinal ("ft".data) ("1.0".data) ("m".data) (by decide),
    c3_amended.2.1 40 catFinal ("m".data) (by decide)⟩

/-! ## Scalar application (C9) -/

theorem dig10_lt : ∀ (fuel n : Nat), n ≤ fuel → n < 10 ^ dig10 fuel n := by
  intro fuel
  induction fuel with
  | zero =>
    intro n hn
    have h0 : n = 0 := Nat.le_zero.mp hn
    subst h0
    show 0 < 10 ^ 1
    decide
  | succ fuel ih =>
    intro n hn
    show n < 10 ^ (if n < 10 then 1 else 1 + dig10 fuel (n / 10))
    by_cases h : n < 10
    · rw [if_pos h, pow_one]
      exact h
    · rw [if_neg h]
      have hdiv : n / 10 ≤ fuel := by
        have := Nat.div_lt_self (by omega : 0 < n) (by decide : 1 < 10)
        omega
      have hih := ih (n / 10) hdiv
      have hdm := Nat.div_add_mod n 10
      have hmod := Nat.mod_lt n (by decide : 0 < 10)
      calc n < 10 * (n / 10 + 1) := by omega
        _ ≤ 10 * 10 ^ dig10 fuel (n / 10) :=
            Nat.mul_le_mul_left 10 (Nat.succ_le_of_lt hih)
        _ = 10 ^ (1 + dig10 fuel (n / 10)) := by rw [pow_add, pow_one]

theorem digits10_lt (n : Nat) : n < 10 ^ digits10 n := dig10_lt n n (Nat.le_refl n)

theorem pb_refl (n : Nat) (s : Store) : PreservesBelow n s s :=
  ⟨Nat.le_refl _, fun _ _ => rfl⟩

theorem pb_trans {n : Nat} {s s1 s2 : Store} (h1 : PreservesBelow n s s1)
    (h2 : PreservesBelow n s1 s2) : PreservesBelow n s s2 :=
  ⟨Nat.le_trans h1.1 h2.1, fun i hi => (h2.2 i hi).trans (h1.2 i hi)⟩

theorem pb_mono {m n : Nat} {s s' : Store} (h : m ≤ n)
    (hp : PreservesBelow n s s') : PreservesBelow m s s' :=
  ⟨hp.1, fun i hi => hp.2 i (Nat.lt_of_lt_of_le hi h)⟩

theorem pb_append (n : Nat) (s t : Store) (h : n ≤ s.length) :
    PreservesBelow n s (s ++ t) :=
  ⟨by simp, fun i hi => List.get?_append (Nat.lt_of_lt_of_le hi h)⟩

theorem pb_set_ge {n a : Nat} (s : Store) (c : UCell) (h : n ≤ a) :
    PreservesBelow n s (s.set a c) :=
  ⟨by simp, fun i hi =>
    List.get?_set_ne c s (Nat.ne_of_gt (Nat.lt_of_lt_of_le hi h))⟩

/-- Frame contract of a clone function: the store grows, pre-existing cells
are untouched, and the returned address is a fresh, valid cell. -/
theorem cloneListGoS_ok {ih : Store → Nat → Option (Store × Nat)}
    (hih : CloneOK ih) :
    ∀ (l : List Nat) (s : Store) (s' : Store) (addrs : List Nat),
      cloneListGoS ih s l = some (s', addrs) →
      PreservesBelow s.length s s' ∧
        ∀ a' ∈ addrs, s.length ≤ a' ∧ a' < s'.length := by
  intro l
  induction l with
  | nil =>
    intro s s' addrs h
    injection h with h
    injection h with h1 h2
    subst h1; subst h2
    exact ⟨pb_refl _ _, by simp⟩
  | cons a t ihl =>
    intro s s' addrs h
    unfold cloneListGoS at h
    cases h1 : ih s a with
    | none => rw [h1] at h; cases h
    | some r1 =>
      rw [h1] at h
      obtain ⟨s1, a'⟩ := r1
      dsimp only at h
      cases h2 : cloneListGoS ih s1 t with
      | none => rw [h2] at h; cases h
      | some r2 =>
        rw [h2] at h
        obtain ⟨s2, addrs2⟩ := r2
        dsimp only at h
        injection h with h
        injection h with hs ha
        subst hs; subst ha
        obtain ⟨hp1, hge1, hlt1⟩ := hih s a s1 a' h1
        obtain ⟨hp2, hout2⟩ := ihl s1 s2 addrs2 h2
        refine ⟨pb_trans hp1 (pb_mono hp1.1 hp2), ?_⟩
        intro x hx
        rcases List.mem_cons.mp hx with hx | hx
        · subst hx
          exact ⟨hge1, Nat.lt_of_lt_of_le hlt1 hp2.1⟩
        · obtain ⟨hxa, hxb⟩ := hout2 x hx
          exact ⟨Nat.le_trans hp1.1 hxa, hxb⟩

theorem cloneS_ok : ∀ fuel, CloneOK (cloneS fuel) := by
  intro fuel
  induction fuel with
  | zero => intro s a s' a' h; cases h
  | succ fuel ihf =>
    intro s a s' a' h
    unfold cloneS cloneStepS at h
    cases hg : s.get? a with
    | none => rw [hg] at h; cases h
    | some c =>
      rw [hg] at h
      dsimp only at h
      cases hl : cloneListGoS (cloneS fuel) s c.bUnits with
      | none => rw [hl] at h; cases h
      | some r =>
        rw [hl] at h
        obtain ⟨s1, addrs⟩ := r
        dsimp only at h
        injection h with h
        injection h with hs ha
        subst hs; subst ha
        obtain ⟨hp, -⟩ := cloneListGoS_ok ihf c.bUnits s s1 addrs hl
        refine ⟨pb_trans hp (pb_append _ _ _ hp.1), hp.1, ?_⟩
        simp

theorem get?_lt_length {s : Store} {a : Nat} {c : UCell}
    (h : s.get? a = some c) : a < s.length := by
  by_contra hc
  rw [List.get?_eq_none.mpr (Nat.le_of_not_lt hc)] at h
  cases h

theorem findSym_mem (s : Store) (symb : List Char) :
    ∀ (l : List Nat) (o : Nat), findSym s symb l = some o → o ∈ l := by
  intro l
  induction l with
  | nil => intro o h; cases h
  | cons x t ihl =>
    intro o h
    unfold findSym at h
    cases hg : s.get? x with
    | none => rw [hg] at h; exact List.mem_cons_of_mem _ (ihl o h)
    | some c =>
      rw [hg] at h
      dsimp only at h
      by_cases hs : c.sym = symb
      · rw [if_pos hs] at h
        injection h with h
        subst h
        exact List.mem_cons_self _ _
      · rw [if_neg hs] at h
        exact List.mem_cons_of_mem _ (ihl o h)

theorem iaddS_pb {n : Nat} {s s' : Store} {o x : Nat} (ho : n ≤ o)
    (h : iaddS s o x = some s') :
    PreservesBelow n s s' ∧ s'.length = s.length := by
  unfold iaddS at h
  cases h1 : s.get? o with
  | none => rw [h1] at h; cases h
  | some co =>
    rw [h1] at h
    cases h2 : s.get? x with
    | none => rw [h2] at h; cases h
    | some cx =>
      rw [h2] at h
      dsimp only at h
      injection h with h
      subst h
      exact ⟨pb_set_ge s _ ho, by simp⟩

theorem iterMergeS_ok {cloneF : Store → Nat → Option (Store × Nat)}
    (hc : CloneOK cloneF) :
    ∀ (new : List Nat) (n : Nat) (s : Store) (out : List Nat) (s' : Store)
      (out' : List Nat),
      n ≤ s.length → (∀ o ∈ out, n ≤ o ∧ o < s.length) →
      iterMergeS cloneF s out new = some (s', out') →
      PreservesBelow n s s' ∧ ∀ o ∈ out', n ≤ o ∧ o < s'.length := by
  intro new
  induction new with
  | nil =>
    intro n s out s' out' hn hout h
    injection h with h
    injection h with h1 h2
    subst h1; subst h2
    exact ⟨pb_refl _ _, hout⟩
  | cons x t ihn =>
    intro n s out s' out' hn hout h
    unfold iterMergeS at h
    cases hg : s.get? x with
    | none => rw [hg] at h; cases h
    | some cx =>
      rw [hg] at h
      dsimp only at h
      cases hf : findSym s cx.sym out with
      | some o =>
        rw [hf] at h
        dsimp only at h
        cases hi : iaddS s o x with
        | none => rw [hi] at h; cases h
        | some s1 =>
          rw [hi] at h
          dsimp only at h
          obtain ⟨ho, -⟩ := hout o (findSym_mem s cx.sym out o hf)
          obtain ⟨hpb1, hlen1⟩ := iaddS_pb ho hi
          obtain ⟨hpb2, hout2⟩ := ihn n s1 out s' out'
            (by rw [hlen1]; exact hn)
            (fun o' ho' => ⟨(hout o' ho').1, by
              rw [hlen1]; exact (hout o' ho').2⟩) h
          exact ⟨pb_trans hpb1 hpb2, hout2⟩
      | none =>
        rw [hf] at h
        dsimp only at h
        cases hcl : cloneF s x with
        | none => rw [hcl] at h; cases h
        | some r =>
          rw [hcl] at h
          obtain ⟨s1, x'⟩ := r
          dsimp only at h
          obtain ⟨hpb1, hge1, hlt1⟩ := hc s x s1 x' hcl
          obtain ⟨hpb2, hout2⟩ := ihn n s1 (out ++ [x']) s' out'
            (Nat.le_trans hn hpb1.1)
            (fun o' ho' => by
              rcases List.mem_append.mp ho' with ho' | ho'
              · exact ⟨(hout o' ho').1,
                  Nat.lt_of_lt_of_le (hout o' ho').2 hpb1.1⟩
              · rcases List.mem_singleton.mp ho' with rfl
                exact ⟨Nat.le_trans hn hge1, hlt1⟩) h
          exact ⟨pb_trans (pb_mono hn hpb1) hpb2, hout2⟩

theorem iterNewBasesS_ok {cloneF : Store → Nat → Option (Store × Nat)}
    {ihIB : Store → Nat → Option (Store × List Nat)}
    (hc : CloneOK cloneF) (hib : IBOK ihIB) (selfExp : Rat) :
    ∀ (l : List Nat) (s s' : Store) (out : List Nat),
      iterNewBasesS cloneF ihIB selfExp s l = some (s', out) →
      PreservesBelow s.length s s' ∧
        ∀ x ∈ out, s.length ≤ x ∧ x < s'.length := by
  intro l
  induction l with
  | nil =>
    intro s s' out h
    injection h with h
    injection h with h1 h2
    subst h1; subst h2
    exact ⟨pb_refl _ _, by intro x hx; cases hx⟩
  | cons b0 t ihl =>
    intro s s' out h
    unfold iterNewBasesS at h
    cases hcl : cloneF s b0 with
    | none => rw [hcl] at h; cases h
    | some r1 =>
      rw [hcl] at h
      obtain ⟨s1, b⟩ := r1
      dsimp only at h
      obtain ⟨hpb1, hge1, hlt1⟩ := hc s b0 s1 b hcl
      cases hg : s1.get? b with
      | none => rw [hg] at h; cases h
      | some cb =>
        rw [hg] at h
        dsimp only at h
        cases hi : ihIB (s1.set b ⟨cb.sym, cb.fac, qMul cb.exp selfExp, cb.bUnits⟩) b with
        | none => rw [hi] at h; cases h
        | some r3 =>
          rw [hi] at h
          obtain ⟨s3, r⟩ := r3
          dsimp only at h
          obtain ⟨-, hpb3, hout3⟩ := hib _ b s3 r hi
          cases hrec : iterNewBasesS cloneF ihIB selfExp s3 t with
          | none => rw [hrec] at h; cases h
          | some r4 =>
            rw [hrec] at h
            obtain ⟨s4, rest⟩ := r4
            dsimp only at h
            injection h with h
            injection h with h1 h2
            subst h1; subst h2
            obtain ⟨hpb4, hout4⟩ := ihl s3 s4 rest hrec
            have hlen2 : (s1.set b ⟨cb.sym, cb.fac, qMul cb.exp selfExp,
                cb.bUnits⟩).length = s1.length := by simp
            have hpbA : PreservesBelow s.length s s3 :=
              pb_trans hpb1 (pb_trans (pb_set_ge s1 _ hge1)
                (pb_mono (by rw [hlen2]; exact hpb1.1) hpb3))
            refine ⟨pb_trans hpbA (pb_mono hpbA.1 hpb4), ?_⟩
            intro x hx
            rcases List.mem_append.mp hx with hx | hx
            · obtain ⟨hx1, hx2⟩ := hout3 x hx
              refine ⟨?_, Nat.lt_of_lt_of_le hx2 hpb4.1⟩
              rcases hx1 with rfl | hx1
              · exact hge1
              · rw [hlen2] at hx1; exact Nat.le_trans hpb1.1 hx1
            · obtain ⟨hx1, hx2⟩ := hout4 x hx
              exact ⟨Nat.le_trans hpbA.1 hx1, hx2⟩

theorem iterBasesFoldS_ok {ihIB : Store → Nat → Option (Store × List Nat)}
    (hib : IBOK ihIB) :
    ∀ (l : List Nat) (s s' : Store) (out : List Nat),
      iterBasesFoldS ihIB s l = some (s', out) →
      PreservesBelow s.length s s' ∧
        ∀ x ∈ out, (x ∈ l ∨ s.length ≤ x) ∧ x < s'.length := by
  intro l
  induction l with
  | nil =>
    intro s s' out h
    injection h with h
    injection h with h1 h2
    subst h1; subst h2
    exact ⟨pb_refl _ _, by intro x hx; cases hx⟩
  | cons b t ihl =>
    intro s s' out h
    unfold iterBasesFoldS at h
    cases hi : ihIB s b with
    | none => rw [hi] at h; cases h
    | some r1 =>
      rw [hi] at h
      obtain ⟨s1, r⟩ := r1
      dsimp only at h
      obtain ⟨-, hpb1, hout1⟩ := hib s b s1 r hi
      cases hrec : iterBasesFoldS ihIB s1 t with
      | none => rw [hrec] at h; cases h
      | some r2 =>
        rw [hrec] at h
        obtain ⟨s2, rest⟩ := r2
        dsimp only at h
        injection h with h
        injection h with h1 h2
        subst h1; subst h2
        obtain ⟨hpb2, hout2⟩ := ihl s1 s2 rest hrec
        refine ⟨pb_trans hpb1 (pb_mono hpb1.1 hpb2), ?_⟩
        intro x hx
        rcases List.mem_append.mp hx with hx | hx
        · obtain ⟨hx1, hx2⟩ := hout1 x hx
          refine ⟨?_, Nat.lt_of_lt_of_le hx2 hpb2.1⟩
          rcases hx1 with rfl | hx1
          · exact Or.inl (List.mem_cons_self _ _)
          · exact Or.inr hx1
        · obtain ⟨hx1, hx2⟩ := hout2 x hx
          refine ⟨?_, hx2⟩
          rcases hx1 with hx1 | hx1
          · exact Or.inl (List.mem_cons_of_mem _ hx1)
          · exact Or.inr (Nat.le_trans hpb1.1 hx1)

theorem iterBodyS_ok {cloneF : Store → Nat → Option (Store × Nat)}
    {ihIB : Store → Nat → Option (Store × List Nat)}
    (hc : CloneOK cloneF) (hib : IBOK ihIB) :
    IterOK (iterBodyS cloneF ihIB) := by
  intro s a s' out h
  unfold iterBodyS at h
  cases hg : s.get? a with
  | none => rw [hg] at h; cases h
  | some selfC =>
    rw [hg] at h
    dsimp only at h
    cases hnb : iterNewBasesS cloneF ihIB selfC.exp s selfC.bUnits with
    | none => rw [hnb] at h; cases h
    | some r1 =>
      rw [hnb] at h
      obtain ⟨s1, newBases⟩ := r1
      dsimp only at h
      obtain ⟨hpb1, hout1⟩ := iterNewBasesS_ok hc hib selfC.exp
        selfC.bUnits s s1 newBases hnb
      obtain ⟨hpb2, hout2⟩ := iterMergeS_ok hc newBases s.length s1 [] s' out
        hpb1.1 (by intro o ho; cases ho) h
      exact ⟨get?_lt_length hg, pb_trans hpb1 hpb2, hout2⟩

theorem iterBasesBodyS_ok {ihIter ihIB : Store → Nat → Option (Store × List Nat)}
    (hit : IterOK ihIter) (hib : IBOK ihIB) :
    IBOK (iterBasesBodyS ihIter ihIB) := by
  intro s a s' out h
  unfold iterBasesBodyS at h
  cases hi : ihIter s a with
  | none => rw [hi] at h; cases h
  | some r1 =>
    rw [hi] at h
    obtain ⟨s1, bases⟩ := r1
    dsimp only at h
    obtain ⟨ha, hpb1, hout1⟩ := hit s a s1 bases hi
    by_cases he : bases.isEmpty
    · rw [if_pos he] at h
      injection h with h
      injection h with h1 h2
      subst h1; subst h2
      refine ⟨ha, hpb1, ?_⟩
      intro x hx
      rcases List.mem_singleton.mp hx with rfl
      exact ⟨Or.inl rfl, Nat.lt_of_lt_of_le ha hpb1.1⟩
    · rw [if_neg he] at h
      obtain ⟨hpb2, hout2⟩ := iterBasesFoldS_ok hib bases s1 s' out h
      refine ⟨ha, pb_trans hpb1 (pb_mono hpb1.1 hpb2), ?_⟩
      intro x hx
      obtain ⟨hx1, hx2⟩ := hout2 x hx
      refine ⟨Or.inr ?_, hx2⟩
      rcases hx1 with hx1 | hx1
      · exact (hout1 x hx1).1
      · exact Nat.le_trans hpb1.1 hx1

theorem iterPairS_ok : ∀ fuel,
    IterOK (iterPairS fuel).1 ∧ IBOK (iterPairS fuel).2 := by
  intro fuel
  induction fuel with
  | zero =>
    constructor
    · intro s a s' out h; cases h
    · intro s a s' out h; cases h
  | succ fuel ihf =>
    have h1 : (iterPairS (fuel + 1)).1 =
        fun s a => iterBodyS (cloneS fuel) (iterPairS fuel).2 s a := rfl
    have h2 : (iterPairS (fuel + 1)).2 =
        fun s b => iterBasesBodyS (iterPairS fuel).1 (iterPairS fuel).2 s b := rfl
    constructor
    · rw [h1]
      exact iterBodyS_ok (cloneS_ok fuel) ihf.2
    · rw [h2]
      exact iterBasesBodyS_ok ihf.1 ihf.2

theorem combineMergeS_ok (n : Nat) :
    ∀ (l : List Nat) (s : Store) (out : List Nat) (s' : Store)
      (out' : List Nat),
      (∀ o ∈ out, n ≤ o) → (∀ b ∈ l, n ≤ b) →
      combineMergeS s out l = some (s', out') →
      PreservesBelow n s s' ∧ s'.length = s.length ∧ ∀ o ∈ out', n ≤ o := by
  intro l
  induction l with
  | nil =>
    intro s out s' out' hout hl h
    injection h with h
    injection h with h1 h2
    subst h1; subst h2
    exact ⟨pb_refl _ _, rfl, hout⟩
  | cons b t ihl =>
    intro s out s' out' hout hl h
    unfold combineMergeS at h
    cases hg : s.get? b with
    | none => rw [hg] at h; cases h
    | some cb =>
      rw [hg] at h
      dsimp only at h
      cases hf : findSym s cb.sym out with
      | some o =>
        rw [hf] at h
        dsimp only at h
        cases hi : iaddS s o b with
        | none => rw [hi] at h; cases h
        | some s1 =>
          rw [hi] at h
          dsimp only at h
          have ho : n ≤ o := hout o (findSym_mem s cb.sym out o hf)
          obtain ⟨hpb1, hlen1⟩ := iaddS_pb ho hi
          obtain ⟨hpb2, hlen2, hout2⟩ := ihl s1 out s' out' hout
            (fun b' hb' => hl b' (List.mem_cons_of_mem _ hb')) h
          exact ⟨pb_trans hpb1 hpb2, by rw [hlen2, hlen1], hout2⟩
      | none =>
        rw [hf] at h
        dsimp only at h
        exact ihl s (out ++ [b]) s' out'
          (fun o' ho' => by
            rcases List.mem_append.mp ho' with ho' | ho'
            · exact hout o' ho'
            · have hb := hl b (List.mem_cons_self _ _)
              rcases List.mem_singleton.mp ho' with rfl
              exact hb)
          (fun b' hb' => hl b' (List.mem_cons_of_mem _ hb')) h

theorem combineOuterS_ok (fuel : Nat) (n : Nat) :
    ∀ (l : List Nat) (s : Store) (out : List Nat) (s' : Store)
      (out' : List Nat),
      n ≤ s.length → (∀ o ∈ out, n ≤ o) →
      combineOuterS fuel s out l = some (s', out') →
      PreservesBelow n s s' := by
  intro l
  induction l with
  | nil =>
    intro s out s' out' hn hout h
    injection h with h
    injection h with h1 h2
    subst h1; subst h2
    exact pb_refl _ _
  | cons u rest ihl =>
    intro s out s' out' hn hout h
    unfold combineOuterS at h
    cases hi : (iterPairS fuel).1 s u with
    | none => rw [hi] at h; cases h
    | some r1 =>
      rw [hi] at h
      obtain ⟨s1, baseUnits⟩ := r1
      dsimp only at h
      obtain ⟨-, hpb1, hout1⟩ := (iterPairS_ok fuel).1 s u s1 baseUnits hi
      cases hm : combineMergeS s1 out baseUnits with
      | none => rw [hm] at h; cases h
      | some r2 =>
        rw [hm] at h
        obtain ⟨s2, out2⟩ := r2
        dsimp only at h
        obtain ⟨hpb2, hlen2, hout2⟩ := combineMergeS_ok n baseUnits s1 out
          s2 out2 hout
          (fun b hb => Nat.le_trans hn (hout1 b hb).1) hm
        have hn2 : n ≤ s2.length := by
          rw [hlen2]; exact Nat.le_trans hn hpb1.1
        exact pb_trans (pb_mono hn hpb1) (pb_trans hpb2
          (ihl s2 out2 s' out' hn2 hout2 h))

set_option maxRecDepth 100000 in
/-- C10: `combine_units` — the full flatten/merge/canonicalise pipeline built
from `Unit.__call__` (cloning) and `Unit.__iter__` (merging on clones) —
never mutates any cell that existed in the store when it started: every
pre-existing cell, in particular every catalog prototype, keeps its symbol,
factor, exponent and constituent list unchanged.  Hence no sequence of
convert calls mutates the global catalog. -/
theorem c10_no_catalog_mutation :
    ∀ (fuel : Nat) (s : Store) (a : Nat) (s' : Store) (out : List Char),
      combineUnitsS fuel s a = some (s', out) →
      ∀ i, i < s.length → s'.get? i = s.get? i := by
  intro fuel s a s' out h i hi
  unfold combineUnitsS at h
  cases hit : (iterPairS fuel).1 s a with
  | none => rw [hit] at h; cases h
  | some r1 =>
    rw [hit] at h
    obtain ⟨s1, atoms⟩ := r1
    dsimp only at h
    obtain ⟨-, hpb1, hout1⟩ := (iterPairS_ok fuel).1 s a s1 atoms hit
    cases hco : combineOuterS fuel s1 [] atoms with
    | none => rw [hco] at h; cases h
    | some r2 =>
      rw [hco] at h
      obtain ⟨s2, outUnits⟩ := r2
      dsimp only at h
      have hpb2 : PreservesBelow s.length s1 s2 :=
        combineOuterS_ok fuel s.length atoms s1 [] s2 outUnits hpb1.1
          (by intro o ho; cases ho) hco
      cases hst : strUnitsS s2 outUnits with
      | none => rw [hst] at h; cases h
      | some strs =>
        rw [hst] at h
        dsimp only at h
        injection h with h
        injection h with h1 h2
        subst h1
        exact (pb_trans hpb1 hpb2).2 i hi

set_option maxRecDepth 100000 in
theorem c10_no_catalog_mutation_witness :
    Option.elim (combineUnitsS 10 witnessStore 2) False
      (fun r => r.1.get? 0 = witnessStore.get? 0) := by
  cases hrun : combineUnitsS 10 witnessStore 2 with
  | none => exact absurd hrun (by decide)
  | some r =>
    exact c10_no_catalog_mutation 10 witnessStore 2 r.1 r.2
      (by rw [hrun]) 0 (by decide)
